import Mathlib

/-!
# Moby: impact event handling, constraint stabilization and thick triangles

A shallow embedding of `src/src/ImpactEventHandler.cpp`,
`src/src/ConstraintStabilization.cpp` and `src/src/ThickTriangle.cpp`.

Conventions of the embedding.

* A `shared_ptr` to a body is modelled by the address it holds (`DynamicBodyPtr`);
  comparison and ordering of pointers is comparison of addresses.
* A `double` is modelled by a rational number.  The line search of the stabilizer
  (`update_q`) is translated in double arithmetic, because how its loop ends depends
  on rounding: every product and every sum of `update_q` is rounded to the nearest
  double (`round_double`: IEEE 754 binary64, ties to even, with subnormal numbers;
  one rounding for each operation, no fused multiply-add and no wider intermediate),
  and a result beyond the largest finite double ends the run as `Outcome.undefined`.
  The other code is translated with exact arithmetic.
* The call `v.segment(start, end)` of the vector library has a value only for
  `start ≤ end ≤ v.size()`; a run that makes another such call is `Outcome.undefined`.
* `unsigned` is modelled by `Nat` with explicit reduction modulo `2^32` at every
  arithmetic operation of the source (`uadd`, `usub_size`, `umul`).  Loops of the
  form `for (unsigned i = 0; i < v.size(); i++)` are folds over the vector.
* Functions whose code lives outside the translated files (collision detection,
  the LCP/QP solvers, the body classes, `Event`, `EventProblemData::reset`, ...) are
  fields of a record of collaborators; every statement is proved for all of them.
* A matrix or vector operation that throws when the sizes of its operands do not fit
  returns an `Option`; `none` is the exception.
* The partition of the constraints into islands is not among the translated files; it
  is modelled from the specification, and the definitions say so.
* `assert` is not executed (the only build of `compute_problem_data` that compiles
  defines `NDEBUG`, since the assertion at line 417 mentions a variable declared
  three lines later); the asserted condition is a separate boolean definition.
-/

set_option autoImplicit false

namespace Moby

/-! ## Machine integers -/

/-- Number of values of the 32-bit C++ type `unsigned`. -/
def UWORD : Nat := 4294967296

/-- Value of `std::numeric_limits<unsigned>::max()`: the sentinel `UINF` that marks a
true friction cone. -/
def UINF : Nat := 4294967295

/-- Sum of two `unsigned` values. -/
def uadd (a b : Nat) : Nat := (a + b) % UWORD

/-- Product of two `unsigned` values. -/
def umul (a b : Nat) : Nat := (a * b) % UWORD

/-- Value of `v.size() - n` stored into an `unsigned`, for a vector of `size` elements
and an `unsigned` value `n`. -/
def usub_size (size n : Nat) : Nat := (size % UWORD + UWORD - n % UWORD) % UWORD

/-- Conversion of a `size_t` to `unsigned`. -/
def to_unsigned (n : Nat) : Nat := n % UWORD

/-! ## Bodies, joints, events -/

/-- Address held by a `DynamicBodyPtr` (or by a pointer to one of its subclasses). -/
abbrev DynamicBodyPtr := Nat

/-- Three-dimensional vector. -/
structure Vector3d where
  x : ℚ
  y : ℚ
  z : ℚ
  deriving DecidableEq, Inhabited

/-- Point in space. -/
abbrev Point3d := Vector3d

/-- Spatial force / impulse (`Wrenchd`). -/
structure Wrenchd where
  force : Vector3d
  torque : Vector3d
  deriving DecidableEq, Inhabited

/-- Unary minus of a wrench (`-w`). -/
def Wrenchd.neg (w : Wrenchd) : Wrenchd :=
  ⟨⟨-w.force.x, -w.force.y, -w.force.z⟩, ⟨-w.torque.x, -w.torque.y, -w.torque.z⟩⟩

/-- What the handlers read from a `SingleBody`. -/
structure SingleBody where
  /-- the body itself, as a `DynamicBodyPtr` -/
  self : DynamicBodyPtr
  /-- result of `get_articulated_body()` (`none` is the null pointer) -/
  articulated_body : Option DynamicBodyPtr
  /-- result of the member function `SingleBody::get_super_body()` -/
  super_body : DynamicBodyPtr
  deriving DecidableEq, Inhabited

/-- A joint of an articulated body: position and limits per degree of freedom. -/
structure Joint where
  q : List ℚ
  lolimit : List ℚ
  hilimit : List ℚ
  deriving DecidableEq, Inhabited

/-- A collision geometry: its identity and the single body that owns it. -/
structure CollisionGeometry where
  id : Nat
  single_body : SingleBody
  deriving DecidableEq, Inhabited

/-- What the stabilizer reads from a `RigidBody`. -/
structure RigidBody where
  body : SingleBody
  geometries : List CollisionGeometry
  deriving DecidableEq, Inhabited

/-- What the handlers read from an `ArticulatedBody`. -/
structure ArticulatedBody where
  use_advanced_friction_model : Bool
  num_constraint_eqns_explicit : Nat
  num_constraint_eqns_implicit : Nat
  num_joint_dof_implicit : Nat
  num_joint_dof_explicit : Nat
  /-- result of `get_joints()` -/
  joints : List Joint
  /-- result of `get_links()` -/
  links : List RigidBody
  deriving DecidableEq, Inhabited

/-- Values of `Event::EventType`. -/
inductive EventType where
  | eNone
  | eContact
  | eLimit
  deriving DecidableEq, Inhabited

/-- What the impact handler reads from an `Event` (and from a `UnilateralConstraint`,
which has the same members under the names used by the stabilizer). -/
structure Event where
  event_type : EventType
  /-- number of edges of the friction polygon, an `unsigned` -/
  contact_NK : Fin 4294967296
  /-- `contact_geom1->get_single_body()` -/
  contact_geom1 : SingleBody
  /-- `contact_geom2->get_single_body()` -/
  contact_geom2 : SingleBody
  contact_impulse : Wrenchd
  contact_point : Point3d
  /-- `limit_joint->get_outboard_link()` -/
  limit_joint_outboard : SingleBody
  deriving DecidableEq, Inhabited

/-- A `UnilateralConstraint` of the stabilizer has the members of `Event`
(`constraint_type` is `event_type`). -/
abbrev UnilateralConstraint := Event

/-- Source: `ImpactEventHandler::get_super_body` (lines 557-565) and the identical
`ConstraintStabilization::get_super_body` (lines 252-260). -/
def get_super_body (sb : SingleBody) : DynamicBodyPtr :=
  match sb.articulated_body with
  | some ab => ab
  | none => sb.self

/-! ## Standard library algorithms -/

/-- Model of `std::sort` on a vector of body pointers (ascending addresses). -/
def std_sort (l : List DynamicBodyPtr) : List DynamicBodyPtr :=
  l.insertionSort (fun a b => a ≤ b)

/-- Loop of `std::unique`: `last` is the element most recently kept. -/
def std_unique_from (last : DynamicBodyPtr) : List DynamicBodyPtr → List DynamicBodyPtr
  | [] => []
  | x :: xs => if last = x then std_unique_from last xs else x :: std_unique_from x xs

/-- Model of `v.erase(std::unique(v.begin(), v.end()), v.end())`: of every run of equal
consecutive elements the first is kept. -/
def std_unique : List DynamicBodyPtr → List DynamicBodyPtr
  | [] => []
  | x :: xs => x :: std_unique_from x xs

/-- Source: lines 277-294 of `ImpactEventHandler.cpp` and lines 269-286 of
`ConstraintStabilization.cpp`: the super bodies of the two bodies of every contact,
then of the outboard link of every limit, sorted and made unique. -/
def determine_super_bodies (contacts limits : List Event) : List DynamicBodyPtr :=
  let from_contacts := contacts.foldl
    (fun sbs e => sbs ++ [get_super_body e.contact_geom1, get_super_body e.contact_geom2]) []
  let all := limits.foldl
    (fun sbs e => sbs ++ [get_super_body e.limit_joint_outboard]) from_contacts
  std_unique (std_sort all)

/-! ## Dense matrices and vectors as entry functions -/

/-- Assignment `M(a, b) = v`. -/
def mset (M : Nat → Nat → ℚ) (a b : Nat) (v : ℚ) : Nat → Nat → ℚ :=
  fun x y => if x = a ∧ y = b then v else M x y

/-- Assignment `q[a] = v`. -/
def vset (q : Nat → ℚ) (a : Nat) (v : ℚ) : Nat → ℚ :=
  fun x => if x = a then v else q x

/-! ## `std::map` keyed by body pointer -/

/-- Lookup in a `std::map` keyed by body pointer (`m.find(k)`); `none` is `m.end()`. -/
def map_find {V : Type} (k : DynamicBodyPtr) : List (DynamicBodyPtr × V) → Option V
  | [] => none
  | (k1, v1) :: t => if k = k1 then some v1 else map_find k t

/-- Assignment `m[k] = v` in a `std::map` keyed by body pointer: the entries are kept
in ascending key order, an existing entry for `k` is overwritten. -/
def map_assign {V : Type} (k : DynamicBodyPtr) (v : V) :
    List (DynamicBodyPtr × V) → List (DynamicBodyPtr × V)
  | [] => [(k, v)]
  | (k1, v1) :: t =>
    if k < k1 then (k, v) :: (k1, v1) :: t
    else if k = k1 then (k, v) :: t
    else (k1, v1) :: map_assign k v t

/-- The call `m.insert(std::make_pair(k, v))`: an entry whose key is already present is
left as it is. -/
def map_insert {V : Type} (k : DynamicBodyPtr) (v : V)
    (m : List (DynamicBodyPtr × V)) : List (DynamicBodyPtr × V) :=
  match map_find k m with
  | some _ => m
  | none => map_assign k v m

/-! ## Impact event handler (`ImpactEventHandler.cpp`) -/

/-- Value of `std::numeric_limits<float>::max()`. -/
def FLT_MAX : ℚ := 340282346638528859811704183484516925440

/-- The members of `EventProblemData` used by the translated code.  The Jacobian product
matrices and impulse vectors that `compute_problem_data` only zero-initialises (lines
341-372) are not represented. -/
structure EventProblemData where
  events : List Event
  contact_events : List Event
  limit_events : List Event
  super_bodies : List DynamicBodyPtr
  contact_working_set : List Bool
  N_CONTACTS : Nat
  N_LIMITS : Nat
  N_CONSTRAINT_EQNS_EXP : Nat
  N_CONSTRAINT_DOF_IMP : Nat
  N_CONSTRAINT_DOF_EXP : Nat
  N_K_TOTAL : Nat
  N_LIN_CONE : Nat
  N_TRUE_CONE : Nat
  ALPHA_C_IDX : Nat
  BETA_C_IDX : Nat
  NBETA_C_IDX : Nat
  BETAU_C_IDX : Nat
  ALPHA_L_IDX : Nat
  BETA_T_IDX : Nat
  ALPHA_X_IDX : Nat
  BETA_X_IDX : Nat
  N_VARS : Nat
  /-- index mapping of every event into the rows and columns of `M` -/
  mappings : List (List Nat)
  M : Nat → Nat → ℚ
  q : Nat → ℚ
  kappa : ℚ

/-- Calls to collaborators that the handler's state records, in the order made. -/
inductive Call (V : Type) where
  | solve_qp
  | solve_nqp
  | apply_generalized_impulse (body : DynamicBodyPtr) (gj : V)
  deriving DecidableEq

/-- Code used by the impact handler that is defined outside the translated files.
`σ` is the state of the bodies and events of the simulation, `V` the type of
generalized force vectors. -/
structure Collaborators (σ V : Type) where
  /-- the static function `Event::determine_connected_events` -/
  determine_connected_events : List Event → List (List Event)
  /-- the static function `Event::remove_nonimpacting_groups` -/
  remove_nonimpacting_groups : σ → List (List Event) → List (List Event)
  /-- the method `Event::determine_contact_tangents` -/
  determine_contact_tangents : Event → σ → σ
  /-- the static function `Event::determine_minimal_set` -/
  determine_minimal_set : σ → List Event → List Event
  /-- the method `Event::is_impacting` -/
  is_impacting : σ → Event → Bool
  /-- the method `Event::calc_event_data`: self-term matrix and vector -/
  calc_event_data : σ → Event → (Nat → Nat → ℚ) × (Nat → ℚ)
  /-- the method `Event::calc_cross_event_data`: `none` when it returns `false` -/
  calc_cross_event_data : σ → Event → Event → Option (Nat → Nat → ℚ)
  /-- the method `EventProblemData::reset` -/
  reset : EventProblemData → EventProblemData
  /-- the method `EventProblemData::partition_events` -/
  partition_events : EventProblemData → EventProblemData
  /-- result of `dynamic_pointer_cast<ArticulatedBody>` (`none` is the null pointer) -/
  as_articulated : DynamicBodyPtr → Option ArticulatedBody
  solve_qp : σ → EventProblemData → ℚ → EventProblemData
  solve_nqp : σ → EventProblemData → ℚ → EventProblemData
  /-- the method `DynamicBody::convert_to_generalized_force` of the body given first -/
  convert_to_generalized_force : DynamicBodyPtr → SingleBody → Wrenchd → Point3d → V
  /-- the method `DynamicBody::apply_generalized_impulse` of the body given first -/
  apply_generalized_impulse : DynamicBodyPtr → V → σ → σ

/-- State across calls of the handler: the simulation, the handler's parameter
`poisson_eps`, the function-local static `epd` of `apply_model_to_connected_events`,
and the record of calls. -/
structure HandlerState (σ V : Type) where
  world : σ
  poisson_eps : ℚ
  epd : EventProblemData
  calls : List (Call V)

namespace ImpactEventHandler

/-- Source: `use_qp_solver` (lines 192-213).  The first loop runs over
`i < epd.N_CONTACTS`. -/
def use_qp_solver {σ V : Type} (c : Collaborators σ V) (epd : EventProblemData) : Bool :=
  if (epd.contact_events.take epd.N_CONTACTS).any (fun e => e.contact_NK.val == UINF) then
    false
  else if epd.super_bodies.any (fun b =>
      match c.as_articulated b with
      | some abody => abody.use_advanced_friction_model
      | none => false) then
    false
  else
    true

/-- Source: lines 304-316 of `compute_problem_data`, one iteration of the loop over the
super bodies; the triple is `(N_CONSTRAINT_EQNS_EXP, N_CONSTRAINT_DOF_IMP,
N_CONSTRAINT_DOF_EXP)`. -/
def add_articulated_constants {σ V : Type} (c : Collaborators σ V)
    (n : Nat × Nat × Nat) (b : DynamicBodyPtr) : Nat × Nat × Nat :=
  match c.as_articulated b with
  | some abody =>
    let eqns := uadd n.1 abody.num_constraint_eqns_explicit
    if abody.use_advanced_friction_model then
      (eqns, uadd n.2.1 abody.num_joint_dof_implicit, uadd n.2.2 abody.num_joint_dof_explicit)
    else
      (eqns, n.2.1, n.2.2)
  | none => n

/-- Source: lines 318-328 of `compute_problem_data`: the loop that counts the friction
polygon edges; the pair is `(N_K_TOTAL, N_LIN_CONE)` and the loop is left at the first
contact whose `contact_NK` is `UINF`. -/
def count_lin_cone : List Event → Nat × Nat → Nat × Nat
  | [], n => n
  | e :: es, n =>
    if e.contact_NK.val < UINF then
      count_lin_cone es (uadd n.1 (e.contact_NK.val / 2), uadd n.2 1)
    else if e.contact_NK.val = UINF then
      n
    else
      count_lin_cone es n

/-- Source: lines 333-338 of `compute_problem_data`: the condition of the assertion,
checked for every `i` from `N_LIN_CONE` to the end of the contact vector. -/
def true_cones_at_end (q : EventProblemData) : Bool :=
  (q.contact_events.drop q.N_LIN_CONE).all (fun e => e.contact_NK.val == UINF)

/-- Source: lines 399-405 of `compute_problem_data`: the self terms of one event are
written into `M` and `q` through the event's index mapping. -/
def set_self_terms (mapping_i : List Nat) (updM : Nat → Nat → ℚ) (updq : Nat → ℚ)
    (Mq : (Nat → Nat → ℚ) × (Nat → ℚ)) : (Nat → Nat → ℚ) × (Nat → ℚ) :=
  (List.range mapping_i.length).foldl
    (fun st r =>
      ((List.range mapping_i.length).foldl
          (fun M s => mset M (mapping_i.getD r 0) (mapping_i.getD s 0) (updM r s)) st.1,
        vset st.2 (mapping_i.getD r 0) (updq r)))
    Mq

/-- Position below `n` of the last occurrence of the index `x` in a mapping: the
iteration of a loop over the mapping whose write to row or column `x` is the one that
remains. -/
def last_index (mapping : List Nat) : Nat → Nat → Option Nat
  | 0, _ => none
  | n + 1, x => if mapping.getD n 0 = x then some n else last_index mapping n x

/-- Source: lines 419-426 of `compute_problem_data`: the cross terms of events `i` and
`j` are written into `M` together with their mirror image. -/
def set_cross_terms (mapping_i mapping_j : List Nat) (updM : Nat → Nat → ℚ)
    (M : Nat → Nat → ℚ) : Nat → Nat → ℚ :=
  (List.range mapping_i.length).foldl
    (fun M1 r =>
      (List.range mapping_j.length).foldl
        (fun M2 s =>
          mset (mset M2 (mapping_i.getD r 0) (mapping_j.getD s 0) (updM r s))
            (mapping_j.getD s 0) (mapping_i.getD r 0) (updM r s))
        M1)
    M

/-- Source: lines 407-428 of `compute_problem_data`: the loop over the events `j` after
event `i`; `rest` holds the events from index `j` on. -/
def cross_event_loop {σ V : Type} (c : Collaborators σ V) (w : σ)
    (mappings : List (List Nat)) (ei : Event) (mapping_i : List Nat) :
    Nat → List Event → (Nat → Nat → ℚ) → (Nat → Nat → ℚ)
  | _, [], M => M
  | j, ej :: rest, M =>
    match c.calc_cross_event_data w ei ej with
    | some updM =>
      cross_event_loop c w mappings ei mapping_i (j + 1) rest
        (set_cross_terms mapping_i (mappings.getD j []) updM M)
    | none => cross_event_loop c w mappings ei mapping_i (j + 1) rest M

/-- Source: lines 389-429 of `compute_problem_data`: the loop over all events; `evs`
holds the events from index `i` on. -/
def event_loop {σ V : Type} (c : Collaborators σ V) (w : σ) (mappings : List (List Nat)) :
    Nat → List Event → (Nat → Nat → ℚ) × (Nat → ℚ) → (Nat → Nat → ℚ) × (Nat → ℚ)
  | _, [], Mq => Mq
  | i, ei :: rest, Mq =>
    let upd := c.calc_event_data w ei
    let mapping_i := mappings.getD i []
    let Mq1 := set_self_terms mapping_i upd.1 upd.2 Mq
    event_loop c w mappings (i + 1) rest
      (cross_event_loop c w mappings ei mapping_i (i + 1) rest Mq1.1, Mq1.2)

/-- Source: `compute_problem_data` (lines 270-430). -/
def compute_problem_data {σ V : Type} (c : Collaborators σ V) (w : σ)
    (q : EventProblemData) : EventProblemData :=
  let super_bodies := determine_super_bodies q.contact_events q.limit_events
  let N_CONTACTS := to_unsigned q.contact_events.length
  let N_LIMITS := to_unsigned q.limit_events.length
  let contact_working_set := List.replicate N_CONTACTS true
  let art := super_bodies.foldl (add_articulated_constants c)
    (q.N_CONSTRAINT_EQNS_EXP, q.N_CONSTRAINT_DOF_IMP, q.N_CONSTRAINT_DOF_EXP)
  let cones := count_lin_cone q.contact_events (q.N_K_TOTAL, q.N_LIN_CONE)
  let N_LIN_CONE := cones.2
  let N_TRUE_CONE := usub_size q.contact_events.length N_LIN_CONE
  let ALPHA_C_IDX := 0
  let BETA_C_IDX := uadd ALPHA_C_IDX N_CONTACTS
  let NBETA_C_IDX := uadd BETA_C_IDX (umul N_LIN_CONE 2)
  let BETAU_C_IDX := uadd NBETA_C_IDX (umul N_LIN_CONE 2)
  let ALPHA_L_IDX := uadd BETAU_C_IDX N_TRUE_CONE
  let BETA_T_IDX := uadd ALPHA_L_IDX N_LIMITS
  let ALPHA_X_IDX := uadd BETA_T_IDX art.2.1
  let BETA_X_IDX := uadd ALPHA_X_IDX art.1
  let N_VARS := uadd BETA_X_IDX art.2.2
  let Mq := event_loop c w q.mappings 0 q.events (q.M, q.q)
  { q with
    super_bodies := super_bodies
    contact_working_set := contact_working_set
    N_CONTACTS := N_CONTACTS
    N_LIMITS := N_LIMITS
    N_CONSTRAINT_EQNS_EXP := art.1
    N_CONSTRAINT_DOF_IMP := art.2.1
    N_CONSTRAINT_DOF_EXP := art.2.2
    N_K_TOTAL := cones.1
    N_LIN_CONE := N_LIN_CONE
    N_TRUE_CONE := N_TRUE_CONE
    ALPHA_C_IDX := ALPHA_C_IDX
    BETA_C_IDX := BETA_C_IDX
    NBETA_C_IDX := NBETA_C_IDX
    BETAU_C_IDX := BETAU_C_IDX
    ALPHA_L_IDX := ALPHA_L_IDX
    BETA_T_IDX := BETA_T_IDX
    ALPHA_X_IDX := ALPHA_X_IDX
    BETA_X_IDX := BETA_X_IDX
    N_VARS := N_VARS
    M := Mq.1
    q := Mq.2 }

/-- Source: lines 239-245 (and 248-254) of `apply_impulses`: the generalized force `f`
on body `b` is stored under `b` if the map has no entry for `b` and added to the
entry otherwise. -/
def accumulate_impulse {V : Type} [Add V] (gj : List (DynamicBodyPtr × V))
    (b : DynamicBodyPtr) (f : V) : List (DynamicBodyPtr × V) :=
  match map_find b gj with
  | none => map_assign b f gj
  | some old => map_assign b (old + f) gj

/-- Source: lines 222-255 of `apply_impulses`: the map `gj` after the loop over the
contact events. -/
def generalized_impulses {σ V : Type} [Add V] (c : Collaborators σ V)
    (contact_events : List Event) : List (DynamicBodyPtr × V) :=
  contact_events.foldl
    (fun gj e =>
      let w := e.contact_impulse
      let p := e.contact_point
      let sb1 := e.contact_geom1
      let sb2 := e.contact_geom2
      let b1 := sb1.super_body
      let b2 := sb2.super_body
      let gj1 := accumulate_impulse gj b1 (c.convert_to_generalized_force b1 sb1 w p)
      accumulate_impulse gj1 b2 (c.convert_to_generalized_force b2 sb2 w.neg p))
    []

/-- Source: `apply_impulses` (lines 215-268).  The loop over the limit events has an
empty body; the last loop applies every entry of the map to its body. -/
def apply_impulses {σ V : Type} [Add V] (c : Collaborators σ V) (q : EventProblemData)
    (s : HandlerState σ V) : HandlerState σ V :=
  (generalized_impulses c q.contact_events).foldl
    (fun st i =>
      { st with
        world := c.apply_generalized_impulse i.1 i.2 st.world
        calls := st.calls ++ [Call.apply_generalized_impulse i.1 i.2] })
    s

/-- Source: lines 136-165 of `apply_model_to_connected_events`: the problem data of the
island as it is when the solver is chosen (reset, events saved and partitioned, cross
terms computed, `kappa` set). -/
def island_problem_data {σ V : Type} (c : Collaborators σ V) (events : List Event)
    (s : HandlerState σ V) : EventProblemData :=
  let epd0 := c.reset s.epd
  let epd1 := { epd0 with events := events }
  let epd2 := c.partition_events epd1
  let epd3 := compute_problem_data c s.world epd2
  { epd3 with kappa := -FLT_MAX }

/-- Source: `apply_model_to_connected_events` (lines 125-190), without the logging of
the kinetic energy. -/
def apply_model_to_connected_events {σ V : Type} [Add V] (c : Collaborators σ V)
    (events : List Event) (s : HandlerState σ V) : HandlerState σ V :=
  let epd := island_problem_data c events s
  let s1 : HandlerState σ V :=
    if use_qp_solver c epd then
      { s with epd := c.solve_qp s.world epd s.poisson_eps, calls := s.calls ++ [Call.solve_qp] }
    else
      { s with epd := c.solve_nqp s.world epd s.poisson_eps, calls := s.calls ++ [Call.solve_nqp] }
  apply_impulses c s1.epd s1

/-- Source: lines 116-122 of `apply_model`, the events of one group.  The statement
guarded by `is_impacting()` is the `if (!impacting.empty()) throw ...` that follows
it; nothing is ever added to `impacting`. -/
def check_group (is_impacting : Event → Bool) (impacting : List Event) :
    List Event → Except (List Event) Unit
  | [] => Except.ok ()
  | j :: rest =>
    if is_impacting j then
      if !impacting.isEmpty then Except.error impacting
      else check_group is_impacting impacting rest
    else check_group is_impacting impacting rest

/-- Source: lines 116-122 of `apply_model`, the loop over the groups. -/
def check_groups (is_impacting : Event → Bool) (impacting : List Event) :
    List (List Event) → Except (List Event) Unit
  | [] => Except.ok ()
  | i :: rest =>
    match check_group is_impacting impacting i with
    | Except.error e => Except.error e
    | Except.ok _ => check_groups is_impacting impacting rest

/-- Source: lines 90-113 of `apply_model`, the body of the loop over the groups. -/
def process_group {σ V : Type} [Add V] (c : Collaborators σ V) (s : HandlerState σ V)
    (group : List Event) : HandlerState σ V :=
  let w1 := group.foldl
    (fun w e => if e.event_type = EventType.eContact then c.determine_contact_tangents e w else w)
    s.world
  let revents := c.determine_minimal_set w1 group
  apply_model_to_connected_events c revents { s with world := w1 }

/-- Source: `apply_model` (lines 72-123).  The error value is the event list carried by
`ImpactToleranceException`. -/
def apply_model {σ V : Type} [Add V] (c : Collaborators σ V) (events : List Event)
    (s : HandlerState σ V) : Except (List Event) (HandlerState σ V) :=
  let impacting : List Event := []
  let groups := c.remove_nonimpacting_groups s.world (c.determine_connected_events events)
  let s1 := groups.foldl (process_group c) s
  match check_groups (c.is_impacting s1.world) impacting groups with
  | Except.error e => Except.error e
  | Except.ok _ => Except.ok s1

/-- Specification of the impulse on body `b` that the claim about `apply_impulses`
states: over all contact events, the generalized force of the contact impulse for
events whose first body has super body `b`, plus the generalized force of the negated
impulse for events whose second body has super body `b`. -/
def spec_impulse {σ V : Type} [AddCommMonoid V] (c : Collaborators σ V)
    (contact_events : List Event) (b : DynamicBodyPtr) : V :=
  (contact_events.map (fun e =>
    (if e.contact_geom1.super_body = b then
        c.convert_to_generalized_force b e.contact_geom1 e.contact_impulse e.contact_point
      else 0) +
    (if e.contact_geom2.super_body = b then
        c.convert_to_generalized_force b e.contact_geom2 e.contact_impulse.neg e.contact_point
      else 0))).sum

end ImpactEventHandler

/-! ## Constraint stabilization (`ConstraintStabilization.cpp`) -/

/-- Value of `std::numeric_limits<double>::max()`, `(2^53 - 1) * 2^971`. -/
def DBL_MAX : ℚ := ((2 ^ 53 - 1) * 2 ^ 971 : Nat)

/-- The number `2 ^ e` for an integer `e`. -/
def pow2 (e : ℤ) : ℚ :=
  if 0 ≤ e then ((2 ^ e.toNat : Nat) : ℚ) else 1 / ((2 ^ (-e).toNat : Nat) : ℚ)

/-- The number `m * 2 ^ e`. -/
def dyadic (m e : ℤ) : ℚ := m * pow2 e

/-- The value `f n`, with `n` evaluated before `f` is applied: the match only fixes
the order of evaluation, and `with_value n f = f n`. -/
def with_value {α : Type} (n : Nat) (f : Nat → α) : α :=
  match n with
  | 0 => f 0
  | k + 1 => f (k + 1)

/-- Binary search over the bits `i - 1, ..., 0`: the largest `j = k + b` with
`b < 2 ^ i` and `2 ^ j ≤ 2 ^ 1022 * (n / d)`, or `k` if there is none. -/
def exponent_search (n d : Nat) : Nat → Nat → Nat
  | 0, k => k
  | i + 1, k =>
    if d * 2 ^ (k + 2 ^ i) ≤ n * 2 ^ 1022 then exponent_search n d i (k + 2 ^ i)
    else exponent_search n d i k

/-- The natural number nearest to `n / d`; of two nearest ones, the even one. -/
def round_half_even (n d : Nat) : Nat :=
  with_value (n / d) fun q =>
  with_value (n % d) fun r =>
  if 2 * r < d then q
  else if d < 2 * r then q + 1
  else if q % 2 = 0 then q else q + 1

/-- Rounding of the positive number `n / d` to a double.  With `j` the largest number
below `2048` with `2 ^ (j - 1022) ≤ n / d` (and `0` if there is none), `j - 1022` is
the binary exponent of `n / d`, limited to the range from `-1022`, at and below which
the doubles have the spacing `2 ^ -1074`, to `1025`, which is beyond the finite
doubles.  The result is the multiple of the unit in the last place
`2 ^ (j - 1022 - 52)` nearest to `n / d`, ties to even. -/
def round_ratio (n d : Nat) : ℚ :=
  with_value (exponent_search n d 11 0) fun j =>
  if 1074 ≤ j then
    with_value (j - 1074) fun k => ((round_half_even n (d * 2 ^ k) * 2 ^ k : Nat) : ℚ)
  else
    with_value (1074 - j) fun k => mkRat (round_half_even (n * 2 ^ k) d) (2 ^ k)

/-- Rounding of a real result to a `double` (IEEE 754 binary64, round to nearest, ties
to even, subnormal numbers included): zero is zero, and a number that is not zero has
the sign of `x` and the rounded magnitude.  A result beyond the largest double,
which the machine rounds to an infinity, is not a double: see `is_finite`. -/
def round_double (x : ℚ) : ℚ :=
  with_value x.num.natAbs fun n =>
  with_value x.den fun d =>
  if n = 0 then 0
  else if x < 0 then -(round_ratio n d) else round_ratio n d

/-- The product `a * b` of two doubles, as a double. -/
def dmul (a b : ℚ) : ℚ := round_double (a * b)

/-- The sum `a + b` of two doubles, as a double. -/
def dadd (a b : ℚ) : ℚ := round_double (a + b)

/-- Whether a rounded result is a finite double. -/
def is_finite (x : ℚ) : Bool := decide (|x| ≤ DBL_MAX)

/-- A dense matrix: its dimensions and its entries. -/
structure MatrixNd where
  rows : Nat
  columns : Nat
  elem : Nat → Nat → ℚ

/-- The call `A.set_zero(r, c)`. -/
def MatrixNd.set_zero (r c : Nat) : MatrixNd := ⟨r, c, fun _ _ => 0⟩

/-- Assignment `A(i, j) = v`. -/
def MatrixNd.put (A : MatrixNd) (i j : Nat) (v : ℚ) : MatrixNd :=
  { A with elem := mset A.elem i j v }

/-- Assignment `*it = v` through a row iterator of `A` that has been advanced `k`
times from `A.row_iterator_begin()`: a row iterator visits the entries row by row. -/
def MatrixNd.put_row_iterator (A : MatrixNd) (k : Nat) (v : ℚ) : MatrixNd :=
  A.put (k / A.columns) (k % A.columns) v

/-- Assignment `A.block(rs, re, cs, ce) = X`. -/
def MatrixNd.set_block (A : MatrixNd) (rs re cs ce : Nat) (X : Nat → Nat → ℚ) : MatrixNd :=
  { A with
    elem := fun a b =>
      if rs ≤ a ∧ a < re ∧ cs ≤ b ∧ b < ce then X (a - rs) (b - cs) else A.elem a b }

/-- The call `MatrixNd::transpose(X, A.block(rs, re, cs, ce))`. -/
def MatrixNd.set_block_transpose (A : MatrixNd) (rs re cs ce : Nat) (X : Nat → Nat → ℚ) :
    MatrixNd :=
  { A with
    elem := fun a b =>
      if rs ≤ a ∧ a < re ∧ cs ≤ b ∧ b < ce then X (b - cs) (a - rs) else A.elem a b }

/-- The elements `start, ..., end_ - 1` of a vector, for `start ≤ end_ ≤ v.size()`. -/
def elements (v : List ℚ) (start end_ : Nat) : List ℚ := (v.drop start).take (end_ - start)

/-- The call `v.segment(start, end_)` of the vector library: the elements
`start, ..., end_ - 1` when `start ≤ end_ ≤ v.size()`.  The library is not among the
translated files; what it does with other arguments (an exception, or an unsigned
length that wraps) has no counterpart here: `none`. -/
def segment (v : List ℚ) (start end_ : Nat) : Option (List ℚ) :=
  if start ≤ end_ ∧ end_ ≤ v.length then some (elements v start end_) else none

/-- Assignment of `vals` to the shared segment of `v` that begins at `start`. -/
def write_segment : List ℚ → Nat → List ℚ → List ℚ
  | v, _, [] => v
  | v, start, x :: xs => write_segment (v.set start x) (start + 1) xs

/-- An entry of `_pairwise_distances`. -/
structure PairwiseDistInfo where
  dist : ℚ
  deriving DecidableEq, Inhabited

/-- The two kinds of body that the stabilizer distinguishes by `dynamic_pointer_cast`. -/
inductive DynamicBodyKind where
  | rigid (rb : RigidBody)
  | articulated (ab : ArticulatedBody)
  deriving DecidableEq

/-- A body of the simulator. -/
structure DynamicBody where
  addr : DynamicBodyPtr
  kind : DynamicBodyKind
  /-- generalized coordinates in the `eEuler` convention; their number is the value of
  `num_generalized_coordinates(DynamicBody::eEuler)` -/
  gc : List ℚ
  deriving DecidableEq

/-- What the stabilizer does to the simulator, recorded in the order done. -/
inductive Effect where
  | set_generalized_coordinates (body : DynamicBodyPtr) (gc : List ℚ)
  | calc_pairwise_distances
  | compute_problem_data
  deriving DecidableEq

/-- The members of `ConstraintSimulator` used by the stabilizer, and the record of
effects. -/
structure ConstraintSimulator where
  bodies : List DynamicBody
  pairwise_distances : List PairwiseDistInfo
  effects : List Effect
  deriving DecidableEq

/-- The members of `UnilateralConstraintProblemData` used by the translated code.  The
matrices and vectors that `set_unilateral_constraint_data` only zero-initialises are
not represented. -/
structure UnilateralConstraintProblemData where
  contact_constraints : List UnilateralConstraint
  limit_constraints : List UnilateralConstraint
  super_bodies : List DynamicBodyPtr
  N_GC : Nat
  N_CONTACTS : Nat
  N_LIMITS : Nat
  N_CONSTRAINT_EQNS_IMP : Nat
  N_K_TOTAL : Nat
  N_LIN_CONE : Nat
  N_TRUE_CONE : Nat
  CN_IDX : Nat
  CS_IDX : Nat
  CT_IDX : Nat
  NCS_IDX : Nat
  NCT_IDX : Nat
  L_IDX : Nat
  ALPHA_X_IDX : Nat
  N_VARS : Nat
  Cn_iM_CnT : MatrixNd
  Cn_iM_LT : MatrixNd
  L_iM_LT : MatrixNd
  Cn_v : List ℚ
  L_v : List ℚ

/-- Code used by the stabilizer that is defined outside the translated files. -/
structure StabilizerCollaborators where
  /-- the constant `NEAR_ZERO` of `Constants.h` -/
  NEAR_ZERO : ℚ
  /-- content of element `i` of a vector that has been resized and not yet written -/
  uninitialized : Nat → ℚ
  /-- content of entry `(i, j)` of a matrix that has been constructed and not yet written -/
  uninitialized_matrix : Nat → Nat → ℚ
  /-- a newly constructed `UnilateralConstraintProblemData` -/
  new_problem_data : UnilateralConstraintProblemData
  /-- the method `DynamicBody::set_generalized_coordinates(DynamicBody::eEuler, gc)` -/
  set_generalized_coordinates : DynamicBody → List ℚ → DynamicBody
  /-- the method `ConstraintSimulator::calc_pairwise_distances` -/
  calc_pairwise_distances : List DynamicBody → List PairwiseDistInfo
  /-- `CollisionGeometry::calc_signed_dist`: the distance and the two closest points -/
  calc_signed_dist : List DynamicBody → CollisionGeometry → CollisionGeometry →
    ℚ × Point3d × Point3d
  /-- the constraints that `CollisionDetection::find_contacts` appends -/
  find_contacts : List DynamicBody → CollisionGeometry → CollisionGeometry →
    List UnilateralConstraint
  /-- lines 103-108 of `add_contact_constraints`: the normalized direction from the
  closest point on the first geometry to the closest point on the second -/
  contact_normal : Point3d → Point3d → Vector3d
  /-- the static function `CollisionDetection::create_contact` -/
  create_contact : CollisionGeometry → CollisionGeometry → Point3d → Vector3d → ℚ →
    UnilateralConstraint
  /-- the constraints that `ArticulatedBody::find_limit_constraints` outputs -/
  find_limit_constraints : ArticulatedBody → List UnilateralConstraint
  /-- the static function `UnilateralConstraint::determine_connected_constraints` -/
  determine_connected_constraints : List UnilateralConstraint →
    List (List UnilateralConstraint)
  /-- `CollisionGeometry::calc_signed_dist` on the two geometries of a contact -/
  constraint_signed_dist : List DynamicBody → UnilateralConstraint → ℚ
  /-- the matrix and vector output by `UnilateralConstraint::compute_constraint_data` -/
  compute_constraint_data : List DynamicBody → UnilateralConstraint →
    (Nat → Nat → ℚ) × (Nat → ℚ)
  /-- the matrix output by `UnilateralConstraint::compute_cross_constraint_data` -/
  compute_cross_constraint_data : List DynamicBody → UnilateralConstraint →
    UnilateralConstraint → Nat → Nat → ℚ
  /-- result of `dynamic_pointer_cast<ArticulatedBody>` (`none` is the null pointer) -/
  as_articulated : DynamicBodyPtr → Option ArticulatedBody
  /-- the value of `num_generalized_coordinates(DynamicBody::eSpatial)` of a body -/
  num_generalized_coordinates_spatial : DynamicBodyPtr → Nat
  /-- the solver `LCP::lcp_fast`: success flag and content of the output vector -/
  lcp_fast : MatrixNd → List ℚ → List ℚ → Bool × List ℚ
  /-- the solver `LCP::lcp_lemke_regularized`: success flag and output vector -/
  lcp_lemke_regularized : MatrixNd → List ℚ → List ℚ → Bool × List ℚ

/-- How a call ends. -/
inductive Outcome (α : Type) where
  /-- the call returns -/
  | done (a : α)
  /-- the call reads outside the bounds of a vector or dereferences `end()`: its
  behaviour is undefined; also a call that asks the vector library for a segment
  that is not a range of the vector, or computes a value beyond the finite doubles:
  nothing is stated about such a call -/
  | undefined
  /-- a loop of the call has not ended within the number of iterations allowed -/
  | out_of_fuel
  deriving DecidableEq

/-- The outcome of a call whose result, if it returns, is passed through `f`. -/
def Outcome.map {α β : Type} (f : α → β) : Outcome α → Outcome β
  | Outcome.done a => Outcome.done (f a)
  | Outcome.undefined => Outcome.undefined
  | Outcome.out_of_fuel => Outcome.out_of_fuel

namespace ConstraintStabilization

/-- Source: `get_min_pairwise_dist` (lines 31-41). -/
def get_min_pairwise_dist (pdi : List PairwiseDistInfo) : ℚ :=
  pdi.foldl (fun dist p => min dist p.dist) DBL_MAX

/-- Source: `add_articulate_limit_constraint` (lines 77-83). -/
def add_articulate_limit_constraint (c : StabilizerCollaborators)
    (constraints : List UnilateralConstraint) (ab : ArticulatedBody) :
    List UnilateralConstraint :=
  let limits := c.find_limit_constraints ab
  constraints ++ limits

/-- Source: `add_contact_constraints` (lines 85-114). -/
def add_contact_constraints (c : StabilizerCollaborators) (sim : ConstraintSimulator)
    (constraints : List UnilateralConstraint) (rb1 rb2 : RigidBody) :
    List UnilateralConstraint :=
  rb1.geometries.foldl
    (fun cs1 cg1 =>
      rb2.geometries.foldl
        (fun cs2 cg2 =>
          let d := c.calc_signed_dist sim.bodies cg1 cg2
          let dist := d.1
          let p1 := d.2.1
          let p2 := d.2.2
          if |dist| < c.NEAR_ZERO then
            cs2 ++ c.find_contacts sim.bodies cg1 cg2
          else
            let normal := c.contact_normal p1 p2
            let uc := c.create_contact cg1 cg2 p1 normal (-dist)
            cs2 ++ [uc])
        cs1)
    constraints

/-- Source: lines 147-162 (and 184-199) of `compute_problem_data`: the constraints
between the rigid body or link `rb1` and the second body of a pair. -/
def add_constraints_with_body (c : StabilizerCollaborators) (sim : ConstraintSimulator)
    (constraints : List UnilateralConstraint) (rb1 : RigidBody) (D_body2 : DynamicBody) :
    List UnilateralConstraint :=
  match D_body2.kind with
  | DynamicBodyKind.rigid rb2 => add_contact_constraints c sim constraints rb1 rb2
  | DynamicBodyKind.articulated ab2 =>
    ab2.links.foldl (fun cs l2 => add_contact_constraints c sim cs rb1 l2)
      (add_articulate_limit_constraint c constraints ab2)

/-- Source: lines 133-203 of `compute_problem_data`: the constraints collected by the
loops over the pairs of bodies. -/
def collect_constraints (c : StabilizerCollaborators) (sim : ConstraintSimulator) :
    List UnilateralConstraint :=
  sim.bodies.foldl
    (fun cs D_body1 =>
      match D_body1.kind with
      | DynamicBodyKind.rigid rb1 =>
        sim.bodies.foldl
          (fun cs1 D_body2 =>
            if D_body1.addr = D_body2.addr then cs1
            else add_constraints_with_body c sim cs1 rb1 D_body2)
          cs
      | DynamicBodyKind.articulated ab1 =>
        sim.bodies.foldl
          (fun cs1 D_body2 =>
            if D_body1.addr = D_body2.addr then cs1
            else ab1.links.foldl
              (fun cs2 l1 => add_constraints_with_body c sim cs2 l1 D_body2) cs1)
          (add_articulate_limit_constraint c cs ab1))
    []

/-- Source: lines 356-379 of `set_unilateral_constraint_data`: the loop over the pairs
of contact constraints; the state is the matrix `Cn_iM_CnT` and the number of times
the row iterator `CnCn` has been advanced. -/
def contact_contact_terms (c : StabilizerCollaborators) (sim : ConstraintSimulator)
    (contacts : List UnilateralConstraint) (Cn_iM_CnT : MatrixNd) : MatrixNd × Nat :=
  (List.range contacts.length).foldl
    (fun st i =>
      (List.range contacts.length).foldl
        (fun st1 j =>
          if i = j then
            let MM := (c.compute_constraint_data sim.bodies (contacts.getD i default)).1
            (st1.1.put_row_iterator st1.2 (MM 0 0), st1.2 + 1)
          else (st1.1, st1.2 + 1))
        st)
    (Cn_iM_CnT, 0)

/-- Source: lines 381-393 of `set_unilateral_constraint_data`: the cross terms of
every contact constraint with every limit constraint. -/
def contact_limit_terms (c : StabilizerCollaborators) (sim : ConstraintSimulator)
    (contacts limits : List UnilateralConstraint) (Cn_iM_LT : MatrixNd) : MatrixNd :=
  (List.range contacts.length).foldl
    (fun A i =>
      (List.range limits.length).foldl
        (fun A1 j =>
          let MM := c.compute_cross_constraint_data sim.bodies (contacts.getD i default)
            (limits.getD j default)
          A1.put i j (MM 0 0))
        A)
    Cn_iM_LT

/-- Source: lines 396-419 of `set_unilateral_constraint_data`: the self and cross
terms of the limit constraints. -/
def limit_limit_terms (c : StabilizerCollaborators) (sim : ConstraintSimulator)
    (limits : List UnilateralConstraint) (L_iM_LT : MatrixNd) : MatrixNd :=
  (List.range limits.length).foldl
    (fun A i =>
      let MM := (c.compute_constraint_data sim.bodies (limits.getD i default)).1
      ((List.range limits.length).drop (i + 1)).foldl
        (fun A1 j =>
          let MMx := c.compute_cross_constraint_data sim.bodies (limits.getD i default)
            (limits.getD j default)
          (A1.put j i (MMx 0 0)).put i j (MMx 0 0))
        (A.put i i (MM 0 0)))
    L_iM_LT

/-- Source: `set_unilateral_constraint_data` (lines 262-420). -/
def set_unilateral_constraint_data (c : StabilizerCollaborators) (sim : ConstraintSimulator)
    (pd : UnilateralConstraintProblemData) : UnilateralConstraintProblemData :=
  let super_bodies := determine_super_bodies pd.contact_constraints pd.limit_constraints
  let N_GC := super_bodies.foldl
    (fun n b => uadd n (c.num_generalized_coordinates_spatial b)) 0
  let N_CONTACTS := to_unsigned pd.contact_constraints.length
  let N_LIMITS := to_unsigned pd.limit_constraints.length
  let N_CONSTRAINT_EQNS_IMP := super_bodies.foldl
    (fun n b =>
      match c.as_articulated b with
      | some abody => uadd n abody.num_constraint_eqns_implicit
      | none => n)
    pd.N_CONSTRAINT_EQNS_IMP
  let CN_IDX := 0
  let CS_IDX := uadd CN_IDX N_CONTACTS
  let L_IDX := CS_IDX
  let ALPHA_X_IDX := uadd L_IDX N_LIMITS
  let N_VARS := uadd ALPHA_X_IDX N_CONSTRAINT_EQNS_IMP
  { pd with
    super_bodies := super_bodies
    N_GC := N_GC
    N_CONTACTS := N_CONTACTS
    N_LIMITS := N_LIMITS
    N_CONSTRAINT_EQNS_IMP := N_CONSTRAINT_EQNS_IMP
    N_K_TOTAL := 0
    N_LIN_CONE := 0
    N_TRUE_CONE := 0
    CN_IDX := CN_IDX
    CS_IDX := CS_IDX
    CT_IDX := CS_IDX
    NCS_IDX := CS_IDX
    NCT_IDX := CS_IDX
    L_IDX := L_IDX
    ALPHA_X_IDX := ALPHA_X_IDX
    N_VARS := N_VARS
    Cn_iM_CnT := (contact_contact_terms c sim pd.contact_constraints
      (MatrixNd.set_zero N_CONTACTS N_CONTACTS)).1
    Cn_iM_LT := contact_limit_terms c sim pd.contact_constraints pd.limit_constraints
      (MatrixNd.set_zero N_CONTACTS N_LIMITS)
    L_iM_LT := limit_limit_terms c sim pd.limit_constraints
      (MatrixNd.set_zero N_LIMITS N_LIMITS)
    Cn_v := List.replicate N_CONTACTS 0
    L_v := List.replicate N_LIMITS 0 }

/-- Source: lines 217-249 of `compute_problem_data`: the problem data of one island. -/
def island_data (c : StabilizerCollaborators) (sim : ConstraintSimulator)
    (island : List UnilateralConstraint) : UnilateralConstraintProblemData :=
  let contacts := island.filter (fun uc => uc.event_type = EventType.eContact)
  let limits := island.filter (fun uc => ¬ uc.event_type = EventType.eContact)
  let pd0 := { c.new_problem_data with
    contact_constraints := contacts
    limit_constraints := limits
    N_CONTACTS := to_unsigned contacts.length
    N_LIMITS := to_unsigned limits.length }
  let pd := set_unilateral_constraint_data c sim pd0
  { pd with
    Cn_v := (List.range pd.contact_constraints.length).foldl
      (fun v i => v.set i
        (c.constraint_signed_dist sim.bodies (pd.contact_constraints.getD i default)))
      pd.Cn_v }

/-- Source: `compute_problem_data` (lines 116-250): the vector of problem data, one
entry per island; the simulator records that problem data has been assembled. -/
def compute_problem_data (c : StabilizerCollaborators) (sim : ConstraintSimulator) :
    List UnilateralConstraintProblemData × ConstraintSimulator :=
  let constraints := collect_constraints c sim
  let islands := c.determine_connected_constraints constraints
  (islands.map (island_data c sim),
    { sim with effects := sim.effects ++ [Effect.compute_problem_data] })

/-- Source: lines 427-436 of `determine_dq`: the matrix of the position-level LCP. -/
def lcp_matrix (c : StabilizerCollaborators) (pd : UnilateralConstraintProblemData) :
    MatrixNd :=
  let MM : MatrixNd :=
    ⟨uadd pd.N_CONTACTS pd.N_LIMITS, uadd pd.N_CONTACTS pd.N_LIMITS, c.uninitialized_matrix⟩
  let MM1 := MM.set_block 0 pd.N_CONTACTS 0 pd.N_CONTACTS pd.Cn_iM_CnT.elem
  let MM2 := MM1.set_block 0 pd.N_CONTACTS pd.N_CONTACTS MM1.columns pd.Cn_iM_LT.elem
  let MM3 := MM2.set_block_transpose pd.N_CONTACTS MM2.rows 0 pd.N_CONTACTS pd.Cn_iM_LT.elem
  MM3.set_block pd.N_CONTACTS MM3.rows pd.N_CONTACTS MM3.columns pd.L_iM_LT.elem

/-- Source: lines 429 and 437-438 of `determine_dq`: the vector of the position-level
LCP. -/
def lcp_vector (c : StabilizerCollaborators) (pd : UnilateralConstraintProblemData) :
    List ℚ :=
  let qq := (List.range (uadd pd.N_CONTACTS pd.N_LIMITS)).map c.uninitialized
  let qq1 := write_segment qq 0 pd.Cn_v
  write_segment qq1 pd.N_CONTACTS pd.L_v

/-- Source: lines 440-442 of `determine_dq`: the vector `dq_sub` after the solver
calls; the regularized solver runs only if the fast one reports failure, and the
vector is used whatever the regularized solver reports. -/
def solve_dq_sub (c : StabilizerCollaborators) (MM : MatrixNd) (qq : List ℚ) : List ℚ :=
  let fast := c.lcp_fast MM qq []
  if !fast.1 then (c.lcp_lemke_regularized MM qq fast.2).2 else fast.2

/-- Source: lines 445-457 of `determine_dq`: the entries of `dq_sub` are copied into
`dqm`; the state is `dqm` and `last`.  A super body without an entry in the index
map makes the behaviour undefined, as does a read beyond the end of `dq_sub` or a
write beyond the end of `dqm`. -/
def populate_dq (sim : ConstraintSimulator) (body_index_map : List (DynamicBodyPtr × Nat))
    (dq_sub : List ℚ) :
    List DynamicBodyPtr → List ℚ × Nat → Outcome (List ℚ)
  | [], st => Outcome.done st.1
  | b :: rest, st =>
    match map_find b body_index_map, sim.bodies.find? (fun body => body.addr = b) with
    | some start, some body =>
      let coord_num := body.gc.length
      if coord_num = 0 ∨
          (st.2 + coord_num ≤ dq_sub.length ∧ start + coord_num ≤ st.1.length) then
        populate_dq sim body_index_map dq_sub rest
          (write_segment st.1 start (elements dq_sub st.2 (st.2 + coord_num)),
            uadd st.2 coord_num)
      else Outcome.undefined
    | _, _ => Outcome.undefined

/-- The value of `num_generalized_coordinates(DynamicBody::eEuler)` of the body at
address `b`, as `populate_dq` reads it (`0` if the simulator has no such body). -/
def euler_count (sim : ConstraintSimulator) (b : DynamicBodyPtr) : Nat :=
  match sim.bodies.find? (fun body => body.addr = b) with
  | some body => body.gc.length
  | none => 0

/-- Whether the slot `i` lies in `[start_b, start_b + n_b)`, where `start_b` is the
entry of `b` in the index map and `n_b` its number of Euler coordinates. -/
def in_slots (sim : ConstraintSimulator) (body_index_map : List (DynamicBodyPtr × Nat))
    (b : DynamicBodyPtr) (i : Nat) : Bool :=
  match map_find b body_index_map with
  | some start => decide (start ≤ i ∧ i < start + euler_count sim b)
  | none => false

/-- The number of entries of the LCP solution that belong to the first `p` of the
given bodies. -/
def solution_offset (sim : ConstraintSimulator) (bodies : List DynamicBodyPtr) (p : Nat) :
    Nat :=
  ((bodies.take p).map (euler_count sim)).sum

/-- Source: `determine_dq` (lines 422-459). -/
def determine_dq (c : StabilizerCollaborators) (sim : ConstraintSimulator)
    (pd : UnilateralConstraintProblemData) (dqm : List ℚ)
    (body_index_map : List (DynamicBodyPtr × Nat)) : Outcome (List ℚ) :=
  let MM := lcp_matrix c pd
  let qq := lcp_vector c pd
  let dq_sub := solve_dq_sub c MM qq
  populate_dq sim body_index_map dq_sub pd.super_bodies (dqm, 0)

/-- Source: lines 587-593 of `update_body_configurations`: the loop over the bodies.
The state is `last`, the bodies already updated and the record of effects; the
segment handed to a body is `q.segment(last, ngc)`, and `last` is then set to `ngc`.
A segment that is not a range of `q` ends the run as `Outcome.undefined`. -/
def update_bodies (c : StabilizerCollaborators) (q : List ℚ) :
    List DynamicBody → Nat × List DynamicBody × List Effect →
      Outcome (List DynamicBody × List Effect)
  | [], st => Outcome.done st.2
  | body :: rest, st =>
    let ngc := body.gc.length
    match segment q st.1 ngc with
    | some gc_shared =>
      update_bodies c q rest
        (ngc, st.2.1 ++ [c.set_generalized_coordinates body gc_shared],
          st.2.2 ++ [Effect.set_generalized_coordinates body.addr gc_shared])
    | none => Outcome.undefined

/-- Source: `update_body_configurations` (lines 583-596). -/
def update_body_configurations (c : StabilizerCollaborators) (q : List ℚ)
    (sim : ConstraintSimulator) : Outcome ConstraintSimulator :=
  match update_bodies c q sim.bodies (0, [], sim.effects) with
  | Outcome.done r => Outcome.done { sim with bodies := r.1, effects := r.2 }
  | Outcome.undefined => Outcome.undefined
  | Outcome.out_of_fuel => Outcome.out_of_fuel

/-- The call `sim->calc_pairwise_distances()`. -/
def calc_pairwise_distances (c : StabilizerCollaborators) (sim : ConstraintSimulator) :
    ConstraintSimulator :=
  { sim with
    pairwise_distances := c.calc_pairwise_distances sim.bodies
    effects := sim.effects ++ [Effect.calc_pairwise_distances] }

/-- Source: `get_body_configurations` (lines 552-569): `q` is resized to the total
number of coordinates and every body writes its coordinates into the segment of `q`
that begins at `start`, which stays `0`. -/
def get_body_configurations (c : StabilizerCollaborators) (sim : ConstraintSimulator) :
    List ℚ :=
  let NGC := sim.bodies.foldl (fun n body => uadd n body.gc.length) 0
  let q := (List.range NGC).map c.uninitialized
  let start := 0
  sim.bodies.foldl (fun q1 body => write_segment q1 start body.gc) q

/-- Source: `generate_body_index_map` (lines 571-581); the state of the loop is the map
and `cur_index`. -/
def generate_body_index_map (body_index_map : List (DynamicBodyPtr × Nat))
    (sim : ConstraintSimulator) : List (DynamicBodyPtr × Nat) :=
  (sim.bodies.foldl
    (fun (st : List (DynamicBodyPtr × Nat) × Nat) body =>
      (map_insert body.addr st.2 st.1, uadd st.2 body.gc.length))
    (body_index_map, 0)).1

/-- Source: lines 532-544 of `compute_s`: the loops over `j` and `k` for the
articulated body at index `i` of the body vector.  The joint read is `joints[i]` and
the degree of freedom read is `[j]`; a read beyond the end of a vector makes the
behaviour undefined (`none`). -/
def joint_limit_violation (joints : List Joint) (i : Nat) (s : ℚ) : Option ℚ :=
  (List.range joints.length).foldlM
    (fun s1 j =>
      match joints.get? i with
      | none => none
      | some ji =>
        (List.range ji.q.length).foldlM
          (fun s2 _ =>
            match ji.q.get? j, ji.hilimit.get? j, ji.lolimit.get? j with
            | some q, some hi, some lo =>
              let hi_violation := q - hi
              let lo_violation := lo - q
              let larger_violation := max hi_violation lo_violation
              some (max larger_violation s2)
            | _, _, _ => none)
          s1)
    s

/-- Source: lines 526-546 of `compute_s`: the loop over the bodies from index `i` on. -/
def compute_s_bodies : Nat → List DynamicBody → ℚ → Option ℚ
  | _, [], s => some s
  | i, body :: rest, s =>
    match body.kind with
    | DynamicBodyKind.articulated art =>
      match joint_limit_violation art.joints i s with
      | some s1 => compute_s_bodies (i + 1) rest s1
      | none => none
    | DynamicBodyKind.rigid _ => compute_s_bodies (i + 1) rest s

/-- Source: `compute_s` (lines 516-550). -/
def compute_s (pdi : List PairwiseDistInfo) (sim : ConstraintSimulator) : Option ℚ :=
  let s := max (-get_min_pairwise_dist pdi) 0
  compute_s_bodies 0 sim.bodies s

/-- The constant `ALPHA` of `update_q`: the double that the literal `0.05` denotes. -/
def ALPHA : ℚ := round_double (5 / 100)

/-- The constant `BETA` of `update_q`: the double that the literal `0.8` denotes. -/
def BETA : ℚ := round_double (8 / 10)

/-- Source: lines 476-479 (and 497-500) of `update_q`: `qstar = dq; qstar *= t;
qstar += q`, every product and every sum rounded to a double. -/
def candidate (dq q : List ℚ) (t : ℚ) : List ℚ :=
  List.zipWith (fun a b => dadd a b) (dq.map (fun x => dmul x t)) q

/-- Whether every product and every sum computed for `qstar` is a finite double. -/
def candidate_finite (dq q : List ℚ) (t : ℚ) : Bool :=
  (dq.map (fun x => dmul x t)).all is_finite && (candidate dq q t).all is_finite

/-- Source: lines 476-488 (and 497-509) of `update_q`: one trial of step size `t`;
the result is `qstar`, `sstar` and the simulator.  A trial that computes a value
beyond the finite doubles (an infinity in the source) is `Outcome.undefined`. -/
def trial (c : StabilizerCollaborators) (dq q : List ℚ) (t : ℚ) (sim : ConstraintSimulator) :
    Outcome (List ℚ × ℚ × ConstraintSimulator) :=
  if candidate_finite dq q t then
    let qstar := candidate dq q t
    match update_body_configurations c qstar sim with
    | Outcome.done sim1 =>
      let sim2 := calc_pairwise_distances c sim1
      match compute_s sim2.pairwise_distances sim2 with
      | some sstar => Outcome.done (qstar, sstar, sim2)
      | none => Outcome.undefined
    | Outcome.undefined => Outcome.undefined
    | Outcome.out_of_fuel => Outcome.out_of_fuel
  else Outcome.undefined

/-- Source: line 492 of `update_q`: the value of `s0 + ALPHA * t * (ds)` in double
arithmetic, the two products and the sum rounded in the order of evaluation. -/
def armijo_bound (s0 t ds : ℚ) : ℚ :=
  dadd s0 (dmul (dmul ALPHA t) ds)

/-- Source: lines 490-510 of `update_q`: the backtracking loop, run for at most `fuel`
iterations; the result is `t`, `qstar`, `sstar` and the simulator. -/
def update_q_loop (c : StabilizerCollaborators) (dq q : List ℚ) (s0 : ℚ) :
    Nat → ℚ → List ℚ × ℚ × ConstraintSimulator →
      Outcome (ℚ × List ℚ × ℚ × ConstraintSimulator)
  | 0, t, st =>
    let ds : ℚ := -1
    if st.2.1 > armijo_bound s0 t ds then Outcome.out_of_fuel
    else Outcome.done (t, st)
  | fuel + 1, t, st =>
    let ds : ℚ := -1
    if st.2.1 > armijo_bound s0 t ds then
      match trial c dq q (dmul t BETA) st.2.2 with
      | Outcome.done st1 => update_q_loop c dq q s0 fuel (dmul t BETA) st1
      | Outcome.undefined => Outcome.undefined
      | Outcome.out_of_fuel => Outcome.out_of_fuel
    else Outcome.done (t, st)

/-- Source: `update_q` (lines 461-514), its loop run for at most `fuel` iterations; the
result is the accepted step size, the new `q` and the simulator. -/
def update_q (c : StabilizerCollaborators) (fuel : Nat) (dq q : List ℚ)
    (sim : ConstraintSimulator) : Outcome (ℚ × List ℚ × ConstraintSimulator) :=
  let t : ℚ := 1
  match compute_s sim.pairwise_distances sim with
  | none => Outcome.undefined
  | some s0 =>
    match trial c dq q t sim with
    | Outcome.done st =>
      match update_q_loop c dq q s0 fuel t st with
      | Outcome.done r => Outcome.done (r.1, r.2.1, r.2.2.2)
      | Outcome.undefined => Outcome.undefined
      | Outcome.out_of_fuel => Outcome.out_of_fuel
    | Outcome.undefined => Outcome.undefined
    | Outcome.out_of_fuel => Outcome.out_of_fuel

/-- The step size of a line search after `n` further shrink steps, when every trial
has the merit `sstar` and fails the test of the loop; `none` when the test is passed
before `n` shrink steps are done. -/
def shrink_steps (s0 sstar : ℚ) : Nat → ℚ → Option ℚ
  | 0, t => some t
  | n + 1, t =>
    if sstar > armijo_bound s0 t (-1) then shrink_steps s0 sstar n (dmul t BETA)
    else none

/-- Source: lines 64-67 of `stabilize`: `determine_dq` is called for every island. -/
def determine_dqs (c : StabilizerCollaborators) (sim : ConstraintSimulator)
    (body_index_map : List (DynamicBodyPtr × Nat)) :
    List UnilateralConstraintProblemData → List ℚ → Outcome (List ℚ)
  | [], dq => Outcome.done dq
  | pd :: rest, dq =>
    match determine_dq c sim pd dq body_index_map with
    | Outcome.done dq1 => determine_dqs c sim body_index_map rest dq1
    | Outcome.undefined => Outcome.undefined
    | Outcome.out_of_fuel => Outcome.out_of_fuel

/-- Source: lines 61-73 of `stabilize`: the body of the correction loop. -/
def stabilize_step (c : StabilizerCollaborators) (fuel : Nat)
    (body_index_map : List (DynamicBodyPtr × Nat)) (q : List ℚ) (sim : ConstraintSimulator) :
    Outcome (List ℚ × ConstraintSimulator) :=
  let pds := compute_problem_data c sim
  let dq := List.replicate q.length (0 : ℚ)
  match determine_dqs c pds.2 body_index_map pds.1 dq with
  | Outcome.done dq1 =>
    match update_q c fuel dq1 q pds.2 with
    | Outcome.done r => Outcome.done r.2
    | Outcome.undefined => Outcome.undefined
    | Outcome.out_of_fuel => Outcome.out_of_fuel
  | Outcome.undefined => Outcome.undefined
  | Outcome.out_of_fuel => Outcome.out_of_fuel

/-- Source: lines 58-74 of `stabilize`: the correction loop `while (min_dist < eps)`,
run for at most `fuel` iterations (the same bound is given to every line search). -/
def stabilize_loop (c : StabilizerCollaborators) (eps : ℚ) (inner : Nat)
    (body_index_map : List (DynamicBodyPtr × Nat)) :
    Nat → List ℚ × ConstraintSimulator → Outcome (List ℚ × ConstraintSimulator)
  | 0, st =>
    if get_min_pairwise_dist st.2.pairwise_distances < eps then Outcome.out_of_fuel
    else Outcome.done st
  | fuel + 1, st =>
    if get_min_pairwise_dist st.2.pairwise_distances < eps then
      match stabilize_step c inner body_index_map st.1 st.2 with
      | Outcome.done st1 => stabilize_loop c eps inner body_index_map fuel st1
      | Outcome.undefined => Outcome.undefined
      | Outcome.out_of_fuel => Outcome.out_of_fuel
    else Outcome.done st

/-- Source: `stabilize` (lines 43-75), for a stabilizer with tolerance `eps`; every
loop is run for at most `fuel` iterations.  The result is the simulator. -/
def stabilize (c : StabilizerCollaborators) (eps : ℚ) (fuel : Nat)
    (sim : ConstraintSimulator) : Outcome ConstraintSimulator :=
  let q := get_body_configurations c sim
  let body_index_map := generate_body_index_map [] sim
  match stabilize_loop c eps fuel body_index_map fuel (q, sim) with
  | Outcome.done st => Outcome.done st.2
  | Outcome.undefined => Outcome.undefined
  | Outcome.out_of_fuel => Outcome.out_of_fuel

/-- The merit value in the words of the specification: the maximum of zero, of the
negated minimum pairwise distance and, over every joint of every articulated body and
every degree of freedom `k` of that joint, of `q[k] - hilimit[k]` and
`lolimit[k] - q[k]`. -/
def spec_merit (pdi : List PairwiseDistInfo) (sim : ConstraintSimulator) : ℚ :=
  sim.bodies.foldl
    (fun s body =>
      match body.kind with
      | DynamicBodyKind.articulated art =>
        art.joints.foldl
          (fun s1 jt =>
            (List.range jt.q.length).foldl
              (fun s2 k =>
                max (max (jt.q.getD k 0 - jt.hilimit.getD k 0)
                  (jt.lolimit.getD k 0 - jt.q.getD k 0)) s2)
              s1)
          s
      | DynamicBodyKind.rigid _ => s)
    (max (-get_min_pairwise_dist pdi) 0)

end ConstraintStabilization

/-! ## Thick triangles (`ThickTriangle.cpp`) -/

/-- The dot product `a.dot(b)`. -/
def Vector3d.dot (a b : Vector3d) : ℚ := a.x * b.x + a.y * b.y + a.z * b.z

/-- The sum `a + b`. -/
def Vector3d.add (a b : Vector3d) : Vector3d := ⟨a.x + b.x, a.y + b.y, a.z + b.z⟩

/-- The difference `a - b`. -/
def Vector3d.sub (a b : Vector3d) : Vector3d := ⟨a.x - b.x, a.y - b.y, a.z - b.z⟩

/-- The product `a * s` with a scalar. -/
def Vector3d.scale (a : Vector3d) (s : ℚ) : Vector3d := ⟨a.x * s, a.y * s, a.z * s⟩

/-- The members of `Plane` read by the thick triangle: the plane is the set of the
points `x` with `normal . x = offset`. -/
structure Plane where
  normal : Vector3d
  offset : ℚ
  deriving DecidableEq

/-- A line segment (`LineSeg3`, a pair of points). -/
structure LineSeg3 where
  first : Point3d
  second : Point3d
  deriving DecidableEq

namespace ThickTriangle

/-- Source: lines 96-145 of `intersect_seg`: the loop over the planes, from a state
`(tnear, tfar)`.  The first component of the result is `false` when the loop is left
by `return false`; the others are `tnear` and `tfar` at that moment. -/
def intersect_seg_loop (p0 : Point3d) (dir : Vector3d) : List Plane → ℚ × ℚ → Bool × ℚ × ℚ
  | [], st => (true, st)
  | plane :: rest, st =>
    let Pn := plane.normal
    let dist := -Pn.dot p0 + plane.offset
    let denom := Pn.dot dir
    if denom = 0 then
      if dist < 0 then (false, st)
      else intersect_seg_loop p0 dir rest st
    else
      let t := dist / denom
      if denom < 0 then
        if t > st.1 then
          if st.2 < t then (false, t, st.2)
          else intersect_seg_loop p0 dir rest (t, st.2)
        else intersect_seg_loop p0 dir rest st
      else if t < st.2 then
        if t < st.1 then (false, st.1, t)
        else intersect_seg_loop p0 dir rest (st.1, t)
      else intersect_seg_loop p0 dir rest st

/-- Source: `ThickTriangle::intersect_seg` (lines 83-154) for a thick triangle with
the plane list `planes` (the member `_planes`).  The result is the value returned and
the contents of the output parameters `tnear` and `isect` on return; `isect` is the
content of that parameter before the call. -/
def intersect_seg (planes : List Plane) (seg : LineSeg3) (isect : Point3d) :
    Bool × ℚ × Point3d :=
  let p0 := seg.first
  let dir := seg.second.sub seg.first
  let r := intersect_seg_loop p0 dir planes (0, 1)
  if r.1 then (true, r.2.1, p0.add (dir.scale r.2.1))
  else (false, r.2.1, isect)

/-- The point `seg.first + (seg.second - seg.first) * t` of a segment. -/
def seg_point (seg : LineSeg3) (t : ℚ) : Point3d :=
  seg.first.add ((seg.second.sub seg.first).scale t)

/-- Whether a point lies in the thick triangle: in the closed half-space
`normal . x ≤ offset` of every plane. -/
def in_thick_triangle (planes : List Plane) (x : Point3d) : Prop :=
  ∀ plane ∈ planes, plane.normal.dot x ≤ plane.offset

instance (planes : List Plane) (x : Point3d) : Decidable (in_thick_triangle planes x) := by
  unfold in_thick_triangle
  infer_instance

end ThickTriangle

/-! ## Partition of the constraints into islands -/

/-- Modelled from the spec: the bodies (rigid bodies or links of articulated bodies)
that a constraint references: the two bodies of a contact, the outboard link of the
joint of a limit. -/
def referenced_bodies (e : UnilateralConstraint) : List DynamicBodyPtr :=
  match e.event_type with
  | EventType.eContact => [e.contact_geom1.self, e.contact_geom2.self]
  | EventType.eLimit => [e.limit_joint_outboard.self]
  | EventType.eNone => []

/-- Modelled from the spec: two constraints are adjacent if they reference a common
body. -/
def shares_body (a b : UnilateralConstraint) : Bool :=
  (referenced_bodies a).any (fun x => (referenced_bodies b).contains x)

/-- Modelled from the spec: one union step of the computation of the connected
components: the islands that hold a constraint adjacent to `e` are merged into one
island, to which `e` is added; the other islands are kept. -/
def insert_constraint (e : UnilateralConstraint) (islands : List (List UnilateralConstraint)) :
    List (List UnilateralConstraint) :=
  let touching := islands.filter (fun isl => isl.any (shares_body e))
  let others := islands.filter (fun isl => !isl.any (shares_body e))
  (touching.flatten ++ [e]) :: others

/-- Modelled from the spec: `UnilateralConstraint::determine_connected_constraints`
(and `Event::determine_connected_events`, the same partition under the names of the
impact handler): the connected components of the graph in which two constraints are
adjacent if they reference a common body, one list of constraints per component. -/
def determine_connected_constraints (constraints : List UnilateralConstraint) :
    List (List UnilateralConstraint) :=
  constraints.foldl (fun islands e => insert_constraint e islands) []

/-- Two islands are separated when no constraint of the one shares a body with a
constraint of the other. -/
def separated (i1 i2 : List UnilateralConstraint) : Prop :=
  ∀ a ∈ i1, ∀ b ∈ i2, shares_body a b = false

/-- Two constraints are linked in an island when a chain of constraints of the island
leads from the one to the other and every constraint of the chain shares a body with
the next. -/
def linked_in (isl : List UnilateralConstraint) (a b : UnilateralConstraint) : Prop :=
  Relation.ReflTransGen (fun x y => x ∈ isl ∧ y ∈ isl ∧ shares_body x y = true) a b

/-! ## The frictionless LCP of the impact event handler (`solve_lcp`) -/

/-- The transpose of a matrix (`MatrixNd::transpose`). -/
def MatrixNd.transpose (A : MatrixNd) : MatrixNd :=
  ⟨A.columns, A.rows, fun i j => A.elem j i⟩

/-- The product `A * B` (`A.mult(B, result)`); `none` when the sizes do not fit
(`MissizeException`). -/
def MatrixNd.mult (A B : MatrixNd) : Option MatrixNd :=
  if A.columns = B.rows then
    some ⟨A.rows, B.columns,
      fun i j => ((List.range A.columns).map (fun k => A.elem i k * B.elem k j)).sum⟩
  else none

/-- The product `A * Bᵀ` (`A.mult_transpose(B, result)`). -/
def MatrixNd.mult_transpose (A B : MatrixNd) : Option MatrixNd :=
  A.mult B.transpose

/-- The difference `A - B` (`A -= B`); `none` when the sizes differ. -/
def MatrixNd.sub (A B : MatrixNd) : Option MatrixNd :=
  if A.rows = B.rows ∧ A.columns = B.columns then
    some ⟨A.rows, A.columns, fun i j => A.elem i j - B.elem i j⟩
  else none

/-- The matrix `-A` (`A.negate()`). -/
def MatrixNd.negate (A : MatrixNd) : MatrixNd :=
  ⟨A.rows, A.columns, fun i j => -A.elem i j⟩

/-- The call `A.set_sub_mat(r, c, B)`; `none` when the block does not fit. -/
def MatrixNd.set_sub_mat (A : MatrixNd) (r c : Nat) (B : MatrixNd) : Option MatrixNd :=
  if r + B.rows ≤ A.rows ∧ c + B.columns ≤ A.columns then
    some (A.set_block r (r + B.rows) c (c + B.columns) B.elem)
  else none

/-- The product `A * v` of a matrix and a vector (`A.mult(v, result)`). -/
def MatrixNd.mult_vec (A : MatrixNd) (v : List ℚ) : Option (List ℚ) :=
  if A.columns = v.length then
    some ((List.range A.rows).map
      (fun i => ((List.range A.columns).map (fun k => A.elem i k * v.getD k 0)).sum))
  else none

/-- The product `Aᵀ * v` (`A.transpose_mult(v, result)`). -/
def MatrixNd.transpose_mult_vec (A : MatrixNd) (v : List ℚ) : Option (List ℚ) :=
  A.transpose.mult_vec v

/-- The difference `v - w` of two vectors (`v -= w`); `none` when the sizes differ. -/
def vec_sub (v w : List ℚ) : Option (List ℚ) :=
  if v.length = w.length then some (List.zipWith (fun a b => a - b) v w) else none

/-- The sum `v + w` of two vectors (`v += w`); `none` when the sizes differ. -/
def vec_add (v w : List ℚ) : Option (List ℚ) :=
  if v.length = w.length then some (List.zipWith (fun a b => a + b) v w) else none

/-- The call `v.set_sub_vec(start, w)`; `none` when the segment does not fit. -/
def set_sub_vec (v : List ℚ) (start : Nat) (w : List ℚ) : Option (List ℚ) :=
  if start + w.length ≤ v.length then some (write_segment v start w) else none

/-- The call `v.get_sub_vec(start, end_, result)`; `none` when the range is not a range
of `v`. -/
def get_sub_vec (v : List ℚ) (start end_ : Nat) : Option (List ℚ) :=
  if start ≤ end_ ∧ end_ ≤ v.length then some (elements v start end_) else none

/-- The members of `EventProblemData` that `solve_lcp` reads. -/
structure LcpProblemData where
  N_CONTACTS : Nat
  N_LIMITS : Nat
  Jx_iM_JxT : MatrixNd
  Jc_iM_JxT : MatrixNd
  Jl_iM_JxT : MatrixNd
  Jc_iM_JcT : MatrixNd
  Jc_iM_JlT : MatrixNd
  Jl_iM_JlT : MatrixNd
  Jx_v : List ℚ
  Jc_v : List ℚ
  Jl_v : List ℚ

/-- The singular value decomposition `(U, S, V)` that `LinAlgd::svd` outputs. -/
structure SVD where
  U : MatrixNd
  S : List ℚ
  V : MatrixNd

/-- Code used by `solve_lcp` that is defined outside the translated files. -/
structure LcpCollaborators where
  /-- content of an entry of a matrix that has been resized and not yet written -/
  uninitialized_matrix : Nat → Nat → ℚ
  /-- content of an element of a vector that has been resized and not yet written -/
  uninitialized : Nat → ℚ
  /-- `LinAlgd::svd(A, U, S, V)`: the content left in `A`, and the decomposition -/
  svd : MatrixNd → MatrixNd × SVD
  /-- `LinAlgd::solve_LS_fast(U, S, V, X)` for a matrix: `X` becomes `A⁺ * X` for the
  least-squares pseudo-inverse `A⁺` of the decomposed matrix -/
  solve_LS_fast : SVD → MatrixNd → MatrixNd
  /-- `LinAlgd::solve_LS_fast(U, S, V, x)` for a vector -/
  solve_LS_fast_vec : SVD → List ℚ → List ℚ
  /-- the solver `LCP::lcp_lemke_regularized`: success flag and output vector -/
  lcp_lemke_regularized : MatrixNd → List ℚ → List ℚ → Bool × List ℚ

/-- What `solve_lcp` has computed when it reaches line 538: the LCP matrix and vector,
`kappa`, and the multipliers. -/
structure LcpSolution where
  MM : MatrixNd
  qq : List ℚ
  kappa : ℚ
  alpha_c : List ℚ
  alpha_l : List ℚ
  alpha_x : List ℚ

namespace ImpactEventHandler

/-- Source: lines 456-496 of `solve_lcp`: the matrix `MM` of the LCP.  The first
product stored in `UL` (line 464) is replaced by the second (line 467) before `UL` is
read. -/
def solve_lcp_matrix (c : LcpCollaborators) (q : LcpProblemData) : Option MatrixNd := do
  let sv := c.svd q.Jx_iM_JxT
  let iJx_iM_JxT := sv.1
  let USV := sv.2
  let t2 := c.solve_LS_fast USV q.Jc_iM_JxT.transpose
  let _ ← q.Jc_iM_JxT.mult t2
  let t2 ← q.Jc_iM_JxT.mult iJx_iM_JxT
  let UL ← t2.mult_transpose q.Jc_iM_JxT
  let t2 := c.solve_LS_fast USV q.Jl_iM_JxT.transpose
  let UR ← q.Jc_iM_JxT.mult t2
  let LR ← t2.mult_transpose q.Jl_iM_JxT
  let UL ← UL.sub q.Jc_iM_JcT
  let UR ← UR.sub q.Jc_iM_JlT
  let LR ← LR.sub q.Jl_iM_JlT
  let UL := UL.negate
  let UR := UR.negate
  let LR := LR.negate
  let MM : MatrixNd :=
    ⟨uadd q.N_CONTACTS q.N_LIMITS, uadd q.N_CONTACTS q.N_LIMITS, c.uninitialized_matrix⟩
  let MM ← MM.set_sub_mat 0 0 UL
  let MM ← MM.set_sub_mat 0 q.N_CONTACTS UR
  let MM ← MM.set_sub_mat q.N_CONTACTS 0 UR.transpose
  MM.set_sub_mat q.N_CONTACTS q.N_CONTACTS LR

/-- Source: lines 498-507 of `solve_lcp`: the vector `qq` of the LCP, for a matrix `MM`
with the given number of rows. -/
def solve_lcp_vector (c : LcpCollaborators) (q : LcpProblemData) (rows : Nat) :
    Option (List ℚ) := do
  let USV := (c.svd q.Jx_iM_JxT).2
  let qq := (List.range rows).map c.uninitialized
  let v2 := c.solve_LS_fast_vec USV q.Jx_v
  let v1 ← q.Jc_iM_JxT.mult_vec v2
  let v1 ← vec_sub v1 q.Jc_v
  let qq ← set_sub_vec qq 0 v1
  let v1 ← q.Jl_iM_JxT.mult_vec v2
  let v1 ← vec_sub v1 q.Jl_v
  let qq ← set_sub_vec qq q.N_CONTACTS v1
  some (qq.map (fun x => -x))

/-- Source: lines 532-538 of `solve_lcp`: the multipliers `alpha_x`. -/
def solve_lcp_alpha_x (c : LcpCollaborators) (q : LcpProblemData) (alpha_c alpha_l : List ℚ) :
    Option (List ℚ) := do
  let USV := (c.svd q.Jx_iM_JxT).2
  let v1 ← q.Jc_iM_JxT.transpose_mult_vec alpha_c
  let v2 ← q.Jl_iM_JxT.transpose_mult_vec alpha_l
  let v1 ← vec_add v1 v2
  let v1 ← vec_add v1 q.Jx_v
  let v1 := v1.map (fun x => -x)
  some (c.solve_LS_fast_vec USV v1)

/-- Source: `solve_lcp` (lines 449-538), up to the computation of `alpha_x`; the copy of
the multipliers into `z` (lines 540-544) is not represented.  `none` stands for a call
that does not reach line 538: a matrix or vector operation on operands whose sizes do
not fit, a read beyond the end of `z`, or the `runtime_error` of line 518. -/
def solve_lcp (c : LcpCollaborators) (q : LcpProblemData) (z : List ℚ) :
    Option LcpSolution :=
  match solve_lcp_matrix c q with
  | none => none
  | some MM =>
    match solve_lcp_vector c q MM.rows with
    | none => none
    | some qq =>
      let solved := c.lcp_lemke_regularized MM qq z
      if !solved.1 then none
      else
        let z1 := solved.2
        if z1.length < q.N_CONTACTS then none
        else
          let kappa := (List.range q.N_CONTACTS).foldl (fun k i => k + z1.getD i 0) 0
          match get_sub_vec z1 0 q.N_CONTACTS, get_sub_vec z1 q.N_CONTACTS z1.length with
          | some alpha_c, some alpha_l =>
            match solve_lcp_alpha_x c q alpha_c alpha_l with
            | some alpha_x => some ⟨MM, qq, kappa, alpha_c, alpha_l, alpha_x⟩
            | none => none
          | _, _ => none

/-- The matrix of the reduced LCP in the words of the specification, the Schur
complement that eliminates the explicit-constraint multipliers: the blocks
`UL = Jc_iM_JcT - Jc_iM_JxT * A⁺ * Jc_iM_JxTᵀ`, `UR = Jc_iM_JlT - Jc_iM_JxT * A⁺ * Jl_iM_JxTᵀ`,
`URᵀ` and `LR = Jl_iM_JlT - Jl_iM_JxT * A⁺ * Jl_iM_JxTᵀ`, where `A⁺ * X` is the
least-squares solve with the decomposition of `A = Jx_iM_JxT`. -/
def schur_complement (c : LcpCollaborators) (q : LcpProblemData) : Option MatrixNd := do
  let USV := (c.svd q.Jx_iM_JxT).2
  let UL ← q.Jc_iM_JcT.sub (← q.Jc_iM_JxT.mult (c.solve_LS_fast USV q.Jc_iM_JxT.transpose))
  let UR ← q.Jc_iM_JlT.sub (← q.Jc_iM_JxT.mult (c.solve_LS_fast USV q.Jl_iM_JxT.transpose))
  let LR ← q.Jl_iM_JlT.sub (← q.Jl_iM_JxT.mult (c.solve_LS_fast USV q.Jl_iM_JxT.transpose))
  let MM : MatrixNd :=
    MatrixNd.set_zero (q.N_CONTACTS + q.N_LIMITS) (q.N_CONTACTS + q.N_LIMITS)
  let MM ← MM.set_sub_mat 0 0 UL
  let MM ← MM.set_sub_mat 0 q.N_CONTACTS UR
  let MM ← MM.set_sub_mat q.N_CONTACTS 0 UR.transpose
  MM.set_sub_mat q.N_CONTACTS q.N_CONTACTS LR

end ImpactEventHandler

/-! ## Thick triangles: construction and point test -/

/-- The cross product `Vector3d::cross(a, b)`. -/
def Vector3d.cross (a b : Vector3d) : Vector3d :=
  ⟨a.y * b.z - a.z * b.y, a.z * b.x - a.x * b.z, a.x * b.y - a.y * b.x⟩

/-- The vector `-a`. -/
def Vector3d.neg (a : Vector3d) : Vector3d := ⟨-a.x, -a.y, -a.z⟩

/-- A triangle (`Triangle`): its three vertices. -/
structure Triangle where
  a : Point3d
  b : Point3d
  c : Point3d
  deriving DecidableEq

/-- The call `tri.get_vertex(i)` for `i < 3`. -/
def Triangle.get_vertex (tri : Triangle) (i : Nat) : Point3d :=
  if i = 0 then tri.a else if i = 1 then tri.b else tri.c

/-- The members of `ThickTriangle`: `tri`, `_normal` and `_planes`. -/
structure ThickTriangle where
  tri : Triangle
  normal : Vector3d
  planes : List Plane
  deriving DecidableEq

/-- Code used by the thick triangle that is defined outside the translated files.  The
constructor `Plane(n, d)` is the plane with normal `n` and offset `d`. -/
structure GeometryCollaborators where
  /-- the constant `NEAR_ZERO` of `Constants.h` -/
  NEAR_ZERO : ℚ
  /-- the method `Vector3d::norm` -/
  norm : Vector3d → ℚ
  /-- the static function `Vector3d::normalize` -/
  normalize : Vector3d → Vector3d
  /-- the method `Triangle::calc_normal` -/
  calc_normal : Triangle → Vector3d
  /-- the method `Triangle::calc_offset` -/
  calc_offset : Triangle → Vector3d → ℚ
  /-- the method `Plane::calc_signed_distance` -/
  calc_signed_distance : Plane → Point3d → ℚ

namespace ThickTriangle

/-- Source: lines 30-37 of `construct_from_triangle`: the plane of the edge that
begins at vertex `i`. -/
def edge_plane (c : GeometryCollaborators) (tri : Triangle) (normal : Vector3d)
    (epsilon : ℚ) (i : Nat) : Plane :=
  let TRI_VERTS := 3
  let j := if i < TRI_VERTS - 1 then i + 1 else 0
  let e := c.normalize ((tri.get_vertex j).sub (tri.get_vertex i))
  let pn := c.normalize (Vector3d.cross e normal)
  let offset := Vector3d.dot pn (tri.get_vertex j) + epsilon
  ⟨pn, offset⟩

/-- Source: `ThickTriangle::construct_from_triangle` (lines 17-45) on the thick
triangle `self`.  `Except.error` is the `NumericalException`; both results carry the
members of the thick triangle at that moment. -/
def construct_from_triangle (c : GeometryCollaborators) (self : ThickTriangle)
    (tri : Triangle) (epsilon : ℚ) : Except ThickTriangle ThickTriangle :=
  let TRI_VERTS := 3
  let s1 : ThickTriangle := { self with tri := tri }
  let s2 : ThickTriangle := { s1 with normal := c.calc_normal tri }
  if c.norm s2.normal < c.NEAR_ZERO then Except.error s2
  else
    let s3 := (List.range TRI_VERTS).foldl
      (fun (s : ThickTriangle) i =>
        { s with planes := s.planes ++ [edge_plane c tri s.normal epsilon i] })
      s2
    let offset := c.calc_offset tri s3.normal
    Except.ok { s3 with
      planes := (s3.planes ++ [⟨s3.normal, offset + epsilon⟩]) ++
        [⟨s3.normal.neg, -offset + epsilon⟩] }

/-- Source: `ThickTriangle::point_inside` (lines 64-71) for a thick triangle with the
plane list `planes`. -/
def point_inside (c : GeometryCollaborators) : List Plane → Point3d → Bool
  | [], _ => true
  | plane :: rest, point =>
    if c.calc_signed_distance plane point ≥ 0 then false
    else point_inside c rest point

/-- Whether a point is on or inside the thick triangle in the words of the
specification: its signed distance to every stored plane is at most `0`. -/
def on_or_inside (c : GeometryCollaborators) (planes : List Plane) (point : Point3d) : Bool :=
  planes.all (fun plane => decide (c.calc_signed_distance plane point ≤ 0))

end ThickTriangle

/-! ## Bounding spheres (`BoundingSphere.h`) -/

/-- The constant `M_PI` of `<cmath>` as a `double`: the `double` nearest to `π`. -/
def M_PI : ℚ := 884279719003555 / 281474976710656

/-- The members `center` and `radius` of `BoundingSphere`. -/
structure BoundingSphere where
  center : Point3d
  radius : ℚ
  deriving DecidableEq

/-- Source: `BoundingSphere::calc_volume` (line 54). -/
def BoundingSphere.calc_volume (s : BoundingSphere) : ℚ :=
  M_PI * s.radius * s.radius * s.radius

/-! ## Offsets of the bodies in the vector of generalized coordinates -/

/-- The sum of the Euler generalized-coordinate counts of the bodies `0, ..., k - 1`. -/
def body_offset (bodies : List DynamicBody) (k : Nat) : Nat :=
  ((bodies.take k).map (fun body => body.gc.length)).sum

/-- The vector of generalized coordinates in the words of the specification: the
coordinates of the `k`-th body are the elements `index_k, ..., index_k + n_k - 1`. -/
def spec_body_configurations (sim : ConstraintSimulator) : List ℚ :=
  (sim.bodies.map (fun body => body.gc)).flatten

/-! ## Concrete inputs on which the definitions are evaluated -/

namespace Sample

/-- A rigid body that belongs to no articulated body. -/
def free_body (addr : Nat) : SingleBody := ⟨addr, none, addr⟩

/-- A link of the articulated body at address `ab`. -/
def link (addr ab : Nat) : SingleBody := ⟨addr, some ab, ab⟩

/-- A contact event between two bodies with unit normal impulse. -/
def contact (nk : Fin 4294967296) (b1 b2 : SingleBody) : Event :=
  ⟨EventType.eContact, nk, b1, b2, ⟨⟨1, 0, 0⟩, ⟨0, 0, 0⟩⟩, ⟨0, 0, 0⟩, b1⟩

/-- A joint limit event on the joint whose outboard link is `b`. -/
def limit (b : SingleBody) : Event :=
  ⟨EventType.eLimit, 0, b, b, ⟨⟨0, 0, 0⟩, ⟨0, 0, 0⟩⟩, ⟨0, 0, 0⟩, b⟩

/-- Problem data with every counter zero and every container empty. -/
def zero_epd : EventProblemData :=
  { events := [], contact_events := [], limit_events := [], super_bodies := [],
    contact_working_set := [], N_CONTACTS := 0, N_LIMITS := 0, N_CONSTRAINT_EQNS_EXP := 0,
    N_CONSTRAINT_DOF_IMP := 0, N_CONSTRAINT_DOF_EXP := 0, N_K_TOTAL := 0, N_LIN_CONE := 0,
    N_TRUE_CONE := 0, ALPHA_C_IDX := 0, BETA_C_IDX := 0, NBETA_C_IDX := 0, BETAU_C_IDX := 0,
    ALPHA_L_IDX := 0, BETA_T_IDX := 0, ALPHA_X_IDX := 0, BETA_X_IDX := 0, N_VARS := 0,
    mappings := [], M := fun _ _ => 0, q := fun _ => 0, kappa := 0 }

/-- Collaborators of a one-dimensional world: the state is the relative normal velocity
of the contacting bodies (negative while they approach), every event list is one
group, generalized forces are the normal components of the impulses, the solvers
leave the problem data as it is (they produce the impulses stored in the events), and
the body at address `9` is an articulated body that uses the advanced friction model. -/
def collaborators : Collaborators ℚ ℚ :=
  { determine_connected_events := fun evs => if evs.isEmpty then [] else [evs]
    remove_nonimpacting_groups := fun _ groups => groups
    determine_contact_tangents := fun _ w => w
    determine_minimal_set := fun _ evs => evs
    is_impacting := fun w _ => decide (w < 0)
    calc_event_data := fun _ _ => (fun _ _ => 1, fun _ => 0)
    calc_cross_event_data := fun _ _ _ => none
    reset := fun _ => zero_epd
    partition_events := fun q =>
      { q with
        contact_events := q.events.filter (fun e => e.event_type = EventType.eContact)
        limit_events := q.events.filter (fun e => e.event_type = EventType.eLimit) }
    as_articulated := fun b => if b = 9 then some ⟨true, 2, 1, 3, 4, [], []⟩ else none
    solve_qp := fun _ q _ => q
    solve_nqp := fun _ q _ => q
    convert_to_generalized_force := fun _ _ w _ => w.force.x
    apply_generalized_impulse := fun _ _ w => w / 2 }

/-- Handler state in which the bodies approach with relative normal velocity `-1`. -/
def approaching : HandlerState ℚ ℚ :=
  { world := -1, poisson_eps := 0, epd := zero_epd, calls := [] }

/-- One contact with a linearized friction cone between the free bodies `1` and `2`. -/
def one_contact : List Event := [contact 4 (free_body 1) (free_body 2)]

/-- Collaborators whose events all have the self-term matrix `[[1, 2], [3, 1]]`, which
is not symmetric, and cross terms `5` with every other event. -/
def asymmetric_collaborators : Collaborators ℚ ℚ :=
  { collaborators with
    calc_event_data := fun _ _ =>
      (fun r s => if r = 0 ∧ s = 1 then 2 else if r = 1 ∧ s = 0 then 3 else 1, fun _ => 0)
    calc_cross_event_data := fun _ _ _ => some (fun _ _ => 5) }

/-- Problem data of two contact events whose index mappings `[0]` and `[0, 1]` share
the index `0`. -/
def overlapping_epd : EventProblemData :=
  { zero_epd with
    events := [contact 4 (free_body 1) (free_body 2), contact 4 (free_body 2) (free_body 3)]
    contact_events :=
      [contact 4 (free_body 1) (free_body 2), contact 4 (free_body 2) (free_body 3)]
    mappings := [[0], [0, 1]] }

/-- Problem data of a linearized-cone contact, a true-cone contact and a joint limit,
with disjoint index mappings. -/
def mixed_epd : EventProblemData :=
  { zero_epd with
    events := [contact 4 (free_body 1) (free_body 2),
      contact 4294967295 (free_body 2) (free_body 3), limit (link 5 9)]
    contact_events := [contact 4 (free_body 1) (free_body 2),
      contact 4294967295 (free_body 2) (free_body 3)]
    limit_events := [limit (link 5 9)]
    mappings := [[0, 1], [2, 3], [4]] }

/-- Problem data with every counter zero and every container empty. -/
def zero_pd : UnilateralConstraintProblemData :=
  { contact_constraints := [], limit_constraints := [], super_bodies := [], N_GC := 0,
    N_CONTACTS := 0, N_LIMITS := 0, N_CONSTRAINT_EQNS_IMP := 0, N_K_TOTAL := 0,
    N_LIN_CONE := 0, N_TRUE_CONE := 0, CN_IDX := 0, CS_IDX := 0, CT_IDX := 0, NCS_IDX := 0,
    NCT_IDX := 0, L_IDX := 0, ALPHA_X_IDX := 0, N_VARS := 0,
    Cn_iM_CnT := MatrixNd.set_zero 0 0, Cn_iM_LT := MatrixNd.set_zero 0 0,
    L_iM_LT := MatrixNd.set_zero 0 0, Cn_v := [], L_v := [] }

/-- Stabilizer collaborators of bodies on a vertical line over fixed ground: the one
coordinate of a movable body is its height, which is also its pairwise distance to the
ground (negative when it penetrates); every geometry pair yields one contact
constraint, all constraints form one island, the self and cross terms of constraints
are read off the addresses of their first bodies, and the LCP solver proposes to raise
the first body by `2`. -/
def stabilizer_collaborators : StabilizerCollaborators :=
  { NEAR_ZERO := 1 / 100000000
    uninitialized := fun _ => 0
    uninitialized_matrix := fun _ _ => 0
    new_problem_data := zero_pd
    set_generalized_coordinates := fun body gc => { body with gc := gc }
    calc_pairwise_distances := fun bodies =>
      bodies.filterMap (fun body => body.gc.head?.map PairwiseDistInfo.mk)
    calc_signed_dist := fun _ _ _ => (-1, ⟨0, 0, 0⟩, ⟨0, 0, 0⟩)
    find_contacts := fun _ _ _ => []
    contact_normal := fun _ _ => ⟨0, 0, 1⟩
    create_contact := fun cg1 cg2 _ _ _ => contact 4 cg1.single_body cg2.single_body
    find_limit_constraints := fun _ => []
    determine_connected_constraints := fun cs => if cs.isEmpty then [] else [cs]
    constraint_signed_dist := fun _ _ => -1
    compute_constraint_data := fun _ uc => (fun _ _ => uc.contact_geom1.self, fun _ => 0)
    compute_cross_constraint_data := fun _ uc1 uc2 _ _ =>
      10 * uc1.contact_geom1.self + uc2.contact_geom1.self
    as_articulated := fun _ => none
    num_generalized_coordinates_spatial := fun _ => 6
    lcp_fast := fun _ _ _ => (true, [2])
    lcp_lemke_regularized := fun _ _ z => (true, z) }

/-- A rigid body at address `addr` with one geometry and the given coordinates. -/
def rigid (addr : Nat) (gc : List ℚ) : DynamicBody :=
  ⟨addr, DynamicBodyKind.rigid ⟨free_body addr, [⟨addr, free_body addr⟩]⟩, gc⟩

/-- An articulated body at address `addr` with one link and one joint of one degree of
freedom at position `q`, whose limits are `0` and `1`. -/
def arm (addr : Nat) (q : ℚ) : DynamicBody :=
  ⟨addr, DynamicBodyKind.articulated
    ⟨false, 0, 0, 0, 0, [⟨[q], [0], [1]⟩], [⟨link (addr + 1) addr, []⟩]⟩, [q]⟩

/-- An island of two contacts between the bodies `1` and `2` and two joint limits of
the articulated body `9`. -/
def island : List UnilateralConstraint :=
  [contact 4 (free_body 1) (free_body 2), contact 4 (free_body 2) (free_body 1),
    limit (link 5 9), limit (link 6 9)]

/-- Tolerance of the sample stabilizer. -/
def eps : ℚ := 1 / 100

/-- A body that penetrates the ground by `1`. -/
def penetrating : ConstraintSimulator :=
  { bodies := [rigid 1 [-1], rigid 2 []], pairwise_distances := [⟨-1⟩], effects := [] }

/-- A body that penetrates the ground by `1`; the ground, a body without
coordinates, is the first of the bodies. -/
def sinking : ConstraintSimulator :=
  { bodies := [rigid 1 [], rigid 2 [-1]], pairwise_distances := [⟨-1⟩], effects := [] }

/-- The state in which the stabilizer leaves `sinking`: the body is at height `1`
after one assembly of problem data and one trial step. -/
def stabilized : ConstraintSimulator :=
  { bodies := [rigid 1 [], rigid 2 [1]], pairwise_distances := [⟨1⟩],
    effects := [Effect.compute_problem_data, Effect.set_generalized_coordinates 1 [],
      Effect.set_generalized_coordinates 2 [1], Effect.calc_pairwise_distances] }

/-- An arm whose joint is at `2`, beyond its upper limit `1`, at distance `1` from
every other geometry. -/
def beyond_limit : ConstraintSimulator :=
  { bodies := [arm 1 2], pairwise_distances := [⟨1⟩], effects := [] }

/-- An articulated body with two joints at distance `1` from every other geometry: the
first joint has two degrees of freedom, both at `1/2` between the limits `0` and `1`;
the second joint has one degree of freedom at `5`, beyond its upper limit `1`. -/
def two_joints : ConstraintSimulator :=
  { bodies := [⟨1, DynamicBodyKind.articulated
      ⟨false, 0, 0, 0, 0, [⟨[1 / 2, 1 / 2], [0, 0], [1, 1]⟩, ⟨[5], [0], [1]⟩],
        [⟨link 2 1, []⟩]⟩, [1 / 2, 1 / 2, 5]⟩],
    pairwise_distances := [⟨1⟩], effects := [] }

/-- Stabilizer collaborators whose two LCP solvers both report failure; the regularized
solver leaves `7` in the output vector. -/
def failing_collaborators : StabilizerCollaborators :=
  { stabilizer_collaborators with
    lcp_fast := fun _ _ z => (false, z)
    lcp_lemke_regularized := fun _ _ _ => (false, [7]) }

/-- The problem data of the island of one contact between the bodies `1` and `2`. -/
def one_contact_pd : UnilateralConstraintProblemData :=
  ConstraintStabilization.island_data stabilizer_collaborators penetrating
    [contact 4 (free_body 1) (free_body 2)]

/-- Stabilizer collaborators of a body over fixed ground with exact geometry and an
exact solver: the signed distance of every geometry pair is the height of the body
(the first coordinate there is among the bodies), touching geometries yield one
contact, every self term is `1`, and the LCP solver returns the solution
`z i = max 0 (-q i / M i i)` of an LCP with diagonal matrix. -/
def ground_collaborators : StabilizerCollaborators :=
  { stabilizer_collaborators with
    calc_signed_dist := fun bodies _ _ =>
      (((bodies.filterMap (fun body => body.gc.head?)).head?).getD 0, ⟨0, 0, 0⟩, ⟨0, 0, 0⟩)
    find_contacts := fun _ cg1 cg2 => [contact 4 cg1.single_body cg2.single_body]
    constraint_signed_dist := fun bodies _ =>
      ((bodies.filterMap (fun body => body.gc.head?)).head?).getD 0
    compute_constraint_data := fun _ _ => (fun _ _ => 1, fun _ => 0)
    lcp_fast := fun M q _ =>
      (true, (List.range q.length).map (fun i => max 0 (-(q.getD i 0) / M.elem i i))) }

/-- The state after the first correction of `sinking` with `ground_collaborators`:
the body touches the ground at height `0`. -/
def touching : ConstraintSimulator :=
  { bodies := [rigid 1 [], rigid 2 [0]], pairwise_distances := [⟨0⟩],
    effects := [Effect.compute_problem_data, Effect.set_generalized_coordinates 1 [],
      Effect.set_generalized_coordinates 2 [0], Effect.calc_pairwise_distances] }

/-- Two bodies with the coordinates `[-1]` and `[8, 9]`; the first penetrates by `1`. -/
def sunk_pair : ConstraintSimulator :=
  { bodies := [rigid 1 [-1], rigid 2 [8, 9]], pairwise_distances := [⟨-1⟩], effects := [] }

/-- The step size at which the line search from merit `0` ends: the subnormal double
`2 ^ -1071` (about `4e-323`), the first for which `0.05 * t` rounds to `0`. -/
def underflow_step : ℚ := dyadic 1 (-1071)

/-- Stabilizer collaborators whose LCP solver returns the solution `[5, 6, 7]`. -/
def counting_collaborators : StabilizerCollaborators :=
  { stabilizer_collaborators with lcp_fast := fun _ _ _ => (true, [5, 6, 7]) }

/-- Three rigid bodies with one, one and two coordinates; the index map gives them the
first slots `0`, `1` and `2`. -/
def three_bodies : ConstraintSimulator :=
  { bodies := [rigid 1 [0], rigid 3 [0], rigid 2 [0, 0]],
    pairwise_distances := [⟨-1⟩], effects := [] }

/-- The problem data of the island of one contact between the bodies `1` and `2` of
`three_bodies`. -/
def three_bodies_pd : UnilateralConstraintProblemData :=
  ConstraintStabilization.island_data counting_collaborators three_bodies
    [contact 4 (free_body 1) (free_body 2)]

/-- The planes of the slab `-1 ≤ x ≤ 1`. -/
def slab_planes : List Plane := [⟨⟨1, 0, 0⟩, 1⟩, ⟨⟨-1, 0, 0⟩, 1⟩]

/-- The segment from `(3, 0, 0)` to the origin, which enters the slab at `t = 2/3`. -/
def entering_seg : LineSeg3 := ⟨⟨3, 0, 0⟩, ⟨0, 0, 0⟩⟩

/-- A chain of three contacts between the bodies `1`-`2`, `2`-`3` and `3`-`4`. -/
def chain : List UnilateralConstraint :=
  [contact 4 (free_body 1) (free_body 2), contact 4 (free_body 2) (free_body 3),
    contact 4 (free_body 3) (free_body 4)]

/-- A matrix with the given rows. -/
def matrix (rows columns : Nat) (entries : List (List ℚ)) : MatrixNd :=
  ⟨rows, columns, fun i j => (entries.getD i []).getD j 0⟩

/-- Linear algebra for matrices `A` that are diagonal with non-negative entries: the
decomposition is `U = V = 1` with the diagonal as singular values, `svd` leaves `A` as
it is, and the least-squares solve divides row `i` by the singular value `S i` (a zero
singular value gives a zero row); the LCP solver returns the solution `[1, 0, 0]`. -/
def diagonal_lcp_collaborators : LcpCollaborators :=
  { uninitialized_matrix := fun _ _ => 0
    uninitialized := fun _ => 0
    svd := fun A =>
      (A, ⟨⟨A.rows, A.rows, fun i j => if i = j then 1 else 0⟩,
        (List.range A.rows).map (fun i => A.elem i i),
        ⟨A.columns, A.columns, fun i j => if i = j then 1 else 0⟩⟩)
    solve_LS_fast := fun USV X =>
      ⟨X.rows, X.columns, fun i j => if USV.S.getD i 0 = 0 then 0 else X.elem i j / USV.S.getD i 0⟩
    solve_LS_fast_vec := fun USV x =>
      (List.range x.length).map
        (fun i => if USV.S.getD i 0 = 0 then 0 else x.getD i 0 / USV.S.getD i 0)
    lcp_lemke_regularized := fun _ _ _ => (true, [1, 0, 0]) }

/-- Problem data of one contact, two limits and two explicit constraint equations with
`Jx_iM_JxT = diag(2, 1)`, whose pseudo-inverse is `diag(1/2, 1)`. -/
def lcp_problem : LcpProblemData :=
  { N_CONTACTS := 1
    N_LIMITS := 2
    Jx_iM_JxT := matrix 2 2 [[2, 0], [0, 1]]
    Jc_iM_JxT := matrix 1 2 [[1, 0]]
    Jl_iM_JxT := matrix 2 2 [[1, 1], [0, 1]]
    Jc_iM_JcT := matrix 1 1 [[3]]
    Jc_iM_JlT := matrix 1 2 [[0, 0]]
    Jl_iM_JlT := matrix 2 2 [[10, 0], [0, 10]]
    Jx_v := [2, 1]
    Jc_v := [5]
    Jl_v := [0, 0] }

/-- The natural number whose square is `n`, if there is one (`0` otherwise). -/
def exact_root (n : Nat) : Nat :=
  ((List.range (n + 1)).find? (fun k => k * k = n)).getD 0

/-- The Euclidean norm of a vector whose squared length is the square of a rational
number. -/
def euclidean_norm (v : Vector3d) : ℚ :=
  (exact_root (v.dot v).num.natAbs : ℚ) / (exact_root (v.dot v).den : ℚ)

/-- The factor by which `normalize` scales a vector: the inverse of its norm, and `1`
for a vector of norm `0`. -/
def unit_factor (v : Vector3d) : ℚ :=
  if euclidean_norm v = 0 then 1 else 1 / euclidean_norm v

/-- Geometry collaborators with exact arithmetic for vectors whose length is rational:
`normalize` divides by the norm (and leaves a vector of norm `0`), the normal of a
triangle is the normalized cross product of its edges `b - a` and `c - a`, its offset
is the dot product of the normal with the vertex `a`, and the signed distance of a
point to a plane is `normal . x - offset`. -/
def geometry_collaborators : GeometryCollaborators :=
  { NEAR_ZERO := 1 / 100000000
    norm := euclidean_norm
    normalize := fun v => v.scale (unit_factor v)
    calc_normal := fun tri =>
      ((tri.b.sub tri.a).cross (tri.c.sub tri.a)).scale
        (unit_factor ((tri.b.sub tri.a).cross (tri.c.sub tri.a)))
    calc_offset := fun tri n => n.dot tri.a
    calc_signed_distance := fun plane x => plane.normal.dot x - plane.offset }

/-- The triangle with the vertices `(0, 0, 0)`, `(3, 0, 0)` and `(0, 4, 0)`. -/
def right_triangle : Triangle := ⟨⟨0, 0, 0⟩, ⟨3, 0, 0⟩, ⟨0, 4, 0⟩⟩

/-- A triangle whose vertices lie on a line. -/
def flat_triangle : Triangle := ⟨⟨0, 0, 0⟩, ⟨1, 0, 0⟩, ⟨2, 0, 0⟩⟩

/-- A thick triangle without planes. -/
def no_planes : ThickTriangle := ⟨flat_triangle, ⟨0, 0, 0⟩, []⟩

/-- Two rigid bodies with one and two coordinates. -/
def two_bodies : ConstraintSimulator :=
  { bodies := [rigid 1 [7], rigid 2 [8, 9]], pairwise_distances := [⟨1⟩], effects := [] }

/-- Stabilizer collaborators whose articulated bodies report one limit constraint per
link. -/
def limit_collaborators : StabilizerCollaborators :=
  { stabilizer_collaborators with
    find_limit_constraints := fun ab => ab.links.map (fun l => limit l.body) }

/-- A rigid body and an arm. -/
def body_and_arm : ConstraintSimulator :=
  { bodies := [rigid 1 [0], arm 9 (1 / 2)], pairwise_distances := [⟨-1⟩], effects := [] }

/-- Stabilizer collaborators for which every pair of geometries is separated by the
signed distance `1`, and the depth of a created contact is recorded as the `x`
component of its contact point. -/
def separated_collaborators : StabilizerCollaborators :=
  { stabilizer_collaborators with
    calc_signed_dist := fun _ _ _ => (1, ⟨0, 0, 0⟩, ⟨0, 0, 0⟩)
    create_contact := fun cg1 cg2 _ _ depth =>
      { contact 4 cg1.single_body cg2.single_body with contact_point := ⟨depth, 0, 0⟩ } }

/-- Offsets of the three sample bodies in the vector of generalized coordinates. -/
def three_bodies_index_map : List (DynamicBodyPtr × Nat) :=
  ConstraintStabilization.generate_body_index_map [] three_bodies

end Sample

/-! # Theorems -/

theorem foldl_invariant {α β : Type} (P : β → Prop) (f : β → α → β) (l : List α)
    (hstep : ∀ s, ∀ a ∈ l, P s → P (f s a)) : ∀ s, P s → P (l.foldl f s) := by
  induction l with
  | nil => intro s hs; exact hs
  | cons a t ih =>
    intro s hs
    rw [List.foldl_cons]
    exact ih (fun s1 a1 ha1 h1 => hstep s1 a1 (List.mem_cons_of_mem _ ha1) h1) _
      (hstep s a (List.mem_cons_self _ _) hs)

theorem foldl_establish {α β : Type} (P : β → Prop) (f : β → α → β) (l : List α) (x : α)
    (hx : x ∈ l) (hest : ∀ s, P (f s x)) (hpres : ∀ s a, P s → P (f s a)) :
    ∀ s, P (l.foldl f s) := by
  induction l with
  | nil => simp at hx
  | cons a t ih =>
    intro s
    rw [List.foldl_cons]
    rcases List.mem_cons.mp hx with h | h
    · subst h
      exact foldl_invariant P f t (fun s1 a1 _ h1 => hpres s1 a1 h1) _
        (hest s)
    · exact ih h _

theorem std_unique_from_spec (xs : List DynamicBodyPtr) :
    ∀ last : DynamicBodyPtr, xs.Sorted (fun a b => a ≤ b) → (∀ x ∈ xs, last ≤ x) →
      (std_unique_from last xs).Sorted (fun a b => a < b) ∧
      (∀ y, y ∈ std_unique_from last xs ↔ y ∈ xs ∧ y ≠ last) := by
  induction xs with
  | nil => intro last _ _; simp [std_unique_from]
  | cons x xs ih =>
    intro last hs hlast
    have hx : ∀ y ∈ xs, x ≤ y := (List.sorted_cons.mp hs).1
    have hxs : xs.Sorted (fun a b => a ≤ b) := (List.sorted_cons.mp hs).2
    have hlx : last ≤ x := hlast x (List.mem_cons_self _ _)
    by_cases heq : last = x
    · subst heq
      obtain ⟨h1, h2⟩ := ih last hxs hx
      simp only [std_unique_from, if_true]
      refine ⟨h1, fun y => ?_⟩
      rw [h2 y]
      constructor
      · rintro ⟨hy, hne⟩
        exact ⟨List.mem_cons_of_mem _ hy, hne⟩
      · rintro ⟨hy, hne⟩
        rcases List.mem_cons.mp hy with h | h
        · exact absurd h hne
        · exact ⟨h, hne⟩
    · obtain ⟨h1, h2⟩ := ih x hxs hx
      have hlt : last < x := lt_of_le_of_ne hlx heq
      simp only [std_unique_from, heq, if_false]
      refine ⟨List.sorted_cons.mpr ⟨fun y hy => ?_, h1⟩, fun y => ?_⟩
      · obtain ⟨hy1, hy2⟩ := (h2 y).mp hy
        exact lt_of_le_of_ne (hx y hy1) (Ne.symm hy2)
      · rw [List.mem_cons, h2 y]
        constructor
        · rintro (h | ⟨hy, _⟩)
          · subst h
            exact ⟨List.mem_cons_self _ _, fun h => heq h.symm⟩
          · refine ⟨List.mem_cons_of_mem _ hy, fun h => ?_⟩
            have hxy := hx y hy
            rw [h] at hxy
            exact absurd hxy (not_le.mpr hlt)
        · rintro ⟨hy, _⟩
          rcases List.mem_cons.mp hy with h | h
          · exact Or.inl h
          · by_cases hyx : y = x
            · exact Or.inl hyx
            · exact Or.inr ⟨h, hyx⟩

theorem std_unique_spec (xs : List DynamicBodyPtr) (hs : xs.Sorted (fun a b => a ≤ b)) :
    (std_unique xs).Sorted (fun a b => a < b) ∧ (∀ y, y ∈ std_unique xs ↔ y ∈ xs) := by
  cases xs with
  | nil => simp [std_unique]
  | cons x xs =>
    have hx : ∀ y ∈ xs, x ≤ y := (List.sorted_cons.mp hs).1
    obtain ⟨h1, h2⟩ := std_unique_from_spec xs x (List.sorted_cons.mp hs).2 hx
    simp only [std_unique]
    refine ⟨List.sorted_cons.mpr ⟨fun y hy => ?_, h1⟩, fun y => ?_⟩
    · obtain ⟨hy1, hy2⟩ := (h2 y).mp hy
      exact lt_of_le_of_ne (hx y hy1) (Ne.symm hy2)
    · rw [List.mem_cons, List.mem_cons, h2 y]
      constructor
      · rintro (h | ⟨h, _⟩)
        · exact Or.inl h
        · exact Or.inr h
      · rintro (h | h)
        · exact Or.inl h
        · by_cases hyx : y = x
          · exact Or.inl hyx
          · exact Or.inr ⟨h, hyx⟩

theorem determine_super_bodies_spec (contacts limits : List Event) :
    (determine_super_bodies contacts limits).Sorted (fun a b => a < b) ∧
    ∀ b, b ∈ determine_super_bodies contacts limits ↔
      (∃ e ∈ contacts,
        b = get_super_body e.contact_geom1 ∨ b = get_super_body e.contact_geom2) ∨
      (∃ e ∈ limits, b = get_super_body e.limit_joint_outboard) := by
  have hc : ∀ (l : List Event) (init : List DynamicBodyPtr) (b : DynamicBodyPtr),
      b ∈ l.foldl (fun sbs e =>
        sbs ++ [get_super_body e.contact_geom1, get_super_body e.contact_geom2]) init ↔
      b ∈ init ∨ ∃ e ∈ l,
        b = get_super_body e.contact_geom1 ∨ b = get_super_body e.contact_geom2 := by
    intro l
    induction l with
    | nil => intro init b; simp
    | cons e t ih =>
      intro init b
      rw [List.foldl_cons, ih]
      simp only [List.mem_append, List.mem_cons, List.mem_singleton, List.not_mem_nil,
        or_false, exists_eq_or_imp]
      generalize (∃ e1 ∈ t, b = get_super_body e1.contact_geom1 ∨
        b = get_super_body e1.contact_geom2) = P
      tauto
  have hl : ∀ (l : List Event) (init : List DynamicBodyPtr) (b : DynamicBodyPtr),
      b ∈ l.foldl (fun sbs e => sbs ++ [get_super_body e.limit_joint_outboard]) init ↔
      b ∈ init ∨ ∃ e ∈ l, b = get_super_body e.limit_joint_outboard := by
    intro l
    induction l with
    | nil => intro init b; simp
    | cons e t ih =>
      intro init b
      rw [List.foldl_cons, ih]
      simp only [List.mem_append, List.mem_cons, List.mem_singleton, List.not_mem_nil,
        or_false, exists_eq_or_imp]
      generalize (∃ e1 ∈ t, b = get_super_body e1.limit_joint_outboard) = P
      tauto
  unfold determine_super_bodies
  simp only
  obtain ⟨h1, h2⟩ := std_unique_spec _
    (List.sorted_insertionSort (fun a b : DynamicBodyPtr => a ≤ b)
      (limits.foldl (fun sbs e => sbs ++ [get_super_body e.limit_joint_outboard])
        (contacts.foldl (fun sbs e =>
          sbs ++ [get_super_body e.contact_geom1, get_super_body e.contact_geom2]) [])))
  refine ⟨h1, fun b => ?_⟩
  unfold std_sort
  rw [h2 b, List.mem_insertionSort, hl, hc]
  simp

/-- C8: after `compute_problem_data` of the impact handler and after
`set_unilateral_constraint_data` of the stabilizer, `super_bodies` is strictly
increasing and its elements are exactly the values of `get_super_body` on the two
single bodies of every contact constraint and on the outboard link of the joint of
every limit constraint; `get_super_body` returns the articulated body of a single body
that has one and the body itself otherwise. -/
theorem super_bodies_sorted_and_complete {σ V : Type} (c : Collaborators σ V) (w : σ)
    (q : EventProblemData) (cs : StabilizerCollaborators) (sim : ConstraintSimulator)
    (pd : UnilateralConstraintProblemData) :
    ((ImpactEventHandler.compute_problem_data c w q).super_bodies.Sorted (fun a b => a < b) ∧
      ∀ b, b ∈ (ImpactEventHandler.compute_problem_data c w q).super_bodies ↔
        (∃ e ∈ q.contact_events,
          b = get_super_body e.contact_geom1 ∨ b = get_super_body e.contact_geom2) ∨
        (∃ e ∈ q.limit_events, b = get_super_body e.limit_joint_outboard)) ∧
    ((ConstraintStabilization.set_unilateral_constraint_data cs sim pd).super_bodies.Sorted
        (fun a b => a < b) ∧
      ∀ b, b ∈ (ConstraintStabilization.set_unilateral_constraint_data cs sim pd).super_bodies ↔
        (∃ e ∈ pd.contact_constraints,
          b = get_super_body e.contact_geom1 ∨ b = get_super_body e.contact_geom2) ∨
        (∃ e ∈ pd.limit_constraints, b = get_super_body e.limit_joint_outboard)) ∧
    (∀ sb ab, sb.articulated_body = some ab → get_super_body sb = ab) ∧
    (∀ sb, sb.articulated_body = none → get_super_body sb = sb.self) := by
  refine ⟨determine_super_bodies_spec q.contact_events q.limit_events,
    determine_super_bodies_spec pd.contact_constraints pd.limit_constraints, ?_, ?_⟩
  · intro sb ab h
    simp [get_super_body, h]
  · intro sb h
    simp [get_super_body, h]


namespace ImpactEventHandler

theorem check_group_nil (f : Event → Bool) (l : List Event) :
    check_group f [] l = Except.ok () := by
  induction l with
  | nil => rfl
  | cons e es ih => by_cases h : f e = true <;> simp [check_group, h, ih]

theorem check_groups_nil (f : Event → Bool) (g : List (List Event)) :
    check_groups f [] g = Except.ok () := by
  induction g with
  | nil => rfl
  | cons e es ih => simp [check_groups, check_group_nil, ih]

/-- With its `impacting` list never filled, `apply_model` returns normally on every
input. -/
theorem apply_model_never_raises {σ V : Type} [Add V] (c : Collaborators σ V)
    (events : List Event) (s : HandlerState σ V) :
    apply_model c events s = Except.ok
      ((c.remove_nonimpacting_groups s.world (c.determine_connected_events events)).foldl
        (process_group c) s) := by
  simp [apply_model, check_groups_nil]

theorem apply_impulses_world {σ V : Type} [Add V] (c : Collaborators σ V) (P : σ → Prop)
    (hP : ∀ b v w, P w → P (c.apply_generalized_impulse b v w)) (q : EventProblemData)
    (s : HandlerState σ V) (hs : P s.world) : P (apply_impulses c q s).world := by
  unfold apply_impulses
  generalize generalized_impulses c q.contact_events = l
  induction l generalizing s with
  | nil => exact hs
  | cons i t ih => exact ih _ (hP _ _ _ hs)

theorem sample_process_group_world (s : HandlerState ℚ ℚ) (g : List Event)
    (hs : s.world < 0) : (process_group Sample.collaborators s g).world < 0 := by
  have hw : ∀ (l : List Event) (w : ℚ), l.foldl (fun w e =>
      if e.event_type = EventType.eContact then
        Sample.collaborators.determine_contact_tangents e w else w) w = w := by
    intro l
    induction l with
    | nil => intro w; rfl
    | cons e t ih => intro w; simp [List.foldl_cons, Sample.collaborators]
  unfold process_group apply_model_to_connected_events
  simp only [hw]
  apply apply_impulses_world Sample.collaborators (fun w => w < 0)
  · intro b v w h
    show w / 2 < 0
    linarith
  · split <;> exact hs

/-- C1 (evaluation at the failing input): for one contact whose bodies still approach
after the impulses have been applied, the event of the processed group is impacting in
the final state and `apply_model` nevertheless returns normally, raising no
`ImpactToleranceException`. -/
theorem apply_model_returns_with_residual_impact :
    ∃ s1, apply_model Sample.collaborators Sample.one_contact Sample.approaching = Except.ok s1 ∧
      Sample.one_contact ∈ Sample.collaborators.remove_nonimpacting_groups Sample.approaching.world
        (Sample.collaborators.determine_connected_events Sample.one_contact) ∧
      ∀ e ∈ Sample.one_contact, Sample.collaborators.is_impacting s1.world e = true := by
  refine ⟨_, apply_model_never_raises _ _ _, ?_, ?_⟩
  · simp [Sample.collaborators, Sample.one_contact]
  · intro e _
    have h : ((Sample.collaborators.remove_nonimpacting_groups Sample.approaching.world
        (Sample.collaborators.determine_connected_events Sample.one_contact)).foldl
        (process_group Sample.collaborators) Sample.approaching).world < 0 := by
      have h1 : Sample.collaborators.remove_nonimpacting_groups Sample.approaching.world
          (Sample.collaborators.determine_connected_events Sample.one_contact)
          = [Sample.one_contact] := by
        simp [Sample.collaborators, Sample.one_contact]
      rw [h1]
      exact sample_process_group_world _ _ (by norm_num [Sample.approaching])
    simpa [Sample.collaborators] using h

/-- C5: after `compute_problem_data`, provided the total number of variables fits the
type `unsigned`, the index layout is the contiguous concatenation, in this order, of
the normal impulses, the positive and the negative linearized tangential edges, the
true-cone tangential components, the limit impulses, the implicit joint-friction
degrees of freedom, the explicit-constraint multipliers and the explicit joint-friction
degrees of freedom: every offset is the previous offset plus the previous segment's
count, the offsets are nondecreasing from `ALPHA_C_IDX = 0` to `N_VARS`, and `N_VARS`
is the sum of the counts. -/
theorem index_layout {σ V : Type} (c : Collaborators σ V) (w : σ) (q : EventProblemData)
    (hfit : (compute_problem_data c w q).N_CONTACTS + 4 * (compute_problem_data c w q).N_LIN_CONE
      + (compute_problem_data c w q).N_TRUE_CONE + (compute_problem_data c w q).N_LIMITS
      + (compute_problem_data c w q).N_CONSTRAINT_DOF_IMP
      + (compute_problem_data c w q).N_CONSTRAINT_EQNS_EXP
      + (compute_problem_data c w q).N_CONSTRAINT_DOF_EXP < UWORD) :
    (compute_problem_data c w q).ALPHA_C_IDX = 0 ∧
    (compute_problem_data c w q).BETA_C_IDX =
      (compute_problem_data c w q).ALPHA_C_IDX + (compute_problem_data c w q).N_CONTACTS ∧
    (compute_problem_data c w q).NBETA_C_IDX =
      (compute_problem_data c w q).BETA_C_IDX + (compute_problem_data c w q).N_LIN_CONE * 2 ∧
    (compute_problem_data c w q).BETAU_C_IDX =
      (compute_problem_data c w q).NBETA_C_IDX + (compute_problem_data c w q).N_LIN_CONE * 2 ∧
    (compute_problem_data c w q).ALPHA_L_IDX =
      (compute_problem_data c w q).BETAU_C_IDX + (compute_problem_data c w q).N_TRUE_CONE ∧
    (compute_problem_data c w q).BETA_T_IDX =
      (compute_problem_data c w q).ALPHA_L_IDX + (compute_problem_data c w q).N_LIMITS ∧
    (compute_problem_data c w q).ALPHA_X_IDX =
      (compute_problem_data c w q).BETA_T_IDX + (compute_problem_data c w q).N_CONSTRAINT_DOF_IMP ∧
    (compute_problem_data c w q).BETA_X_IDX =
      (compute_problem_data c w q).ALPHA_X_IDX + (compute_problem_data c w q).N_CONSTRAINT_EQNS_EXP ∧
    (compute_problem_data c w q).N_VARS =
      (compute_problem_data c w q).BETA_X_IDX + (compute_problem_data c w q).N_CONSTRAINT_DOF_EXP ∧
    (compute_problem_data c w q).ALPHA_C_IDX ≤ (compute_problem_data c w q).BETA_C_IDX ∧
    (compute_problem_data c w q).BETA_C_IDX ≤ (compute_problem_data c w q).NBETA_C_IDX ∧
    (compute_problem_data c w q).NBETA_C_IDX ≤ (compute_problem_data c w q).BETAU_C_IDX ∧
    (compute_problem_data c w q).BETAU_C_IDX ≤ (compute_problem_data c w q).ALPHA_L_IDX ∧
    (compute_problem_data c w q).ALPHA_L_IDX ≤ (compute_problem_data c w q).BETA_T_IDX ∧
    (compute_problem_data c w q).BETA_T_IDX ≤ (compute_problem_data c w q).ALPHA_X_IDX ∧
    (compute_problem_data c w q).ALPHA_X_IDX ≤ (compute_problem_data c w q).BETA_X_IDX ∧
    (compute_problem_data c w q).BETA_X_IDX ≤ (compute_problem_data c w q).N_VARS ∧
    (compute_problem_data c w q).N_VARS =
      (compute_problem_data c w q).N_CONTACTS + 4 * (compute_problem_data c w q).N_LIN_CONE
      + (compute_problem_data c w q).N_TRUE_CONE + (compute_problem_data c w q).N_LIMITS
      + (compute_problem_data c w q).N_CONSTRAINT_DOF_IMP
      + (compute_problem_data c w q).N_CONSTRAINT_EQNS_EXP
      + (compute_problem_data c w q).N_CONSTRAINT_DOF_EXP := by
  simp only [compute_problem_data, uadd, umul, UWORD] at hfit ⊢
  refine ⟨trivial, ?_, ?_, ?_, ?_, ?_, ?_, ?_, ?_, ?_, ?_, ?_, ?_, ?_, ?_, ?_, ?_, ?_⟩ <;> omega

/-- Witness of C5 on the sample problem data of two contacts and one joint limit of an
articulated body. -/
theorem index_layout_witness :
    ((compute_problem_data Sample.collaborators (-1) Sample.mixed_epd).N_CONTACTS + 4 * (compute_problem_data Sample.collaborators (-1) Sample.mixed_epd).N_LIN_CONE
      + (compute_problem_data Sample.collaborators (-1) Sample.mixed_epd).N_TRUE_CONE + (compute_problem_data Sample.collaborators (-1) Sample.mixed_epd).N_LIMITS
      + (compute_problem_data Sample.collaborators (-1) Sample.mixed_epd).N_CONSTRAINT_DOF_IMP
      + (compute_problem_data Sample.collaborators (-1) Sample.mixed_epd).N_CONSTRAINT_EQNS_EXP
      + (compute_problem_data Sample.collaborators (-1) Sample.mixed_epd).N_CONSTRAINT_DOF_EXP < UWORD) ∧
    ((compute_problem_data Sample.collaborators (-1) Sample.mixed_epd).ALPHA_C_IDX = 0 ∧
    (compute_problem_data Sample.collaborators (-1) Sample.mixed_epd).BETA_C_IDX =
      (compute_problem_data Sample.collaborators (-1) Sample.mixed_epd).ALPHA_C_IDX + (compute_problem_data Sample.collaborators (-1) Sample.mixed_epd).N_CONTACTS ∧
    (compute_problem_data Sample.collaborators (-1) Sample.mixed_epd).NBETA_C_IDX =
      (compute_problem_data Sample.collaborators (-1) Sample.mixed_epd).BETA_C_IDX + (compute_problem_data Sample.collaborators (-1) Sample.mixed_epd).N_LIN_CONE * 2 ∧
    (compute_problem_data Sample.collaborators (-1) Sample.mixed_epd).BETAU_C_IDX =
      (compute_problem_data Sample.collaborators (-1) Sample.mixed_epd).NBETA_C_IDX + (compute_problem_data Sample.collaborators (-1) Sample.mixed_epd).N_LIN_CONE * 2 ∧
    (compute_problem_data Sample.collaborators (-1) Sample.mixed_epd).ALPHA_L_IDX =
      (compute_problem_data Sample.collaborators (-1) Sample.mixed_epd).BETAU_C_IDX + (compute_problem_data Sample.collaborators (-1) Sample.mixed_epd).N_TRUE_CONE ∧
    (compute_problem_data Sample.collaborators (-1) Sample.mixed_epd).BETA_T_IDX =
      (compute_problem_data Sample.collaborators (-1) Sample.mixed_epd).ALPHA_L_IDX + (compute_problem_data Sample.collaborators (-1) Sample.mixed_epd).N_LIMITS ∧
    (compute_problem_data Sample.collaborators (-1) Sample.mixed_epd).ALPHA_X_IDX =
      (compute_problem_data Sample.collaborators (-1) Sample.mixed_epd).BETA_T_IDX + (compute_problem_data Sample.collaborators (-1) Sample.mixed_epd).N_CONSTRAINT_DOF_IMP ∧
    (compute_problem_data Sample.collaborators (-1) Sample.mixed_epd).BETA_X_IDX =
      (compute_problem_data Sample.collaborators (-1) Sample.mixed_epd).ALPHA_X_IDX + (compute_problem_data Sample.collaborators (-1) Sample.mixed_epd).N_CONSTRAINT_EQNS_EXP ∧
    (compute_problem_data Sample.collaborators (-1) Sample.mixed_epd).N_VARS =
      (compute_problem_data Sample.collaborators (-1) Sample.mixed_epd).BETA_X_IDX + (compute_problem_data Sample.collaborators (-1) Sample.mixed_epd).N_CONSTRAINT_DOF_EXP ∧
    (compute_problem_data Sample.collaborators (-1) Sample.mixed_epd).ALPHA_C_IDX ≤ (compute_problem_data Sample.collaborators (-1) Sample.mixed_epd).BETA_C_IDX ∧
    (compute_problem_data Sample.collaborators (-1) Sample.mixed_epd).BETA_C_IDX ≤ (compute_problem_data Sample.collaborators (-1) Sample.mixed_epd).NBETA_C_IDX ∧
    (compute_problem_data Sample.collaborators (-1) Sample.mixed_epd).NBETA_C_IDX ≤ (compute_problem_data Sample.collaborators (-1) Sample.mixed_epd).BETAU_C_IDX ∧
    (compute_problem_data Sample.collaborators (-1) Sample.mixed_epd).BETAU_C_IDX ≤ (compute_problem_data Sample.collaborators (-1) Sample.mixed_epd).ALPHA_L_IDX ∧
    (compute_problem_data Sample.collaborators (-1) Sample.mixed_epd).ALPHA_L_IDX ≤ (compute_problem_data Sample.collaborators (-1) Sample.mixed_epd).BETA_T_IDX ∧
    (compute_problem_data Sample.collaborators (-1) Sample.mixed_epd).BETA_T_IDX ≤ (compute_problem_data Sample.collaborators (-1) Sample.mixed_epd).ALPHA_X_IDX ∧
    (compute_problem_data Sample.collaborators (-1) Sample.mixed_epd).ALPHA_X_IDX ≤ (compute_problem_data Sample.collaborators (-1) Sample.mixed_epd).BETA_X_IDX ∧
    (compute_problem_data Sample.collaborators (-1) Sample.mixed_epd).BETA_X_IDX ≤ (compute_problem_data Sample.collaborators (-1) Sample.mixed_epd).N_VARS ∧
    (compute_problem_data Sample.collaborators (-1) Sample.mixed_epd).N_VARS =
      (compute_problem_data Sample.collaborators (-1) Sample.mixed_epd).N_CONTACTS + 4 * (compute_problem_data Sample.collaborators (-1) Sample.mixed_epd).N_LIN_CONE
      + (compute_problem_data Sample.collaborators (-1) Sample.mixed_epd).N_TRUE_CONE + (compute_problem_data Sample.collaborators (-1) Sample.mixed_epd).N_LIMITS
      + (compute_problem_data Sample.collaborators (-1) Sample.mixed_epd).N_CONSTRAINT_DOF_IMP
      + (compute_problem_data Sample.collaborators (-1) Sample.mixed_epd).N_CONSTRAINT_EQNS_EXP
      + (compute_problem_data Sample.collaborators (-1) Sample.mixed_epd).N_CONSTRAINT_DOF_EXP) :=
  ⟨by decide, index_layout Sample.collaborators (-1) Sample.mixed_epd (by decide)⟩

theorem count_lin_cone_snd (es : List Event) (n : Nat × Nat)
    (h : n.2 + es.length < UWORD) :
    (count_lin_cone es n).2 = n.2 + List.findIdx (fun e => e.contact_NK.val == UINF) es := by
  induction es generalizing n with
  | nil => simp [count_lin_cone]
  | cons e es ih =>
    have hlen : n.2 + (es.length + 1) < UWORD := by simpa using h
    by_cases h1 : e.contact_NK.val < UINF
    · have h2 : (e.contact_NK.val == UINF) = false := by
        simp only [beq_eq_false_iff_ne, ne_eq]
        omega
      have h3 : uadd n.2 1 = n.2 + 1 := by
        unfold uadd
        exact Nat.mod_eq_of_lt (by omega)
      have h4 := ih (uadd n.1 (e.contact_NK.val / 2), uadd n.2 1) (by simp only [h3]; omega)
      have h5 : count_lin_cone (e :: es) n =
          count_lin_cone es (uadd n.1 (e.contact_NK.val / 2), uadd n.2 1) := by
        simp [count_lin_cone, h1]
      rw [h5, h4, List.findIdx_cons, h2]
      simp only [h3, cond_false]
      omega
    · have h2 : e.contact_NK.val = UINF := by
        have := e.contact_NK.isLt
        unfold UINF at h1 ⊢
        omega
      simp [count_lin_cone, h2, List.findIdx_cons]

theorem drop_findIdx_all_iff (l : List Event) :
    (l.drop (List.findIdx (fun e => e.contact_NK.val == UINF) l)).all
        (fun e => e.contact_NK.val == UINF) = true ↔
      ∀ (i j : Nat) (hi : i < l.length) (hj : j < l.length),
        l[i].contact_NK.val = UINF → l[j].contact_NK.val < UINF → j < i := by
  rw [List.all_eq_true]
  constructor
  · intro hall i j hi hj hpi hpj
    by_contra hlt
    have hk : List.findIdx (fun e => e.contact_NK.val == UINF) l ≤ i := by
      by_contra hcon
      have := @List.not_of_lt_findIdx Event (fun e => e.contact_NK.val == UINF) l i
        (by omega)
      simp [hpi] at this
    have hmem : l[j] ∈ l.drop (List.findIdx (fun e => e.contact_NK.val == UINF) l) := by
      rw [List.mem_drop_iff_getElem]
      refine ⟨j - List.findIdx (fun e => e.contact_NK.val == UINF) l, by omega, ?_⟩
      congr 1
      omega
    have := hall _ hmem
    simp only [beq_iff_eq] at this
    omega
  · intro hord x hx
    obtain ⟨t, ht, rfl⟩ := List.mem_drop_iff_getElem.mp hx
    have hk : List.findIdx (fun e => e.contact_NK.val == UINF) l < l.length := by omega
    have hpk := @List.findIdx_getElem Event (fun e => e.contact_NK.val == UINF) l hk
    simp only [beq_iff_eq] at hpk ⊢
    by_contra hne
    have hlt : (l[List.findIdx (fun e => e.contact_NK.val == UINF) l + t]).contact_NK.val
        < UINF := by
      have := (l[List.findIdx (fun e => e.contact_NK.val == UINF) l + t]).contact_NK.isLt
      unfold UINF at hne ⊢
      omega
    have := hord _ _ hk (by omega) hpk hlt
    omega

/-- C6: when `compute_problem_data` starts from a zero `N_LIN_CONE` on a contact vector
whose size fits `unsigned`, `N_LIN_CONE` becomes the number of contact events that
precede the first true-cone contact (all of them if there is none), `N_TRUE_CONE` is
`N_CONTACTS - N_LIN_CONE`, and the condition asserted at lines 336-337 holds exactly
when every true-cone contact comes after every linearized-cone contact in the contact
vector. -/
theorem lin_cone_count {σ V : Type} (c : Collaborators σ V) (w : σ) (q : EventProblemData)
    (hzero : q.N_LIN_CONE = 0) (hsize : q.contact_events.length < UWORD) :
    (compute_problem_data c w q).N_LIN_CONE =
      List.findIdx (fun e => e.contact_NK.val == UINF) q.contact_events ∧
    (compute_problem_data c w q).N_LIN_CONE ≤ (compute_problem_data c w q).N_CONTACTS ∧
    (compute_problem_data c w q).N_TRUE_CONE =
      (compute_problem_data c w q).N_CONTACTS - (compute_problem_data c w q).N_LIN_CONE ∧
    (true_cones_at_end (compute_problem_data c w q) = true ↔
      ∀ (i j : Nat) (hi : i < q.contact_events.length) (hj : j < q.contact_events.length),
        q.contact_events[i].contact_NK.val = UINF →
        q.contact_events[j].contact_NK.val < UINF → j < i) := by
  have h1 : (count_lin_cone q.contact_events (q.N_K_TOTAL, q.N_LIN_CONE)).2 =
      List.findIdx (fun e => e.contact_NK.val == UINF) q.contact_events := by
    rw [count_lin_cone_snd _ _ (by simpa [hzero] using hsize)]
    simp [hzero]
  have h2 := @List.findIdx_le_length Event (fun e : Event => e.contact_NK.val == UINF)
    q.contact_events
  refine ⟨h1, ?_, ?_, ?_⟩
  · simp only [compute_problem_data, to_unsigned, h1]
    rw [Nat.mod_eq_of_lt hsize]
    exact h2
  · simp only [compute_problem_data, to_unsigned, usub_size, h1]
    unfold UWORD at hsize ⊢
    omega
  · simp only [true_cones_at_end, compute_problem_data, h1]
    exact drop_findIdx_all_iff q.contact_events

/-- Witness of C6 on the sample problem data, whose second contact has a true cone. -/
theorem lin_cone_count_witness :
    Sample.mixed_epd.N_LIN_CONE = 0 ∧ Sample.mixed_epd.contact_events.length < UWORD ∧
    ((compute_problem_data Sample.collaborators (-1) Sample.mixed_epd).N_LIN_CONE =
      List.findIdx (fun e => e.contact_NK.val == UINF) Sample.mixed_epd.contact_events ∧
    (compute_problem_data Sample.collaborators (-1) Sample.mixed_epd).N_LIN_CONE ≤ (compute_problem_data Sample.collaborators (-1) Sample.mixed_epd).N_CONTACTS ∧
    (compute_problem_data Sample.collaborators (-1) Sample.mixed_epd).N_TRUE_CONE =
      (compute_problem_data Sample.collaborators (-1) Sample.mixed_epd).N_CONTACTS - (compute_problem_data Sample.collaborators (-1) Sample.mixed_epd).N_LIN_CONE ∧
    (true_cones_at_end (compute_problem_data Sample.collaborators (-1) Sample.mixed_epd) = true ↔
      ∀ (i j : Nat) (hi : i < Sample.mixed_epd.contact_events.length) (hj : j < Sample.mixed_epd.contact_events.length),
        Sample.mixed_epd.contact_events[i].contact_NK.val = UINF →
        Sample.mixed_epd.contact_events[j].contact_NK.val < UINF → j < i)) :=
  ⟨by decide, by decide,
    lin_cone_count Sample.collaborators (-1) Sample.mixed_epd (by decide) (by decide)⟩

theorem map_find_assign {V : Type} (k b : DynamicBodyPtr) (v : V)
    (l : List (DynamicBodyPtr × V)) :
    map_find b (map_assign k v l) = if b = k then some v else map_find b l := by
  induction l with
  | nil => simp [map_assign, map_find]
  | cons hd t ih =>
    obtain ⟨k1, v1⟩ := hd
    simp only [map_assign]
    by_cases h1 : k < k1
    · simp [h1, map_find]
    · by_cases h2 : k = k1
      · subst h2
        by_cases h3 : b = k <;> simp [map_find, h3]
      · simp only [h1, h2, if_false, map_find, ih]
        by_cases h3 : b = k1
        · have : b ≠ k := fun h => h2 (h.symm.trans h3)
          subst h3
          rw [if_neg this]
          simp [this]
        · simp [h3]

theorem spec_impulse_untouched {σ V : Type} [AddCommMonoid V] (c : Collaborators σ V)
    (es : List Event) (b : DynamicBodyPtr)
    (h : ¬ ∃ e ∈ es, e.contact_geom1.super_body = b ∨ e.contact_geom2.super_body = b) :
    spec_impulse c es b = 0 := by
  induction es with
  | nil => simp [spec_impulse]
  | cons e t ih =>
    have h1 : e.contact_geom1.super_body ≠ b := fun hb => h ⟨e, by simp, Or.inl hb⟩
    have h2 : e.contact_geom2.super_body ≠ b := fun hb => h ⟨e, by simp, Or.inr hb⟩
    have h3 : spec_impulse c t b = 0 := ih (fun ⟨e1, he1, hb⟩ => h ⟨e1, by simp [he1], hb⟩)
    unfold spec_impulse at h3 ⊢
    simp [h1, h2, h3]

theorem mset_mirror_pair (M : Nat → Nat → ℚ) (x y a b : Nat) (v : ℚ)
    (h : M a b = M b a ∨ (a = x ∧ b = y) ∨ (a = y ∧ b = x)) :
    mset (mset M x y v) y x v a b = mset (mset M x y v) y x v b a := by
  show (if a = y ∧ b = x then v else if a = x ∧ b = y then v else M a b) =
    (if b = y ∧ a = x then v else if b = x ∧ a = y then v else M b a)
  by_cases hc1 : a = y ∧ b = x
  · have hc1' : b = x ∧ a = y := ⟨hc1.2, hc1.1⟩
    by_cases hc2 : b = y ∧ a = x
    · rw [if_pos hc1, if_pos hc2]
    · rw [if_pos hc1, if_neg hc2, if_pos hc1']
  · have hc1' : ¬ (b = x ∧ a = y) := fun h1 => hc1 ⟨h1.2, h1.1⟩
    by_cases hc2 : a = x ∧ b = y
    · have hc2' : b = y ∧ a = x := ⟨hc2.2, hc2.1⟩
      rw [if_neg hc1, if_pos hc2, if_pos hc2']
    · have hc2' : ¬ (b = y ∧ a = x) := fun h1 => hc2 ⟨h1.2, h1.1⟩
      rw [if_neg hc1, if_neg hc2, if_neg hc2', if_neg hc1']
      rcases h with h | h | h
      · exact h
      · exact absurd h hc2
      · exact absurd h hc1

theorem set_cross_terms_preserves (mi mj : List Nat) (upd : Nat → Nat → ℚ)
    (M : Nat → Nat → ℚ) (a b : Nat) (h : M a b = M b a) :
    set_cross_terms mi mj upd M a b = set_cross_terms mi mj upd M b a := by
  unfold set_cross_terms
  apply foldl_invariant (fun M1 : Nat → Nat → ℚ => M1 a b = M1 b a)
  · intro M1 r _ h1
    apply foldl_invariant
      (fun M2 : Nat → Nat → ℚ => M2 a b = M2 b a)
    · intro M2 s _ h2
      exact mset_mirror_pair M2 _ _ a b _ (Or.inl h2)
    · exact h1
  · exact h

theorem set_cross_terms_establishes (mi mj : List Nat) (upd : Nat → Nat → ℚ)
    (M : Nat → Nat → ℚ) (r s : Nat) (hr : r < mi.length) (hs : s < mj.length) :
    set_cross_terms mi mj upd M (mi.getD r 0) (mj.getD s 0) =
      set_cross_terms mi mj upd M (mj.getD s 0) (mi.getD r 0) := by
  unfold set_cross_terms
  apply foldl_establish
    (fun M1 : Nat → Nat → ℚ => M1 (mi.getD r 0) (mj.getD s 0) = M1 (mj.getD s 0) (mi.getD r 0))
    _ _ r (List.mem_range.mpr hr)
  · intro M1
    apply foldl_establish
      (fun M2 : Nat → Nat → ℚ =>
        M2 (mi.getD r 0) (mj.getD s 0) = M2 (mj.getD s 0) (mi.getD r 0))
      _ _ s (List.mem_range.mpr hs)
    · intro M2
      exact mset_mirror_pair M2 _ _ _ _ _ (Or.inr (Or.inl ⟨rfl, rfl⟩))
    · intro M2 s1 h2
      exact mset_mirror_pair M2 _ _ _ _ _ (Or.inl h2)
  · intro M1 r1 h1
    apply foldl_invariant
      (fun M2 : Nat → Nat → ℚ =>
        M2 (mi.getD r 0) (mj.getD s 0) = M2 (mj.getD s 0) (mi.getD r 0))
    · intro M2 s1 _ h2
      exact mset_mirror_pair M2 _ _ _ _ _ (Or.inl h2)
    · exact h1

theorem cross_event_loop_preserves {σ V : Type} (c : Collaborators σ V) (w : σ)
    (mappings : List (List Nat)) (ei : Event) (mi : List Nat) (rest : List Event) (a b : Nat) :
    ∀ (j : Nat) (M : Nat → Nat → ℚ), M a b = M b a →
      cross_event_loop c w mappings ei mi j rest M a b =
        cross_event_loop c w mappings ei mi j rest M b a := by
  induction rest with
  | nil => intro j M h; exact h
  | cons ej t ih =>
    intro j M h
    unfold cross_event_loop
    cases hx : c.calc_cross_event_data w ei ej with
    | none => exact ih _ _ h
    | some upd => exact ih _ _ (set_cross_terms_preserves _ _ _ _ _ _ h)

theorem cross_event_loop_establishes {σ V : Type} (c : Collaborators σ V) (w : σ)
    (mappings : List (List Nat)) (ei : Event) (mi : List Nat) (rest : List Event)
    (r s : Nat) (hr : r < mi.length) :
    ∀ (j k : Nat) (M : Nat → Nat → ℚ) (ej : Event) (upd : Nat → Nat → ℚ),
      rest[k]? = some ej → c.calc_cross_event_data w ei ej = some upd →
      s < (mappings.getD (j + k) []).length →
      cross_event_loop c w mappings ei mi j rest M (mi.getD r 0)
          ((mappings.getD (j + k) []).getD s 0) =
        cross_event_loop c w mappings ei mi j rest M ((mappings.getD (j + k) []).getD s 0)
          (mi.getD r 0) := by
  induction rest with
  | nil => intro j k M ej upd hk; simp at hk
  | cons e1 t ih =>
    intro j k M ej upd hk hx hs
    cases k with
    | zero =>
      have he : e1 = ej := by simpa using hk
      subst he
      simp only [Nat.add_zero] at hs ⊢
      unfold cross_event_loop
      rw [hx]
      exact cross_event_loop_preserves c w mappings ei mi t _ _ _ _
        (set_cross_terms_establishes mi _ upd M r s hr hs)
    | succ k =>
      have hk1 : t[k]? = some ej := by simpa using hk
      have hidx : j + (k + 1) = (j + 1) + k := by omega
      rw [hidx] at hs ⊢
      unfold cross_event_loop
      cases hx1 : c.calc_cross_event_data w ei e1 with
      | none => exact ih _ _ _ _ _ hk1 hx hs
      | some upd1 => exact ih _ _ _ _ _ hk1 hx hs

theorem last_index_succ (m : List Nat) (n x : Nat) :
    last_index m (n + 1) x = if m.getD n 0 = x then some n else last_index m n x := rfl

theorem mset_apply (M : Nat → Nat → ℚ) (a b : Nat) (v : ℚ) (x y : Nat) :
    mset M a b v x y = if x = a ∧ y = b then v else M x y := rfl

theorem last_index_some (m : List Nat) (n : Nat) :
    ∀ x r, last_index m n x = some r → r < n ∧ m.getD r 0 = x := by
  induction n with
  | zero => intro x r h; simp [last_index] at h
  | succ n ih =>
    intro x r h
    rw [last_index_succ] at h
    by_cases hx : m.getD n 0 = x
    · rw [if_pos hx] at h
      have hr : n = r := by simpa using h
      subst hr
      exact ⟨by omega, hx⟩
    · rw [if_neg hx] at h
      obtain ⟨h1, h2⟩ := ih x r h
      exact ⟨by omega, h2⟩

theorem last_index_of_not_mem (m : List Nat) (x : Nat) (hx : x ∉ m) :
    last_index m m.length x = none := by
  cases h : last_index m m.length x with
  | none => rfl
  | some r =>
    obtain ⟨h1, h2⟩ := last_index_some m m.length x r h
    rw [List.getD_eq_getElem m 0 h1] at h2
    exact absurd (h2 ▸ List.getElem_mem h1) hx

theorem self_terms_row (m : List Nat) (upd : Nat → Nat → ℚ) (r : Nat) (C : Nat) :
    ∀ (M : Nat → Nat → ℚ) (x y : Nat),
      ((List.range C).foldl
        (fun M1 s => mset M1 (m.getD r 0) (m.getD s 0) (upd r s)) M) x y =
      if x = m.getD r 0 then
        (match last_index m C y with
          | some s => upd r s
          | none => M x y)
      else M x y := by
  induction C with
  | zero => intro M x y; simp [last_index]
  | succ C ih =>
    intro M x y
    simp only [List.range_succ, List.foldl_append, List.foldl_cons, List.foldl_nil]
    rw [mset_apply, ih M x y, last_index_succ]
    by_cases hx : x = m.getD r 0
    · by_cases hy : y = m.getD C 0
      · have hy1 : m.getD C 0 = y := hy.symm
        rw [if_pos ⟨hx, hy⟩, if_pos hx, if_pos hy1]
      · have hy1 : ¬ m.getD C 0 = y := fun h => hy h.symm
        rw [if_neg (fun h => hy h.2), if_pos hx, if_pos hx, if_neg hy1]
    · rw [if_neg (fun h => hx h.1), if_neg hx, if_neg hx]

theorem self_terms_rows (m : List Nat) (upd : Nat → Nat → ℚ) (updq : Nat → ℚ) (R : Nat) :
    ∀ (Mq : (Nat → Nat → ℚ) × (Nat → ℚ)) (x y : Nat),
      ((List.range R).foldl
        (fun (st : (Nat → Nat → ℚ) × (Nat → ℚ)) r =>
          ((List.range m.length).foldl
              (fun M s => mset M (m.getD r 0) (m.getD s 0) (upd r s)) st.1,
            vset st.2 (m.getD r 0) (updq r)))
        Mq).1 x y =
      match last_index m R x with
      | some r =>
        (match last_index m m.length y with
          | some s => upd r s
          | none => Mq.1 x y)
      | none => Mq.1 x y := by
  induction R with
  | zero => intro Mq x y; simp [last_index]
  | succ R ih =>
    intro Mq x y
    simp only [List.range_succ, List.foldl_append, List.foldl_cons, List.foldl_nil]
    rw [self_terms_row m upd R m.length _ x y, ih Mq x y, last_index_succ]
    by_cases hx : x = m.getD R 0
    · have hx1 : m.getD R 0 = x := hx.symm
      rw [if_pos hx, if_pos hx1]
      cases h1 : last_index m m.length y with
      | some s => rfl
      | none =>
        simp only []
        cases h2 : last_index m R x <;> rfl
    · have hx1 : ¬ m.getD R 0 = x := fun h => hx h.symm
      rw [if_neg hx, if_neg hx1]

theorem set_self_terms_entry (m : List Nat) (upd : Nat → Nat → ℚ) (updq : Nat → ℚ)
    (Mq : (Nat → Nat → ℚ) × (Nat → ℚ)) (x y : Nat) :
    (set_self_terms m upd updq Mq).1 x y =
      match last_index m m.length x with
      | some r =>
        (match last_index m m.length y with
          | some s => upd r s
          | none => Mq.1 x y)
      | none => Mq.1 x y := by
  unfold set_self_terms
  exact self_terms_rows m upd updq m.length Mq x y

theorem set_self_terms_preserves (m : List Nat) (upd : Nat → Nat → ℚ) (updq : Nat → ℚ)
    (Mq : (Nat → Nat → ℚ) × (Nat → ℚ)) (x y : Nat)
    (h : (x ∉ m ∨ y ∉ m) ∨ ∀ r s, r < m.length → s < m.length → upd r s = upd s r)
    (hM : Mq.1 x y = Mq.1 y x) :
    (set_self_terms m upd updq Mq).1 x y = (set_self_terms m upd updq Mq).1 y x := by
  rw [set_self_terms_entry, set_self_terms_entry]
  rcases h with (hx | hy) | hsym
  · rw [last_index_of_not_mem m x hx]
    simp only []
    cases h1 : last_index m m.length y <;> exact hM
  · rw [last_index_of_not_mem m y hy]
    simp only []
    cases h1 : last_index m m.length x <;> exact hM
  · cases h1 : last_index m m.length x with
    | none =>
      simp only []
      cases h2 : last_index m m.length y <;> exact hM
    | some r =>
      cases h2 : last_index m m.length y with
      | none => exact hM
      | some s =>
        exact hsym r s (last_index_some m _ x r h1).1 (last_index_some m _ y s h2).1

theorem event_loop_preserves {σ V : Type} (c : Collaborators σ V) (w : σ)
    (mappings : List (List Nat)) (a b : Nat) (evs : List Event) :
    ∀ (k : Nat) (Mq : (Nat → Nat → ℚ) × (Nat → ℚ)),
      (∀ t e, evs[t]? = some e →
        ((a ∉ mappings.getD (k + t) [] ∨ b ∉ mappings.getD (k + t) []) ∨
          ∀ r s, r < (mappings.getD (k + t) []).length →
            s < (mappings.getD (k + t) []).length →
            (c.calc_event_data w e).1 r s = (c.calc_event_data w e).1 s r)) →
      Mq.1 a b = Mq.1 b a →
      (event_loop c w mappings k evs Mq).1 a b = (event_loop c w mappings k evs Mq).1 b a := by
  induction evs with
  | nil => intro k Mq _ hM; exact hM
  | cons e0 rest ih =>
    intro k Mq h hM
    unfold event_loop
    simp only
    apply ih (k + 1)
    · intro t e ht
      have h1 := h (t + 1) e (by simpa using ht)
      have hidx : k + (t + 1) = k + 1 + t := by omega
      rw [hidx] at h1
      exact h1
    · apply cross_event_loop_preserves
      have h0 := h 0 e0 (by simp)
      simp only [Nat.add_zero] at h0
      exact set_self_terms_preserves _ _ _ Mq a b h0 hM

theorem event_loop_cross_symmetric {σ V : Type} (c : Collaborators σ V) (w : σ)
    (mappings : List (List Nat)) (evs : List Event) :
    ∀ (k : Nat) (Mq : (Nat → Nat → ℚ) × (Nat → ℚ)) (i j : Nat) (ei ej : Event)
      (upd : Nat → Nat → ℚ) (r s : Nat),
      i < j → evs[i]? = some ei → evs[j]? = some ej →
      c.calc_cross_event_data w ei ej = some upd →
      r < (mappings.getD (k + i) []).length → s < (mappings.getD (k + j) []).length →
      (∀ t, i < t → t < evs.length →
        ∀ x, x ∈ mappings.getD (k + i) [] → x ∉ mappings.getD (k + t) []) →
      (event_loop c w mappings k evs Mq).1 ((mappings.getD (k + i) []).getD r 0)
          ((mappings.getD (k + j) []).getD s 0) =
        (event_loop c w mappings k evs Mq).1 ((mappings.getD (k + j) []).getD s 0)
          ((mappings.getD (k + i) []).getD r 0) := by
  induction evs with
  | nil => intro k Mq i j ei ej upd r s _ hi; simp at hi
  | cons e0 rest ih =>
    intro k Mq i j ei ej upd r s hij hi hj hx hr hs hdisj
    obtain ⟨j1, rfl⟩ : ∃ j1, j = j1 + 1 := ⟨j - 1, by omega⟩
    have hj1 : rest[j1]? = some ej := by simpa using hj
    cases i with
    | zero =>
      have he : e0 = ei := by simpa using hi
      subst he
      simp only [Nat.add_zero] at hr hdisj ⊢
      have hidx : k + (j1 + 1) = k + 1 + j1 := by omega
      rw [hidx] at hs ⊢
      unfold event_loop
      simp only
      apply event_loop_preserves
      · intro t e ht
        left
        left
        have htlen : t < rest.length := by
          by_contra hcon
          rw [List.getElem?_eq_none (by omega)] at ht
          exact Option.noConfusion ht
        have hmem : (mappings.getD k []).getD r 0 ∈ mappings.getD k [] := by
          rw [List.getD_eq_getElem _ 0 hr]
          exact List.getElem_mem hr
        have h1 := hdisj (t + 1) (by omega) (by simp only [List.length_cons]; omega) _ hmem
        have hidx1 : k + (t + 1) = k + 1 + t := by omega
        rw [hidx1] at h1
        exact h1
      · exact cross_event_loop_establishes c w mappings e0 _ rest r s hr (k + 1) j1 _ ej upd
          hj1 hx hs
    | succ i1 =>
      have hi1 : rest[i1]? = some ei := by simpa using hi
      have hidx : k + (j1 + 1) = k + 1 + j1 := by omega
      have hidx2 : k + (i1 + 1) = k + 1 + i1 := by omega
      rw [hidx] at hs ⊢
      rw [hidx2] at hr hdisj ⊢
      unfold event_loop
      simp only
      apply ih (k + 1) _ i1 j1 ei ej upd r s (by omega) hi1 hj1 hx hr hs
      intro t ht htlen x hxmem
      have h1 := hdisj (t + 1) (by omega) (by simp only [List.length_cons]; omega) x hxmem
      have hidx1 : k + (t + 1) = k + 1 + t := by omega
      rw [hidx1] at h1
      exact h1

/-- C9 (refutation of the claim as stated): for two events with cross data whose index
mappings `[0]` and `[0, 1]` overlap and whose self-term matrix is not symmetric, `M`
after `compute_problem_data` differs at `(mapping_0[0], mapping_1[1]) = (0, 1)` and at
the mirrored position `(1, 0)`. -/
theorem cross_block_asymmetric_with_overlapping_mappings :
    (Sample.asymmetric_collaborators.calc_cross_event_data (-1)
      (Sample.contact 4 (Sample.free_body 1) (Sample.free_body 2))
      (Sample.contact 4 (Sample.free_body 2) (Sample.free_body 3))).isSome = true ∧
    Sample.overlapping_epd.events =
      [Sample.contact 4 (Sample.free_body 1) (Sample.free_body 2),
        Sample.contact 4 (Sample.free_body 2) (Sample.free_body 3)] ∧
    (Sample.overlapping_epd.mappings.getD 0 []).getD 0 0 = 0 ∧
    (Sample.overlapping_epd.mappings.getD 1 []).getD 1 0 = 1 ∧
    (compute_problem_data Sample.asymmetric_collaborators (-1) Sample.overlapping_epd).M 0 1 = 2 ∧
    (compute_problem_data Sample.asymmetric_collaborators (-1) Sample.overlapping_epd).M 1 0 = 3 := by
  decide!

/-- C9 (amended): provided the index mappings of distinct events are disjoint, after
the event loop of `compute_problem_data` every pair of events `i < j` with cross data
has `M(mapping_i[r], mapping_j[s]) = M(mapping_j[s], mapping_i[r])` for all `r`, `s`;
and if moreover `M` was symmetric on entry and the self-term matrix of every event is
symmetric, then `M(a, b) = M(b, a)` for all `a`, `b`. -/
theorem assembled_matrix_symmetric {σ V : Type} (c : Collaborators σ V) (w : σ)
    (q : EventProblemData)
    (hdisj : ∀ i, i < q.events.length → ∀ j, j < q.events.length → i ≠ j →
      ∀ x ∈ q.mappings.getD i [], x ∉ q.mappings.getD j []) :
    (∀ (i j : Nat) (ei ej : Event) (upd : Nat → Nat → ℚ) (r s : Nat),
      i < j → q.events[i]? = some ei → q.events[j]? = some ej →
      c.calc_cross_event_data w ei ej = some upd →
      r < (q.mappings.getD i []).length → s < (q.mappings.getD j []).length →
      (compute_problem_data c w q).M ((q.mappings.getD i []).getD r 0)
          ((q.mappings.getD j []).getD s 0) =
        (compute_problem_data c w q).M ((q.mappings.getD j []).getD s 0)
          ((q.mappings.getD i []).getD r 0)) ∧
    ((∀ a b, q.M a b = q.M b a) →
      (∀ (i : Nat) (ei : Event), q.events[i]? = some ei →
        ∀ r s, r < (q.mappings.getD i []).length → s < (q.mappings.getD i []).length →
          (c.calc_event_data w ei).1 r s = (c.calc_event_data w ei).1 s r) →
      ∀ a b, (compute_problem_data c w q).M a b = (compute_problem_data c w q).M b a) := by
  constructor
  · intro i j ei ej upd r s hij hi hj hx hr hs
    have hjlen : j < q.events.length := by
      by_contra hcon
      rw [List.getElem?_eq_none (by omega)] at hj
      exact Option.noConfusion hj
    have h := event_loop_cross_symmetric c w q.mappings q.events 0 (q.M, q.q) i j ei ej upd r s
      hij hi hj hx (by simpa using hr) (by simpa using hs)
      (fun t hit htlen x hxmem => by
        simp only [Nat.zero_add] at hxmem ⊢
        exact hdisj i (by omega) t htlen (by omega) x hxmem)
    simp only [Nat.zero_add] at h
    exact h
  · intro hM hself a b
    apply event_loop_preserves c w q.mappings a b q.events 0 (q.M, q.q)
    · intro t e ht
      right
      simp only [Nat.zero_add]
      exact hself t e ht
    · exact hM a b

/-- Witness of C9 (amended) on the sample problem data of three events with the
disjoint index mappings `[0, 1]`, `[2, 3]` and `[4]`. -/
theorem assembled_matrix_symmetric_witness :
    (∀ i, i < Sample.mixed_epd.events.length → ∀ j, j < Sample.mixed_epd.events.length →
      i ≠ j →
      ∀ x ∈ Sample.mixed_epd.mappings.getD i [], x ∉ Sample.mixed_epd.mappings.getD j []) ∧
    (compute_problem_data Sample.asymmetric_collaborators (-1) Sample.mixed_epd).M
        ((Sample.mixed_epd.mappings.getD 0 []).getD 1 0)
        ((Sample.mixed_epd.mappings.getD 2 []).getD 0 0) =
      (compute_problem_data Sample.asymmetric_collaborators (-1) Sample.mixed_epd).M
        ((Sample.mixed_epd.mappings.getD 2 []).getD 0 0)
        ((Sample.mixed_epd.mappings.getD 0 []).getD 1 0) ∧
    (∀ a b, (compute_problem_data Sample.collaborators (-1) Sample.mixed_epd).M a b =
      (compute_problem_data Sample.collaborators (-1) Sample.mixed_epd).M b a) :=
  have hdisj : ∀ i, i < Sample.mixed_epd.events.length →
      ∀ j, j < Sample.mixed_epd.events.length → i ≠ j →
      ∀ x ∈ Sample.mixed_epd.mappings.getD i [], x ∉ Sample.mixed_epd.mappings.getD j [] :=
    fun i hi j hj hne =>
      ((by decide : ∀ i, i < Sample.mixed_epd.events.length →
        ∀ j, j < Sample.mixed_epd.events.length →
        (i = j ∨ ∀ x ∈ Sample.mixed_epd.mappings.getD i [],
          x ∉ Sample.mixed_epd.mappings.getD j [])) i hi j hj).resolve_left hne
  ⟨hdisj,
    (assembled_matrix_symmetric Sample.asymmetric_collaborators (-1) Sample.mixed_epd
      hdisj).1 0 2 _ _ (fun _ _ => 5) 1 0 (by decide) rfl rfl rfl (by decide)
      (by decide),
    (assembled_matrix_symmetric Sample.collaborators (-1) Sample.mixed_epd hdisj).2
      (fun _ _ => rfl) (fun _ _ _ _ _ _ _ => rfl)⟩

/-- C17 (code does not do this): for the sample problem with `Jx_iM_JxT = diag(2, 1)`,
`solve_lcp` builds an LCP matrix whose entries `(0, 0)` (block `UL`) and `(1, 1)`
(block `LR`) are `1` and `19/2`, while the Schur complement has `5/2` and `17/2`
there: `UL` is overwritten with `Jc_iM_JxT * Jx_iM_JxT * Jc_iM_JxTᵀ`, computed
from the matrix that `svd` was called on and not from its pseudo-inverse, and `LR` is
computed as `(A⁺ * Jl_iM_JxTᵀ) * Jl_iM_JxTᵀ`. -/
theorem solve_lcp_matrix_is_not_schur_complement :
    (solve_lcp Sample.diagonal_lcp_collaborators Sample.lcp_problem []).map
        (fun r => (r.MM.elem 0 0, r.MM.elem 1 1)) = some (1, 19 / 2) ∧
      (schur_complement Sample.diagonal_lcp_collaborators Sample.lcp_problem).map
        (fun MM => (MM.elem 0 0, MM.elem 1 1)) = some (5 / 2, 17 / 2) := by
  decide!

end ImpactEventHandler

namespace ConstraintStabilization

theorem le_get_min_pairwise_dist (eps : ℚ) (pdi : List PairwiseDistInfo)
    (hfin : eps ≤ DBL_MAX) (h : ∀ p ∈ pdi, eps ≤ p.dist) :
    eps ≤ get_min_pairwise_dist pdi := by
  unfold get_min_pairwise_dist
  generalize DBL_MAX = init at hfin
  induction pdi generalizing init with
  | nil => exact hfin
  | cons p t ih =>
    rw [List.foldl_cons]
    exact ih (fun p1 hp1 => h p1 (List.mem_cons_of_mem _ hp1)) (min init p.dist)
      (le_min hfin (h p (List.mem_cons_self _ _)))

theorem stabilize_of_le_min_dist (c : StabilizerCollaborators) (eps : ℚ) (fuel : Nat)
    (sim : ConstraintSimulator)
    (h : ¬ get_min_pairwise_dist sim.pairwise_distances < eps) :
    stabilize c eps fuel sim = Outcome.done sim := by
  unfold stabilize
  cases fuel with
  | zero => simp [stabilize_loop, h]
  | succ n => simp [stabilize_loop, h]

/-- C2: for a stabilizer whose tolerance `eps` is a finite `double` and a simulator
state whose pairwise distances are all at least `eps`, `stabilize` returns the state it
was given: the bodies and their coordinates are the same and the record of effects has
no new entry, so no body's generalized coordinates are set, the pairwise distances are
not recomputed and no problem data is assembled. -/
theorem stabilize_is_noop_without_penetration (c : StabilizerCollaborators) (eps : ℚ)
    (fuel : Nat) (sim : ConstraintSimulator) (hfin : eps ≤ DBL_MAX)
    (h : ∀ p ∈ sim.pairwise_distances, eps ≤ p.dist) :
    stabilize c eps fuel sim = Outcome.done sim :=
  stabilize_of_le_min_dist c eps fuel sim
    (not_lt.mpr (le_get_min_pairwise_dist eps sim.pairwise_distances hfin h))

/-- Witness of C2 on the sample state with an arm at distance `1` from everything. -/
theorem stabilize_is_noop_without_penetration_witness :
    Sample.eps ≤ DBL_MAX ∧ (∀ p ∈ Sample.beyond_limit.pairwise_distances, Sample.eps ≤ p.dist) ∧
      stabilize Sample.stabilizer_collaborators Sample.eps 3 Sample.beyond_limit =
        Outcome.done Sample.beyond_limit :=
  ⟨by decide!, by decide!,
    stabilize_is_noop_without_penetration Sample.stabilizer_collaborators Sample.eps 3
      Sample.beyond_limit (by decide!) (by decide!)⟩

theorem mset_diagonal_symmetric (M : Nat → Nat → ℚ) (i : Nat) (v : ℚ)
    (hM : ∀ a b, M a b = M b a) : ∀ a b, mset M i i v a b = mset M i i v b a := by
  intro a b
  unfold mset
  by_cases h1 : a = i <;> by_cases h2 : b = i <;> simp [h1, h2] <;> exact hM _ _

theorem mset_mirror_symmetric (M : Nat → Nat → ℚ) (i j : Nat) (v : ℚ)
    (hM : ∀ a b, M a b = M b a) :
    ∀ a b, mset (mset M j i v) i j v a b = mset (mset M j i v) i j v b a := by
  intro a b
  unfold mset
  by_cases h1 : a = i <;> by_cases h2 : b = j <;> by_cases h3 : a = j <;>
    by_cases h4 : b = i <;> simp [h1, h2, h3, h4] <;> exact hM _ _

theorem limit_limit_terms_symmetric (c : StabilizerCollaborators) (sim : ConstraintSimulator)
    (limits : List UnilateralConstraint) (A : MatrixNd)
    (hA : ∀ a b, A.elem a b = A.elem b a) :
    ∀ a b, (limit_limit_terms c sim limits A).elem a b =
      (limit_limit_terms c sim limits A).elem b a := by
  unfold limit_limit_terms
  apply foldl_invariant (fun A : MatrixNd => ∀ a b, A.elem a b = A.elem b a)
  · intro A1 i _ h1
    apply foldl_invariant (fun A : MatrixNd => ∀ a b, A.elem a b = A.elem b a)
    · intro A2 j _ h2
      exact mset_mirror_symmetric A2.elem i j _ h2
    · exact mset_diagonal_symmetric A1.elem i _ h1
  · exact hA

theorem row_iterator_diagonal (n i : Nat) (hi : i < n) :
    (i * n + i) / n = i ∧ (i * n + i) % n = i := by
  have hn : 0 < n := by omega
  constructor
  · rw [Nat.mul_comm, Nat.mul_add_div hn, Nat.div_eq_of_lt hi]
    rfl
  · rw [Nat.mul_comm, Nat.mul_add_mod, Nat.mod_eq_of_lt hi]

theorem contact_contact_inner (c : StabilizerCollaborators) (sim : ConstraintSimulator)
    (contacts : List UnilateralConstraint) (n i : Nat) (hi : i < n) (m : Nat) :
    ∀ st : MatrixNd × Nat, st.1.columns = n → st.2 = i * n →
      (∀ a b, a ≠ b → st.1.elem a b = 0) →
      let r := (List.range m).foldl
        (fun (st1 : MatrixNd × Nat) j =>
          if i = j then
            (st1.1.put_row_iterator st1.2
              ((c.compute_constraint_data sim.bodies (contacts.getD i default)).1 0 0),
              st1.2 + 1)
          else (st1.1, st1.2 + 1))
        st
      r.1.columns = n ∧ r.2 = i * n + m ∧ (∀ a b, a ≠ b → r.1.elem a b = 0) := by
  induction m with
  | zero => intro st h1 h2 h3; exact ⟨h1, by simpa using h2, h3⟩
  | succ m ih =>
    intro st h1 h2 h3
    have hm := ih st h1 h2 h3
    simp only [List.range_succ, List.foldl_append, List.foldl_cons, List.foldl_nil]
    simp only at hm
    revert hm
    generalize List.foldl _ st (List.range m) = r
    rintro ⟨g1, g2, g3⟩
    by_cases him : i = m
    · rw [if_pos him]
      refine ⟨g1, by simp only [g2]; omega, ?_⟩
      intro a b hab
      have hk := row_iterator_diagonal n i hi
      have hr2 : r.2 = i * n + i := by rw [g2, ← him]
      simp only [MatrixNd.put_row_iterator, MatrixNd.put, mset, g1, hr2, hk.1, hk.2]
      by_cases ha : a = i
      · have hb : ¬ b = i := fun h => hab (ha.trans h.symm)
        simp only [hb, and_false, if_false]
        exact g3 a b hab
      · simp only [ha, false_and, if_false]
        exact g3 a b hab
    · rw [if_neg him]
      exact ⟨g1, by simp only [g2]; omega, g3⟩

theorem contact_contact_terms_diagonal (c : StabilizerCollaborators)
    (sim : ConstraintSimulator) (contacts : List UnilateralConstraint) (A : MatrixNd)
    (hcols : A.columns = contacts.length) (hA : ∀ a b, a ≠ b → A.elem a b = 0) :
    ∀ a b, a ≠ b → (contact_contact_terms c sim contacts A).1.elem a b = 0 := by
  have houter : ∀ r, r ≤ contacts.length →
      let st := (List.range r).foldl
        (fun (st : MatrixNd × Nat) i =>
          (List.range contacts.length).foldl
            (fun (st1 : MatrixNd × Nat) j =>
              if i = j then
                (st1.1.put_row_iterator st1.2
                  ((c.compute_constraint_data sim.bodies (contacts.getD i default)).1 0 0),
                  st1.2 + 1)
              else (st1.1, st1.2 + 1))
            st)
        (A, 0)
      st.1.columns = contacts.length ∧ st.2 = r * contacts.length ∧
        (∀ a b, a ≠ b → st.1.elem a b = 0) := by
    intro r
    induction r with
    | zero => intro _; exact ⟨hcols, by simp, hA⟩
    | succ r ih =>
      intro hr
      obtain ⟨g1, g2, g3⟩ := ih (by omega)
      simp only [List.range_succ, List.foldl_append, List.foldl_cons, List.foldl_nil]
      obtain ⟨k1, k2, k3⟩ := contact_contact_inner c sim contacts contacts.length r
        (by omega) contacts.length _ g1 g2 g3
      exact ⟨k1, by rw [k2]; ring, k3⟩
  exact (houter contacts.length (le_refl _)).2.2

theorem lcp_matrix_symmetric_of_blocks (c : StabilizerCollaborators)
    (pd : UnilateralConstraintProblemData)
    (hC : ∀ a b, pd.Cn_iM_CnT.elem a b = pd.Cn_iM_CnT.elem b a)
    (hL : ∀ a b, pd.L_iM_LT.elem a b = pd.L_iM_LT.elem b a) :
    ∀ a b, a < uadd pd.N_CONTACTS pd.N_LIMITS → b < uadd pd.N_CONTACTS pd.N_LIMITS →
      (lcp_matrix c pd).elem a b = (lcp_matrix c pd).elem b a := by
  intro a b ha hb
  simp only [lcp_matrix, MatrixNd.set_block, MatrixNd.set_block_transpose]
  by_cases h1 : a < pd.N_CONTACTS <;> by_cases h2 : b < pd.N_CONTACTS
  · have e1 : ¬ pd.N_CONTACTS ≤ a := by omega
    have e2 : ¬ pd.N_CONTACTS ≤ b := by omega
    simp [h1, h2, e1, e2, hC a b]
  · have e1 : ¬ pd.N_CONTACTS ≤ a := by omega
    have e2 : pd.N_CONTACTS ≤ b := by omega
    simp [h1, h2, e1, e2, ha, hb]
  · have e1 : pd.N_CONTACTS ≤ a := by omega
    have e2 : ¬ pd.N_CONTACTS ≤ b := by omega
    simp [h1, h2, e1, e2, ha, hb]
  · have e1 : pd.N_CONTACTS ≤ a := by omega
    have e2 : pd.N_CONTACTS ≤ b := by omega
    simp [h1, h2, e1, e2, ha, hb, hL (a - pd.N_CONTACTS) (b - pd.N_CONTACTS)]

theorem island_partition_length (island : List UnilateralConstraint) :
    (island.filter (fun uc => uc.event_type = EventType.eContact)).length +
      (island.filter (fun uc => ¬ uc.event_type = EventType.eContact)).length =
      island.length := by
  induction island with
  | nil => rfl
  | cons uc t ih =>
    by_cases h : uc.event_type = EventType.eContact
    · rw [List.filter_cons_of_pos (by simpa using h),
        List.filter_cons_of_neg (by simpa using h)]
      simp only [List.length_cons]
      omega
    · rw [List.filter_cons_of_neg (by simpa using h),
        List.filter_cons_of_pos (by simpa using h)]
      simp only [List.length_cons]
      omega

/-- C10: for an island of fewer than `2^32` constraints, the matrix `MM` of the
position-level LCP that `determine_dq` builds from the blocks `Cn_iM_CnT`, `Cn_iM_LT`,
its transpose and `L_iM_LT` set by `set_unilateral_constraint_data` is symmetric,
`MM(a, b) = MM(b, a)` for all `a, b` below `N_CONTACTS + N_LIMITS`, and `L_iM_LT` is
symmetric. -/
theorem position_lcp_matrix_symmetric (c : StabilizerCollaborators)
    (sim : ConstraintSimulator) (island : List UnilateralConstraint)
    (hsize : island.length < UWORD) :
    (∀ a b, a < (island_data c sim island).N_CONTACTS + (island_data c sim island).N_LIMITS →
      b < (island_data c sim island).N_CONTACTS + (island_data c sim island).N_LIMITS →
      (lcp_matrix c (island_data c sim island)).elem a b =
        (lcp_matrix c (island_data c sim island)).elem b a) ∧
    (∀ i j, (island_data c sim island).L_iM_LT.elem i j =
      (island_data c sim island).L_iM_LT.elem j i) := by
  have hpart := island_partition_length island
  have hlen : (island.filter (fun uc => uc.event_type = EventType.eContact)).length < UWORD :=
    lt_of_le_of_lt (List.length_filter_le _ _) hsize
  have hlen2 : (island.filter (fun uc => ¬ uc.event_type = EventType.eContact)).length
      < UWORD := lt_of_le_of_lt (List.length_filter_le _ _) hsize
  have hL : ∀ i j, (island_data c sim island).L_iM_LT.elem i j =
      (island_data c sim island).L_iM_LT.elem j i := by
    simp only [island_data, set_unilateral_constraint_data]
    exact limit_limit_terms_symmetric c sim _ _ (fun _ _ => rfl)
  have hC : ∀ a b, (island_data c sim island).Cn_iM_CnT.elem a b =
      (island_data c sim island).Cn_iM_CnT.elem b a := by
    have hdiag : ∀ a b, a ≠ b → (island_data c sim island).Cn_iM_CnT.elem a b = 0 := by
      simp only [island_data, set_unilateral_constraint_data]
      apply contact_contact_terms_diagonal
      · simp only [MatrixNd.set_zero, to_unsigned]
        exact Nat.mod_eq_of_lt hlen
      · intro a b _
        rfl
    intro a b
    by_cases hab : a = b
    · rw [hab]
    · rw [hdiag a b hab, hdiag b a (fun h => hab h.symm)]
  have hsum : uadd (island_data c sim island).N_CONTACTS (island_data c sim island).N_LIMITS =
      (island_data c sim island).N_CONTACTS + (island_data c sim island).N_LIMITS := by
    have h1 : (island_data c sim island).N_CONTACTS =
        (island.filter (fun uc => uc.event_type = EventType.eContact)).length := by
      simp only [island_data, set_unilateral_constraint_data, to_unsigned]
      exact Nat.mod_eq_of_lt hlen
    have h2 : (island_data c sim island).N_LIMITS =
        (island.filter (fun uc => ¬ uc.event_type = EventType.eContact)).length := by
      simp only [island_data, set_unilateral_constraint_data, to_unsigned]
      exact Nat.mod_eq_of_lt hlen2
    rw [h1, h2]
    unfold uadd
    exact Nat.mod_eq_of_lt (by omega)
  refine ⟨fun a b ha hb => ?_, hL⟩
  rw [← hsum] at ha hb
  exact lcp_matrix_symmetric_of_blocks c _ hC hL a b ha hb

/-- Witness of C10 on the sample island of two contacts and two joint limits. -/
theorem position_lcp_matrix_symmetric_witness :
    Sample.island.length < UWORD ∧
    ((∀ a b,
      a < (island_data Sample.stabilizer_collaborators Sample.penetrating
            Sample.island).N_CONTACTS +
          (island_data Sample.stabilizer_collaborators Sample.penetrating
            Sample.island).N_LIMITS →
      b < (island_data Sample.stabilizer_collaborators Sample.penetrating
            Sample.island).N_CONTACTS +
          (island_data Sample.stabilizer_collaborators Sample.penetrating
            Sample.island).N_LIMITS →
      (lcp_matrix Sample.stabilizer_collaborators
          (island_data Sample.stabilizer_collaborators Sample.penetrating
            Sample.island)).elem a b =
        (lcp_matrix Sample.stabilizer_collaborators
          (island_data Sample.stabilizer_collaborators Sample.penetrating
            Sample.island)).elem b a) ∧
    (∀ i j,
      (island_data Sample.stabilizer_collaborators Sample.penetrating
          Sample.island).L_iM_LT.elem i j =
        (island_data Sample.stabilizer_collaborators Sample.penetrating
          Sample.island).L_iM_LT.elem j i)) :=
  ⟨by decide, position_lcp_matrix_symmetric Sample.stabilizer_collaborators
    Sample.penetrating Sample.island (by decide)⟩

/-- C11 (code does not do this): on the sample island, whose first two constraints are
contacts with cross term `12`, the entry `(0, 1)` of the matrix `Cn_iM_CnT` assembled
by `set_unilateral_constraint_data` is `0`: the loop over the pairs of contacts writes
an entry only when `i = j`. -/
theorem contact_cross_term_not_written :
    (island_data Sample.stabilizer_collaborators Sample.penetrating
        Sample.island).Cn_iM_CnT.elem 0 1 = 0 ∧
      Sample.stabilizer_collaborators.compute_cross_constraint_data
        Sample.penetrating.bodies (Sample.island.getD 0 default)
        (Sample.island.getD 1 default) 0 0 = 12 := by
  decide!

/-- C12 (code does not do this): for the sample arm, whose second joint is at `5` with
upper limit `1`, `compute_s` returns `0` while the maximum over every joint and every
degree of freedom is `4`: the code reads joint `joints[i]` with the index `i` of the
body and degree of freedom `[j]` with the index `j` of the joint. -/
theorem compute_s_misses_second_joint :
    compute_s Sample.two_joints.pairwise_distances Sample.two_joints = some 0 ∧
      spec_merit Sample.two_joints.pairwise_distances Sample.two_joints = 4 := by
  decide!

/-- C15 (code does not do this): with collaborators whose fast and regularized LCP
solvers both report failure, `determine_dq` returns normally and has written the
content `7` that the regularized solver left in its output vector into `dqm`. -/
theorem determine_dq_ignores_solver_failure :
    (Sample.failing_collaborators.lcp_fast
        (lcp_matrix Sample.failing_collaborators Sample.one_contact_pd)
        (lcp_vector Sample.failing_collaborators Sample.one_contact_pd) []).1 = false ∧
      (Sample.failing_collaborators.lcp_lemke_regularized
        (lcp_matrix Sample.failing_collaborators Sample.one_contact_pd)
        (lcp_vector Sample.failing_collaborators Sample.one_contact_pd) []).1 = false ∧
      determine_dq Sample.failing_collaborators Sample.penetrating Sample.one_contact_pd [0]
        (generate_body_index_map [] Sample.penetrating) = Outcome.done [7] := by
  decide!

theorem with_value_eq {α : Type} (n : Nat) (f : Nat → α) : with_value n f = f n := by
  cases n with
  | zero => rfl
  | succ k => rfl

theorem round_double_zero : round_double 0 = 0 := by
  unfold round_double
  simp [with_value_eq]

/-- The rounding function on numbers whose nearest doubles are known: `0.1`, `0.05`
and `0.8`; the sum of the doubles `0.1` and `0.2`; ties between two doubles (to the
even one); a number that has no nearer double than itself; half of the least
positive double (to zero), three halves of it, and the least positive double times
`0.8`; the largest finite double, and a number beyond it. -/
theorem round_double_values :
    round_double (1 / 10) = dyadic 3602879701896397 (-55) ∧
      round_double (5 / 100) = dyadic 3602879701896397 (-56) ∧
      round_double (8 / 10) = dyadic 3602879701896397 (-52) ∧
      dadd (dyadic 3602879701896397 (-55)) (dyadic 3602879701896397 (-54)) =
        dyadic 1351079888211149 (-52) ∧
      round_double (2 ^ 53 + 1) = 2 ^ 53 ∧
      round_double (2 ^ 53 + 3) = 2 ^ 53 + 4 ∧
      round_double (-(2 ^ 53 + 3)) = -(2 ^ 53 + 4) ∧
      round_double (-3 / 4) = -3 / 4 ∧
      round_double (dyadic 1 (-1075)) = 0 ∧
      round_double (dyadic 3 (-1075)) = dyadic 2 (-1074) ∧
      dmul (dyadic 1 (-1074)) (dyadic 3602879701896397 (-52)) = dyadic 1 (-1074) ∧
      round_double DBL_MAX = DBL_MAX ∧
      is_finite (round_double DBL_MAX) = true ∧
      is_finite (round_double (2 * DBL_MAX)) = false := by
  decide!

theorem candidate_zero (t : ℚ) : candidate [0] [0] t = [0] := by
  simp [candidate, dmul, dadd, round_double_zero]

theorem candidate_finite_zero (t : ℚ) : candidate_finite [0] [0] t = true := by
  have h : is_finite 0 = true := by decide!
  simp [candidate_finite, candidate, dmul, dadd, round_double_zero, h]

theorem update_q_loop_accept (c : StabilizerCollaborators) (dq q : List ℚ) (s0 : ℚ)
    (fuel : Nat) (t : ℚ) (st : List ℚ × ℚ × ConstraintSimulator)
    (h : ¬ st.2.1 > armijo_bound s0 t (-1)) :
    update_q_loop c dq q s0 fuel t st = Outcome.done (t, st) := by
  cases fuel with
  | zero => unfold update_q_loop; simp only [if_neg h]
  | succ n => unfold update_q_loop; simp only [if_neg h]

theorem compute_problem_data_effects (c : StabilizerCollaborators)
    (B : List DynamicBody) (P : List PairwiseDistInfo) (e : List Effect) :
    compute_problem_data c ⟨B, P, e⟩ =
      ((compute_problem_data c ⟨B, P, []⟩).1, ⟨B, P, e ++ [Effect.compute_problem_data]⟩) :=
  rfl

theorem populate_dq_effects (B : List DynamicBody) (P : List PairwiseDistInfo)
    (e : List Effect) (body_index_map : List (DynamicBodyPtr × Nat)) (dq_sub : List ℚ)
    (bodies : List DynamicBodyPtr) :
    ∀ st, populate_dq ⟨B, P, e⟩ body_index_map dq_sub bodies st =
      populate_dq ⟨B, P, []⟩ body_index_map dq_sub bodies st := by
  induction bodies with
  | nil => intro st; rfl
  | cons b rest ih =>
    intro st
    unfold populate_dq
    simp only [ih]

theorem determine_dqs_effects (c : StabilizerCollaborators) (B : List DynamicBody)
    (P : List PairwiseDistInfo) (e : List Effect)
    (body_index_map : List (DynamicBodyPtr × Nat))
    (pds : List UnilateralConstraintProblemData) :
    ∀ dq, determine_dqs c ⟨B, P, e⟩ body_index_map pds dq =
      determine_dqs c ⟨B, P, []⟩ body_index_map pds dq := by
  induction pds with
  | nil => intro dq; rfl
  | cons pd rest ih =>
    intro dq
    unfold determine_dqs determine_dq
    simp only [ih, populate_dq_effects B P e]

theorem stalled_update_bodies (e : List Effect) :
    update_bodies Sample.ground_collaborators [0] Sample.touching.bodies (0, [], e) =
      Outcome.done (Sample.touching.bodies,
        e ++ [Effect.set_generalized_coordinates 1 [], Effect.set_generalized_coordinates 2 [0]]) := by
  simp [update_bodies, segment, elements, Sample.touching, Sample.rigid,
    Sample.ground_collaborators, Sample.stabilizer_collaborators]

theorem stalled_trial (t : ℚ) (sim : ConstraintSimulator)
    (hb : sim.bodies = Sample.touching.bodies) :
    ∃ sim1, trial Sample.ground_collaborators [0] [0] t sim = Outcome.done ([0], 0, sim1) ∧
      sim1.bodies = Sample.touching.bodies ∧
      sim1.pairwise_distances = Sample.touching.pairwise_distances := by
  obtain ⟨B, P, e⟩ := sim
  simp only at hb
  subst hb
  have hu : update_body_configurations Sample.ground_collaborators [0]
      ⟨Sample.touching.bodies, P, e⟩ =
      Outcome.done ⟨Sample.touching.bodies, P,
        e ++ [Effect.set_generalized_coordinates 1 [],
          Effect.set_generalized_coordinates 2 [0]]⟩ := by
    unfold update_body_configurations
    simp only [stalled_update_bodies]
  have hs : compute_s
      (Sample.ground_collaborators.calc_pairwise_distances Sample.touching.bodies)
      ⟨Sample.touching.bodies,
        Sample.ground_collaborators.calc_pairwise_distances Sample.touching.bodies, []⟩ =
      some 0 := by decide!
  refine ⟨calc_pairwise_distances Sample.ground_collaborators
    ⟨Sample.touching.bodies, P,
      e ++ [Effect.set_generalized_coordinates 1 [],
        Effect.set_generalized_coordinates 2 [0]]⟩, ?_, rfl, ?_⟩
  swap
  · show Sample.ground_collaborators.calc_pairwise_distances Sample.touching.bodies =
      Sample.touching.pairwise_distances
    decide!
  unfold trial
  simp only [candidate_finite_zero, candidate_zero, if_true, hu]
  have hs1 : compute_s
      (calc_pairwise_distances Sample.ground_collaborators
        ⟨Sample.touching.bodies, P,
          e ++ [Effect.set_generalized_coordinates 1 [],
            Effect.set_generalized_coordinates 2 [0]]⟩).pairwise_distances
      (calc_pairwise_distances Sample.ground_collaborators
        ⟨Sample.touching.bodies, P,
          e ++ [Effect.set_generalized_coordinates 1 [],
            Effect.set_generalized_coordinates 2 [0]]⟩) = some 0 := hs
  simp only [hs1]

theorem stalled_update_q_loop (fuel : Nat) :
    ∀ (t : ℚ) (st : List ℚ × ℚ × ConstraintSimulator), st.1 = [0] → st.2.1 = 0 →
      st.2.2.bodies = Sample.touching.bodies →
      st.2.2.pairwise_distances = Sample.touching.pairwise_distances →
      update_q_loop Sample.ground_collaborators [0] [0] 0 fuel t st = Outcome.out_of_fuel ∨
      ∃ t1 sim1,
        update_q_loop Sample.ground_collaborators [0] [0] 0 fuel t st =
          Outcome.done (t1, [0], 0, sim1) ∧
        sim1.bodies = Sample.touching.bodies ∧
        sim1.pairwise_distances = Sample.touching.pairwise_distances := by
  induction fuel with
  | zero =>
    intro t st hq hs hb hp
    obtain ⟨q1, s1, sim1⟩ := st
    simp only at hq hs hb hp
    subst hq hs
    unfold update_q_loop
    simp only
    split
    · exact Or.inl rfl
    · exact Or.inr ⟨t, sim1, rfl, hb, hp⟩
  | succ n ih =>
    intro t st hq hs hb hp
    obtain ⟨q1, s1, sim1⟩ := st
    simp only at hq hs hb hp
    subst hq hs
    unfold update_q_loop
    dsimp only
    split
    · obtain ⟨sim2, htrial, hb2, hp2⟩ := stalled_trial (dmul t BETA) sim1 hb
      simp only [htrial]
      exact ih (dmul t BETA) _ rfl rfl hb2 hp2
    · exact Or.inr ⟨t, sim1, rfl, hb, hp⟩

theorem first_stabilize_step (inner : Nat) :
    stabilize_step Sample.ground_collaborators inner
      (generate_body_index_map [] Sample.sinking) [-1] Sample.sinking =
      Outcome.done ([0], Sample.touching) := by
  have hdq : determine_dqs Sample.ground_collaborators
      (compute_problem_data Sample.ground_collaborators Sample.sinking).2
      (generate_body_index_map [] Sample.sinking)
      (compute_problem_data Sample.ground_collaborators Sample.sinking).1
      (List.replicate [(-1 : ℚ)].length 0) = Outcome.done [1] := by decide!
  have hs0 : compute_s
      (compute_problem_data Sample.ground_collaborators Sample.sinking).2.pairwise_distances
      (compute_problem_data Sample.ground_collaborators Sample.sinking).2 = some 1 := by
    decide!
  have htrial : trial Sample.ground_collaborators [1] [-1] 1
      (compute_problem_data Sample.ground_collaborators Sample.sinking).2 =
      Outcome.done ([0], 0, Sample.touching) := by decide!
  have hloop := update_q_loop_accept Sample.ground_collaborators [1] [-1] 1 inner 1
    ([0], 0, Sample.touching) (by decide!)
  unfold stabilize_step
  simp only [hdq]
  unfold update_q
  simp only [hs0, htrial, hloop]

theorem stalled_stabilize_step (inner : Nat) (sim : ConstraintSimulator)
    (hb : sim.bodies = Sample.touching.bodies)
    (hp : sim.pairwise_distances = Sample.touching.pairwise_distances) :
    stabilize_step Sample.ground_collaborators inner
        (generate_body_index_map [] Sample.sinking) [0] sim = Outcome.out_of_fuel ∨
      ∃ sim1, stabilize_step Sample.ground_collaborators inner
          (generate_body_index_map [] Sample.sinking) [0] sim = Outcome.done ([0], sim1) ∧
        sim1.bodies = Sample.touching.bodies ∧
        sim1.pairwise_distances = Sample.touching.pairwise_distances := by
  obtain ⟨B, P, e⟩ := sim
  simp only at hb hp
  subst hb hp
  have hdq : determine_dqs Sample.ground_collaborators
      ⟨Sample.touching.bodies, Sample.touching.pairwise_distances, []⟩
      (generate_body_index_map [] Sample.sinking)
      (compute_problem_data Sample.ground_collaborators
        ⟨Sample.touching.bodies, Sample.touching.pairwise_distances, []⟩).1
      (List.replicate [(0 : ℚ)].length 0) = Outcome.done [0] := by decide!
  have hs0 : compute_s Sample.touching.pairwise_distances
      ⟨Sample.touching.bodies, Sample.touching.pairwise_distances, []⟩ = some 0 := by
    decide!
  have hs1 : compute_s Sample.touching.pairwise_distances
      ⟨Sample.touching.bodies, Sample.touching.pairwise_distances,
        e ++ [Effect.compute_problem_data]⟩ = some 0 := hs0
  obtain ⟨sim1, htrial, hb1, hp1⟩ := stalled_trial 1
    ⟨Sample.touching.bodies, Sample.touching.pairwise_distances,
      e ++ [Effect.compute_problem_data]⟩ rfl
  have hdq1 : determine_dqs Sample.ground_collaborators
      (compute_problem_data Sample.ground_collaborators
        ⟨Sample.touching.bodies, Sample.touching.pairwise_distances, e⟩).2
      (generate_body_index_map [] Sample.sinking)
      (compute_problem_data Sample.ground_collaborators
        ⟨Sample.touching.bodies, Sample.touching.pairwise_distances, e⟩).1
      (List.replicate [(0 : ℚ)].length 0) = Outcome.done [0] := by
    rw [compute_problem_data_effects]
    dsimp only
    rw [determine_dqs_effects]
    exact hdq
  have hsim : (compute_problem_data Sample.ground_collaborators
      ⟨Sample.touching.bodies, Sample.touching.pairwise_distances, e⟩).2 =
      ⟨Sample.touching.bodies, Sample.touching.pairwise_distances,
        e ++ [Effect.compute_problem_data]⟩ := rfl
  unfold stabilize_step
  simp only [hdq1]
  unfold update_q
  simp only [hsim, hs1, htrial]
  rcases stalled_update_q_loop inner 1 ([0], 0, sim1) rfl rfl hb1 hp1 with hloop | hloop
  · left
    simp only [hloop]
  · obtain ⟨t1, sim2, hloop, hb2, hp2⟩ := hloop
    right
    refine ⟨sim2, ?_, hb2, hp2⟩
    simp only [hloop]

theorem stalled_stabilize_loop (inner : Nat) (fuel : Nat) :
    ∀ st : List ℚ × ConstraintSimulator, st.1 = [0] →
      st.2.bodies = Sample.touching.bodies →
      st.2.pairwise_distances = Sample.touching.pairwise_distances →
      stabilize_loop Sample.ground_collaborators Sample.eps inner
        (generate_body_index_map [] Sample.sinking) fuel st = Outcome.out_of_fuel := by
  have hlt : get_min_pairwise_dist Sample.touching.pairwise_distances < Sample.eps := by
    decide!
  induction fuel with
  | zero =>
    intro st _ _ hp
    unfold stabilize_loop
    rw [hp]
    simp only [if_pos hlt]
  | succ n ih =>
    intro st hq hb hp
    obtain ⟨q, sim⟩ := st
    simp only at hq hb hp
    subst hq
    unfold stabilize_loop
    simp only [hp, if_pos hlt]
    rcases stalled_stabilize_step inner sim hb hp with hstep | ⟨sim1, hstep, hb1, hp1⟩
    · simp only [hstep]
    · simp only [hstep]
      exact ih _ rfl hb1 hp1

theorem shrink_steps_trans (s0 sstar : ℚ) (n m : Nat) :
    ∀ (t t1 t2 : ℚ), shrink_steps s0 sstar n t = some t1 →
      shrink_steps s0 sstar m t1 = some t2 → shrink_steps s0 sstar (n + m) t = some t2 := by
  induction n with
  | zero =>
    intro t t1 t2 h1 h2
    unfold shrink_steps at h1
    injection h1 with h1
    subst h1
    rw [Nat.zero_add]
    exact h2
  | succ k ih =>
    intro t t1 t2 h1 h2
    unfold shrink_steps at h1
    split at h1
    · rename_i hgt
      rw [show k + 1 + m = (k + m) + 1 by omega]
      unfold shrink_steps
      rw [if_pos hgt]
      exact ih _ _ _ h1 h2
    · exact Option.noConfusion h1

theorem stalled_loop_shrinks (n : Nat) :
    ∀ (t t1 : ℚ) (fuel : Nat) (sim : ConstraintSimulator),
      shrink_steps 0 0 n t = some t1 →
      sim.bodies = Sample.touching.bodies →
      sim.pairwise_distances = Sample.touching.pairwise_distances →
      ∃ sim1, update_q_loop Sample.ground_collaborators [0] [0] 0 (n + fuel) t ([0], 0, sim) =
          update_q_loop Sample.ground_collaborators [0] [0] 0 fuel t1 ([0], 0, sim1) ∧
        sim1.bodies = Sample.touching.bodies ∧
        sim1.pairwise_distances = Sample.touching.pairwise_distances := by
  induction n with
  | zero =>
    intro t t1 fuel sim h hb hp
    unfold shrink_steps at h
    injection h with h
    subst h
    rw [Nat.zero_add]
    exact ⟨sim, rfl, hb, hp⟩
  | succ k ih =>
    intro t t1 fuel sim h hb hp
    unfold shrink_steps at h
    split at h
    · rename_i hgt
      obtain ⟨sim2, htrial, hb2, hp2⟩ := stalled_trial (dmul t BETA) sim hb
      obtain ⟨sim1, hloop, hb1, hp1⟩ := ih (dmul t BETA) t1 fuel sim2 h hb2 hp2
      refine ⟨sim1, ?_, hb1, hp1⟩
      rw [show k + 1 + fuel = (k + fuel) + 1 by omega, ← hloop]
      conv_lhs => unfold update_q_loop
      dsimp only
      rw [if_pos hgt]
      simp only [htrial]
    · exact Option.noConfusion h

theorem shrink_steps_100 :
    shrink_steps 0 0 100 1 = some (dyadic 7880401239278943 (-85)) := by
  decide!

theorem shrink_steps_200 :
    shrink_steps 0 0 200 1 = some (dyadic 3447282664438783 (-116)) :=
  shrink_steps_trans 0 0 100 100 1 _ _ shrink_steps_100
    (by decide! : shrink_steps 0 0 100 (dyadic 7880401239278943 (-85)) = some (dyadic 3447282664438783 (-116)))

theorem shrink_steps_300 :
    shrink_steps 0 0 300 1 = some (dyadic 3016028602530271 (-148)) :=
  shrink_steps_trans 0 0 200 100 1 _ _ shrink_steps_200
    (by decide! : shrink_steps 0 0 100 (dyadic 3447282664438783 (-116)) = some (dyadic 3016028602530271 (-148)))

theorem shrink_steps_400 :
    shrink_steps 0 0 400 1 = some (dyadic 5277448597480531 (-181)) :=
  shrink_steps_trans 0 0 300 100 1 _ _ shrink_steps_300
    (by decide! : shrink_steps 0 0 100 (dyadic 3016028602530271 (-148)) = some (dyadic 5277448597480531 (-181)))

theorem shrink_steps_500 :
    shrink_steps 0 0 500 1 = some (dyadic 4617241307937779 (-213)) :=
  shrink_steps_trans 0 0 400 100 1 _ _ shrink_steps_400
    (by decide! : shrink_steps 0 0 100 (dyadic 5277448597480531 (-181)) = some (dyadic 4617241307937779 (-213)))

theorem shrink_steps_600 :
    shrink_steps 0 0 600 1 = some (dyadic 8079251517828023 (-246)) :=
  shrink_steps_trans 0 0 500 100 1 _ _ shrink_steps_500
    (by decide! : shrink_steps 0 0 100 (dyadic 4617241307937779 (-213)) = some (dyadic 8079251517828023 (-246)))

theorem shrink_steps_700 :
    shrink_steps 0 0 700 1 = some (dyadic 1767134873807369 (-276)) :=
  shrink_steps_trans 0 0 600 100 1 _ _ shrink_steps_600
    (by decide! : shrink_steps 0 0 100 (dyadic 8079251517828023 (-246)) = some (dyadic 1767134873807369 (-276)))

theorem shrink_steps_800 :
    shrink_steps 0 0 800 1 = some (dyadic 3092133626819621 (-309)) :=
  shrink_steps_trans 0 0 700 100 1 _ _ shrink_steps_700
    (by decide! : shrink_steps 0 0 100 (dyadic 1767134873807369 (-276)) = some (dyadic 3092133626819621 (-309)))

theorem shrink_steps_900 :
    shrink_steps 0 0 900 1 = some (dyadic 676327151638717 (-339)) :=
  shrink_steps_trans 0 0 800 100 1 _ _ shrink_steps_800
    (by decide! : shrink_steps 0 0 100 (dyadic 3092133626819621 (-309)) = some (dyadic 676327151638717 (-339)))

theorem shrink_steps_1000 :
    shrink_steps 0 0 1000 1 = some (dyadic 1183437642089777 (-372)) :=
  shrink_steps_trans 0 0 900 100 1 _ _ shrink_steps_900
    (by decide! : shrink_steps 0 0 100 (dyadic 676327151638717 (-339)) = some (dyadic 1183437642089777 (-372)))

theorem shrink_steps_1100 :
    shrink_steps 0 0 1100 1 = some (dyadic 1035389936158551 (-404)) :=
  shrink_steps_trans 0 0 1000 100 1 _ _ shrink_steps_1000
    (by decide! : shrink_steps 0 0 100 (dyadic 1183437642089777 (-372)) = some (dyadic 1035389936158551 (-404)))

theorem shrink_steps_1200 :
    shrink_steps 0 0 1200 1 = some (dyadic 1811725910636671 (-437)) :=
  shrink_steps_trans 0 0 1100 100 1 _ _ shrink_steps_1100
    (by decide! : shrink_steps 0 0 100 (dyadic 1035389936158551 (-404)) = some (dyadic 1811725910636671 (-437)))

theorem shrink_steps_1300 :
    shrink_steps 0 0 1300 1 = some (dyadic 3170159048918595 (-470)) :=
  shrink_steps_trans 0 0 1200 100 1 _ _ shrink_steps_1200
    (by decide! : shrink_steps 0 0 100 (dyadic 1811725910636671 (-437)) = some (dyadic 3170159048918595 (-470)))

theorem shrink_steps_1400 :
    shrink_steps 0 0 1400 1 = some (dyadic 346696633871233 (-499)) :=
  shrink_steps_trans 0 0 1300 100 1 _ _ shrink_steps_1300
    (by decide! : shrink_steps 0 0 100 (dyadic 3170159048918595 (-470)) = some (dyadic 346696633871233 (-499)))

theorem shrink_steps_1500 :
    shrink_steps 0 0 1500 1 = some (dyadic 4853199767774007 (-535)) :=
  shrink_steps_trans 0 0 1400 100 1 _ _ shrink_steps_1400
    (by decide! : shrink_steps 0 0 100 (dyadic 346696633871233 (-499)) = some (dyadic 4853199767774007 (-535)))

theorem shrink_steps_1600 :
    shrink_steps 0 0 1600 1 = some (dyadic 530758235479025 (-564)) :=
  shrink_steps_trans 0 0 1500 100 1 _ _ shrink_steps_1500
    (by decide! : shrink_steps 0 0 100 (dyadic 4853199767774007 (-535)) = some (dyadic 530758235479025 (-564)))

theorem shrink_steps_1700 :
    shrink_steps 0 0 1700 1 = some (dyadic 3714884272755381 (-599)) :=
  shrink_steps_trans 0 0 1600 100 1 _ _ shrink_steps_1600
    (by decide! : shrink_steps 0 0 100 (dyadic 530758235479025 (-564)) = some (dyadic 3714884272755381 (-599)))

theorem shrink_steps_1800 :
    shrink_steps 0 0 1800 1 = some (dyadic 6500306654455413 (-632)) :=
  shrink_steps_trans 0 0 1700 100 1 _ _ shrink_steps_1700
    (by decide! : shrink_steps 0 0 100 (dyadic 3714884272755381 (-599)) = some (dyadic 6500306654455413 (-632)))

theorem shrink_steps_1900 :
    shrink_steps 0 0 1900 1 = some (dyadic 5687120176507807 (-664)) :=
  shrink_steps_trans 0 0 1800 100 1 _ _ shrink_steps_1800
    (by decide! : shrink_steps 0 0 100 (dyadic 6500306654455413 (-632)) = some (dyadic 5687120176507807 (-664)))

theorem shrink_steps_2000 :
    shrink_steps 0 0 2000 1 = some (dyadic 4975663091197945 (-696)) :=
  shrink_steps_trans 0 0 1900 100 1 _ _ shrink_steps_1900
    (by decide! : shrink_steps 0 0 100 (dyadic 5687120176507807 (-664)) = some (dyadic 4975663091197945 (-696)))

theorem shrink_steps_2100 :
    shrink_steps 0 0 2100 1 = some (dyadic 8706418161999079 (-729)) :=
  shrink_steps_trans 0 0 2000 100 1 _ _ shrink_steps_2000
    (by decide! : shrink_steps 0 0 100 (dyadic 4975663091197945 (-696)) = some (dyadic 8706418161999079 (-729)))

theorem shrink_steps_2200 :
    shrink_steps 0 0 2200 1 = some (dyadic 7617247774038629 (-761)) :=
  shrink_steps_trans 0 0 2100 100 1 _ _ shrink_steps_2100
    (by decide! : shrink_steps 0 0 100 (dyadic 8706418161999079 (-729)) = some (dyadic 7617247774038629 (-761)))

theorem shrink_steps_2300 :
    shrink_steps 0 0 2300 1 = some (dyadic 6664332285847143 (-793)) :=
  shrink_steps_trans 0 0 2200 100 1 _ _ shrink_steps_2200
    (by decide! : shrink_steps 0 0 100 (dyadic 7617247774038629 (-761)) = some (dyadic 6664332285847143 (-793)))

theorem shrink_steps_2400 :
    shrink_steps 0 0 2400 1 = some (dyadic 2915313124482815 (-824)) :=
  shrink_steps_trans 0 0 2300 100 1 _ _ shrink_steps_2300
    (by decide! : shrink_steps 0 0 100 (dyadic 6664332285847143 (-793)) = some (dyadic 2915313124482815 (-824)))

theorem shrink_steps_2500 :
    shrink_steps 0 0 2500 1 = some (dyadic 5101216595595595 (-857)) :=
  shrink_steps_trans 0 0 2400 100 1 _ _ shrink_steps_2400
    (by decide! : shrink_steps 0 0 100 (dyadic 2915313124482815 (-824)) = some (dyadic 5101216595595595 (-857)))

theorem shrink_steps_2600 :
    shrink_steps 0 0 2600 1 = some (dyadic 8926111756793317 (-890)) :=
  shrink_steps_trans 0 0 2500 100 1 _ _ shrink_steps_2500
    (by decide! : shrink_steps 0 0 100 (dyadic 5101216595595595 (-857)) = some (dyadic 8926111756793317 (-890)))

theorem shrink_steps_2700 :
    shrink_steps 0 0 2700 1 = some (dyadic 3904728881908089 (-921)) :=
  shrink_steps_trans 0 0 2600 100 1 _ _ shrink_steps_2600
    (by decide! : shrink_steps 0 0 100 (dyadic 8926111756793317 (-890)) = some (dyadic 3904728881908089 (-921)))

theorem shrink_steps_2800 :
    shrink_steps 0 0 2800 1 = some (dyadic 3416248430813871 (-953)) :=
  shrink_steps_trans 0 0 2700 100 1 _ _ shrink_steps_2700
    (by decide! : shrink_steps 0 0 100 (dyadic 3904728881908089 (-921)) = some (dyadic 3416248430813871 (-953)))

theorem shrink_steps_2900 :
    shrink_steps 0 0 2900 1 = some (dyadic 1494438371267301 (-984)) :=
  shrink_steps_trans 0 0 2800 100 1 _ _ shrink_steps_2800
    (by decide! : shrink_steps 0 0 100 (dyadic 3416248430813871 (-953)) = some (dyadic 1494438371267301 (-984)))

theorem shrink_steps_3000 :
    shrink_steps 0 0 3000 1 = some (dyadic 5229938257116743 (-1018)) :=
  shrink_steps_trans 0 0 2900 100 1 _ _ shrink_steps_2900
    (by decide! : shrink_steps 0 0 100 (dyadic 1494438371267301 (-984)) = some (dyadic 5229938257116743 (-1018)))

theorem shrink_steps_3100 :
    shrink_steps 0 0 3100 1 = some (dyadic 4575674497379627 (-1050)) :=
  shrink_steps_trans 0 0 3000 100 1 _ _ shrink_steps_3000
    (by decide! : shrink_steps 0 0 100 (dyadic 5229938257116743 (-1018)) = some (dyadic 4575674497379627 (-1050)))

theorem shrink_steps_3200 :
    shrink_steps 0 0 3200 1 = some (dyadic 15637730251195 (-1074)) :=
  shrink_steps_trans 0 0 3100 100 1 _ _ shrink_steps_3100
    (by decide! : shrink_steps 0 0 100 (dyadic 4575674497379627 (-1050)) = some (dyadic 15637730251195 (-1074)))

theorem shrink_steps_3300 :
    shrink_steps 0 0 3300 1 = some (dyadic 1593 (-1073)) :=
  shrink_steps_trans 0 0 3200 100 1 _ _ shrink_steps_3200
    (by decide! : shrink_steps 0 0 100 (dyadic 15637730251195 (-1074)) = some (dyadic 1593 (-1073)))

theorem shrink_steps_3327 :
    shrink_steps 0 0 3327 1 = some (dyadic 1 (-1071)) :=
  shrink_steps_trans 0 0 3300 27 1 _ _ shrink_steps_3300
    (by decide! : shrink_steps 0 0 27 (dyadic 1593 (-1073)) = some (dyadic 1 (-1071)))

theorem stalled_update_q_done (fuel : Nat) (sim : ConstraintSimulator)
    (hb : sim.bodies = Sample.touching.bodies)
    (hp : sim.pairwise_distances = Sample.touching.pairwise_distances) :
    ∃ sim1, update_q Sample.ground_collaborators (3327 + fuel) [0] [0] sim =
        Outcome.done (Sample.underflow_step, [0], sim1) ∧
      sim1.bodies = Sample.touching.bodies ∧
      sim1.pairwise_distances = Sample.touching.pairwise_distances := by
  obtain ⟨B, P, e⟩ := sim
  simp only at hb hp
  subst hb hp
  have hs0 : compute_s Sample.touching.pairwise_distances
      ⟨Sample.touching.bodies, Sample.touching.pairwise_distances, []⟩ = some 0 := by
    decide!
  have hs1 : compute_s Sample.touching.pairwise_distances
      ⟨Sample.touching.bodies, Sample.touching.pairwise_distances, e⟩ = some 0 := hs0
  obtain ⟨sim1, htrial, hb1, hp1⟩ := stalled_trial 1
    ⟨Sample.touching.bodies, Sample.touching.pairwise_distances, e⟩ rfl
  obtain ⟨sim2, hloop, hb2, hp2⟩ := stalled_loop_shrinks 3327 1 Sample.underflow_step fuel
    sim1 shrink_steps_3327 hb1 hp1
  have hend := update_q_loop_accept Sample.ground_collaborators [0] [0] 0 fuel
    Sample.underflow_step ([0], 0, sim2)
    (by decide! : ¬ ((0 : ℚ) > armijo_bound 0 Sample.underflow_step (-1)))
  refine ⟨sim2, ?_, hb2, hp2⟩
  unfold update_q
  simp only [hs1, htrial, hloop, hend]

/-- C13 (code does not do this): for the two sample bodies with one and two
coordinates, `q = [-1, 8, 9]` and the displacement `[2, 0, 0]`, `update_q` returns at
`t = 1` with `q = [1, 8, 9]`, and the configurations of the bodies are `[1]` and `[8]`:
the second body has been handed `q.segment(1, 2)` and not its slice `[8, 9]`, so the
bodies do not correspond to the committed `q`.  And from the sample state with merit
`0` the line search returns, after 3327 shrink steps, with the step size `2 ^ -1071`
and the merit `0` it started from: `0.05 * t` has rounded to `0`, and the merit has
not decreased. -/
theorem update_q_commits_configuration_the_bodies_lack :
    (update_q Sample.stabilizer_collaborators 5 [2, 0, 0] [-1, 8, 9] Sample.sunk_pair).map
        (fun r => (r.1, r.2.1, r.2.2.bodies.map (fun body => body.gc))) =
        Outcome.done (1, [1, 8, 9], [[1], [8]]) ∧
      segment [1, 8, 9] (body_offset Sample.sunk_pair.bodies 1)
        (body_offset Sample.sunk_pair.bodies 1 + 2) = some [8, 9] ∧
      compute_s Sample.touching.pairwise_distances Sample.touching = some 0 ∧
      ∃ sim1, update_q Sample.ground_collaborators 3327 [0] [0] Sample.touching =
          Outcome.done (Sample.underflow_step, [0], sim1) ∧
        compute_s sim1.pairwise_distances sim1 = some 0 := by
  refine ⟨by decide!, by decide!, by decide!, ?_⟩
  obtain ⟨sim1, h, hb, hp⟩ := stalled_update_q_done 0 Sample.touching rfl rfl
  refine ⟨sim1, h, ?_⟩
  obtain ⟨B, P, e⟩ := sim1
  simp only at hb hp
  subst hb hp
  exact (by decide! : compute_s Sample.touching.pairwise_distances
    ⟨Sample.touching.bodies, Sample.touching.pairwise_distances, []⟩ = some 0)

theorem ground_stabilize_out_of_fuel :
    ∀ fuel : Nat, stabilize Sample.ground_collaborators Sample.eps fuel Sample.sinking =
      Outcome.out_of_fuel := by
  intro fuel
  have hq : get_body_configurations Sample.ground_collaborators Sample.sinking = [-1] := by
    decide!
  have hlt : get_min_pairwise_dist Sample.sinking.pairwise_distances < Sample.eps := by
    decide!
  unfold stabilize
  simp only [hq]
  cases fuel with
  | zero =>
    unfold stabilize_loop
    simp only [if_pos hlt]
  | succ n =>
    unfold stabilize_loop
    simp only [if_pos hlt, first_stabilize_step]
    rw [stalled_stabilize_loop (n + 1) n ([0], Sample.touching) rfl rfl rfl]


/-- C14 (counterexample): the sample body penetrates the ground by `1`, more than the
tolerance `1/100`, and with exact distances and an exact LCP solver `stabilize` does
not end within any number of loop iterations: the first correction moves the body to
distance `0`, which is still below the tolerance; from then on the LCP has the
solution `0`, every line search that ends leaves the body where it is, and the test
`min_dist < eps` of the outer loop holds again. -/
theorem stabilize_runs_for_ever_at_zero_distance :
    -get_min_pairwise_dist Sample.sinking.pairwise_distances > Sample.eps ∧
      ∀ fuel : Nat,
        stabilize Sample.ground_collaborators Sample.eps fuel Sample.sinking =
          Outcome.out_of_fuel :=
  ⟨by decide!, ground_stabilize_out_of_fuel⟩

theorem stabilize_loop_done (c : StabilizerCollaborators) (eps : ℚ) (inner : Nat)
    (body_index_map : List (DynamicBodyPtr × Nat)) (fuel : Nat) :
    ∀ (st r : List ℚ × ConstraintSimulator),
      stabilize_loop c eps inner body_index_map fuel st = Outcome.done r →
      ¬ get_min_pairwise_dist r.2.pairwise_distances < eps := by
  induction fuel with
  | zero =>
    intro st r h
    unfold stabilize_loop at h
    split at h
    · exact Outcome.noConfusion h
    · rename_i hge
      injection h with h
      subst h
      exact hge
  | succ n ih =>
    intro st r h
    unfold stabilize_loop at h
    split at h
    · split at h
      · exact ih _ _ h
      · exact Outcome.noConfusion h
      · exact Outcome.noConfusion h
    · rename_i hge
      injection h with h
      subst h
      exact hge

/-- C14 (amended): whenever `stabilize` returns, the minimum pairwise distance of the
state it returns is at least the tolerance `eps`. -/
theorem stabilize_returns_without_penetration (c : StabilizerCollaborators) (eps : ℚ)
    (fuel : Nat) (sim sim1 : ConstraintSimulator)
    (h : stabilize c eps fuel sim = Outcome.done sim1) :
    eps ≤ get_min_pairwise_dist sim1.pairwise_distances := by
  unfold stabilize at h
  simp only at h
  split at h
  · rename_i st hloop
    injection h with h
    subst h
    exact not_lt.mp (stabilize_loop_done c eps fuel _ fuel _ st hloop)
  · exact Outcome.noConfusion h
  · exact Outcome.noConfusion h

/-- Witness of the amended C14: the sample state that penetrates the ground is returned
at height `1`. -/
theorem stabilize_returns_without_penetration_witness :
    stabilize Sample.stabilizer_collaborators Sample.eps 3 Sample.sinking =
        Outcome.done Sample.stabilized ∧
      Sample.eps ≤ get_min_pairwise_dist Sample.stabilized.pairwise_distances :=
  ⟨by decide!,
    stabilize_returns_without_penetration Sample.stabilizer_collaborators Sample.eps 3
      Sample.sinking Sample.stabilized (by decide!)⟩

theorem write_segment_length (xs : List ℚ) : ∀ (v : List ℚ) (s : Nat),
    (write_segment v s xs).length = v.length := by
  induction xs with
  | nil => intro v s; rfl
  | cons x t ih => intro v s; rw [write_segment, ih, List.length_set]

theorem write_segment_outside (xs : List ℚ) : ∀ (v : List ℚ) (s i : Nat),
    i < s ∨ s + xs.length ≤ i → (write_segment v s xs)[i]? = v[i]? := by
  induction xs with
  | nil => intro v s i _; rfl
  | cons x t ih =>
    intro v s i h
    rw [write_segment, ih _ _ _ (by rw [List.length_cons] at h; omega)]
    rw [List.length_cons] at h
    exact List.getElem?_set_ne (by omega)

theorem write_segment_inside (xs : List ℚ) : ∀ (v : List ℚ) (s j : Nat),
    s + xs.length ≤ v.length → j < xs.length →
      (write_segment v s xs)[s + j]? = xs[j]? := by
  induction xs with
  | nil => intro v s j _ hj; exact absurd hj (Nat.not_lt_zero _)
  | cons x t ih =>
    intro v s j hlen hj
    rw [List.length_cons] at hlen hj
    rw [write_segment]
    cases j with
    | zero =>
      rw [write_segment_outside t _ _ _ (Or.inl (by omega))]
      simp only [Nat.add_zero, List.getElem?_cons_zero]
      rw [List.getElem?_set_self (by omega)]
    | succ k =>
      have := ih (v.set s x) (s + 1) k (by rw [List.length_set]; omega) (by omega)
      rw [show s + (k + 1) = s + 1 + k by omega, this]
      simp

theorem elements_getElem_some (v : List ℚ) (a n j : Nat) (hj : j < n) :
    (elements v a (a + n))[j]? = v[a + j]? := by
  unfold elements
  rw [Nat.add_sub_cancel_left, List.getElem?_take_of_lt hj, List.getElem?_drop]

theorem elements_length (v : List ℚ) (a n : Nat) (h : a + n ≤ v.length) :
    (elements v a (a + n)).length = n := by
  unfold elements
  rw [Nat.add_sub_cancel_left, List.length_take, List.length_drop]
  omega

theorem populate_dq_cons (sim : ConstraintSimulator)
    (body_index_map : List (DynamicBodyPtr × Nat)) (dq_sub : List ℚ) (b : DynamicBodyPtr)
    (rest : List DynamicBodyPtr) (v : List ℚ) (last : Nat) (r : List ℚ)
    (h : populate_dq sim body_index_map dq_sub (b :: rest) (v, last) = Outcome.done r) :
    ∃ start, map_find b body_index_map = some start ∧
      (euler_count sim b = 0 ∨
        (last + euler_count sim b ≤ dq_sub.length ∧ start + euler_count sim b ≤ v.length)) ∧
      populate_dq sim body_index_map dq_sub rest
        (write_segment v start (elements dq_sub last (last + euler_count sim b)),
          uadd last (euler_count sim b)) = Outcome.done r := by
  unfold populate_dq at h
  unfold euler_count
  split at h
  · rename_i start body hfind hbody
    simp only [hbody]
    simp only at h
    split at h
    · rename_i hcond
      exact ⟨start, hfind, hcond, h⟩
    · exact Outcome.noConfusion h
  · exact Outcome.noConfusion h

theorem in_slots_eq_false (sim : ConstraintSimulator)
    (body_index_map : List (DynamicBodyPtr × Nat)) (b : DynamicBodyPtr) (start i : Nat)
    (hfind : map_find b body_index_map = some start)
    (h : in_slots sim body_index_map b i = false) :
    i < start ∨ start + euler_count sim b ≤ i := by
  unfold in_slots at h
  rw [hfind] at h
  simp only [decide_eq_false_iff_not] at h
  omega

theorem solution_offset_succ (sim : ConstraintSimulator) (b : DynamicBodyPtr)
    (rest : List DynamicBodyPtr) (p : Nat) :
    solution_offset sim (b :: rest) (p + 1) =
      euler_count sim b + solution_offset sim rest p := by
  unfold solution_offset
  rw [List.take_succ_cons, List.map_cons, List.sum_cons]

theorem populate_dq_spec (sim : ConstraintSimulator)
    (body_index_map : List (DynamicBodyPtr × Nat)) (dq_sub : List ℚ)
    (hsize : dq_sub.length < UWORD) (bs : List DynamicBodyPtr) :
    ∀ (v : List ℚ) (last : Nat) (r : List ℚ), last < UWORD →
      populate_dq sim body_index_map dq_sub bs (v, last) = Outcome.done r →
      r.length = v.length ∧
      (∀ i, (∀ b ∈ bs, in_slots sim body_index_map b i = false) → r[i]? = v[i]?) ∧
      (∀ p b start j, bs[p]? = some b → map_find b body_index_map = some start →
        j < euler_count sim b →
        (∀ k b1, p < k → bs[k]? = some b1 →
          in_slots sim body_index_map b1 (start + j) = false) →
        r[start + j]? = dq_sub[last + solution_offset sim bs p + j]?) := by
  induction bs with
  | nil =>
    intro v last r _ h
    unfold populate_dq at h
    injection h with h
    subst h
    refine ⟨rfl, fun _ _ => rfl, ?_⟩
    intro p b start j hp
    simp at hp
  | cons b rest ih =>
    intro v last r hlast h
    obtain ⟨start, hfind, hcond, hrest⟩ :=
      populate_dq_cons sim body_index_map dq_sub b rest v last r h
    have hu : uadd last (euler_count sim b) = last + euler_count sim b ∧
        last + euler_count sim b < UWORD := by
      rcases hcond with h0 | ⟨h1, _⟩
      · rw [h0]
        exact ⟨Nat.mod_eq_of_lt hlast, hlast⟩
      · have hlt : last + euler_count sim b < UWORD := lt_of_le_of_lt h1 hsize
        exact ⟨Nat.mod_eq_of_lt hlt, hlt⟩
    rw [hu.1] at hrest
    obtain ⟨ih1, ih2, ih3⟩ := ih _ _ r hu.2 hrest
    have hseg : (elements dq_sub last (last + euler_count sim b)).length =
        euler_count sim b := by
      rcases hcond with h0 | ⟨h1, _⟩
      · rw [h0]
        simp [elements]
      · exact elements_length dq_sub last _ h1
    have houtside : ∀ i, i < start ∨ start + euler_count sim b ≤ i →
        (write_segment v start (elements dq_sub last (last + euler_count sim b)))[i]? =
          v[i]? := by
      intro i hi
      exact write_segment_outside _ v start i (by rw [hseg]; exact hi)
    have hinside : ∀ j, j < euler_count sim b →
        (write_segment v start (elements dq_sub last (last + euler_count sim b)))[start + j]? =
          dq_sub[last + j]? := by
      intro j hj
      have hlen : start + euler_count sim b ≤ v.length := by
        rcases hcond with h0 | ⟨_, h2⟩
        · omega
        · exact h2
      rw [write_segment_inside _ v start j (by rw [hseg]; exact hlen) (by rw [hseg]; exact hj)]
      exact elements_getElem_some dq_sub last _ j hj
    refine ⟨?_, ?_, ?_⟩
    · rw [ih1, write_segment_length]
    · intro i hi
      rw [ih2 i (fun b1 hb1 => hi b1 (List.mem_cons_of_mem _ hb1))]
      exact houtside i (in_slots_eq_false sim body_index_map b start i hfind
        (hi b (List.mem_cons_self _ _)))
    · intro p b1 start1 j hp hfind1 hj hlater
      cases p with
      | zero =>
        rw [List.getElem?_cons_zero] at hp
        injection hp with hp
        subst hp
        rw [hfind] at hfind1
        injection hfind1 with hfind1
        subst hfind1
        have hrestfree : ∀ b2 ∈ rest, in_slots sim body_index_map b2 (start + j) = false := by
          intro b2 hb2
          obtain ⟨k, hk⟩ := List.getElem?_of_mem hb2
          exact hlater (k + 1) b2 (Nat.succ_pos k) (by rw [List.getElem?_cons_succ]; exact hk)
        rw [ih2 _ hrestfree, hinside j hj]
        simp [solution_offset]
      | succ k =>
        rw [List.getElem?_cons_succ] at hp
        rw [ih3 k b1 start1 j hp hfind1 hj
          (fun m b2 hm hb2 => hlater (m + 1) b2 (Nat.succ_lt_succ hm)
            (by rw [List.getElem?_cons_succ]; exact hb2)),
          solution_offset_succ]
        congr 1
        omega

/-- C16: whenever `determine_dq` returns for an LCP solution shorter than `2 ^ 32`,
the vector `dqm` keeps its length, every slot that lies in the slots
`[start_b, start_b + n_b)` of no super body `b` of the island is unchanged, and slot
`start_b + j` (`j < n_b`) of the `p`-th super body `b` holds the entry of the LCP
solution at position `n_0 + ... + n_(p-1) + j`, unless the slots of a later super
body contain it too; `start_b` is the entry of `b` in `body_index_map` and `n_b` the
number of Euler coordinates of `b`. -/
theorem determine_dq_writes_super_body_slots (c : StabilizerCollaborators)
    (sim : ConstraintSimulator) (pd : UnilateralConstraintProblemData) (dqm : List ℚ)
    (body_index_map : List (DynamicBodyPtr × Nat)) (dqm1 : List ℚ)
    (hsize : (solve_dq_sub c (lcp_matrix c pd) (lcp_vector c pd)).length < UWORD)
    (h : determine_dq c sim pd dqm body_index_map = Outcome.done dqm1) :
    dqm1.length = dqm.length ∧
      (∀ i, (∀ b ∈ pd.super_bodies, in_slots sim body_index_map b i = false) →
        dqm1[i]? = dqm[i]?) ∧
      (∀ p b start j, pd.super_bodies[p]? = some b →
        map_find b body_index_map = some start → j < euler_count sim b →
        (∀ k b1, p < k → pd.super_bodies[k]? = some b1 →
          in_slots sim body_index_map b1 (start + j) = false) →
        dqm1[start + j]? =
          (solve_dq_sub c (lcp_matrix c pd) (lcp_vector c pd))[
            solution_offset sim pd.super_bodies p + j]?) := by
  have hspec := populate_dq_spec sim body_index_map
    (solve_dq_sub c (lcp_matrix c pd) (lcp_vector c pd)) hsize pd.super_bodies dqm 0 dqm1
    (by unfold UWORD; omega) h
  simpa only [Nat.zero_add] using hspec

/-- Witness of C16: the island of the bodies `1` and `2` of the three sample bodies;
the slot `1` of body `3` keeps its content. -/
theorem determine_dq_writes_super_body_slots_witness :
    (solve_dq_sub Sample.counting_collaborators
        (lcp_matrix Sample.counting_collaborators Sample.three_bodies_pd)
        (lcp_vector Sample.counting_collaborators Sample.three_bodies_pd)).length < UWORD ∧
      determine_dq Sample.counting_collaborators Sample.three_bodies Sample.three_bodies_pd
        [9, 9, 9, 9] (generate_body_index_map [] Sample.three_bodies) =
        Outcome.done [5, 9, 6, 7] ∧
      ([(5 : ℚ), 9, 6, 7].length = [(9 : ℚ), 9, 9, 9].length ∧
        (∀ i, (∀ b ∈ Sample.three_bodies_pd.super_bodies,
            in_slots Sample.three_bodies (generate_body_index_map [] Sample.three_bodies) b i =
              false) →
          [(5 : ℚ), 9, 6, 7][i]? = [(9 : ℚ), 9, 9, 9][i]?) ∧
        (∀ p b start j, Sample.three_bodies_pd.super_bodies[p]? = some b →
          map_find b (generate_body_index_map [] Sample.three_bodies) = some start →
          j < euler_count Sample.three_bodies b →
          (∀ k b1, p < k → Sample.three_bodies_pd.super_bodies[k]? = some b1 →
            in_slots Sample.three_bodies (generate_body_index_map [] Sample.three_bodies) b1
              (start + j) = false) →
          [(5 : ℚ), 9, 6, 7][start + j]? =
            (solve_dq_sub Sample.counting_collaborators
              (lcp_matrix Sample.counting_collaborators Sample.three_bodies_pd)
              (lcp_vector Sample.counting_collaborators Sample.three_bodies_pd))[
              solution_offset Sample.three_bodies Sample.three_bodies_pd.super_bodies p +
                j]?)) :=
  ⟨by decide!, by decide!,
    determine_dq_writes_super_body_slots Sample.counting_collaborators Sample.three_bodies
      Sample.three_bodies_pd [9, 9, 9, 9] (generate_body_index_map [] Sample.three_bodies)
      [5, 9, 6, 7] (by decide!) (by decide!)⟩

/-- C25 (code does not do this): for the two sample bodies with the coordinates `[7]`
and `[8, 9]`, `get_body_configurations` returns `[8, 9, 0]`, while the vector with
every body at its offset is `[7, 8, 9]`: `start` is never advanced, so every body
writes its coordinates at the beginning of `q`. -/
theorem get_body_configurations_overlays_bodies :
    get_body_configurations Sample.stabilizer_collaborators Sample.two_bodies = [8, 9, 0] ∧
      spec_body_configurations Sample.two_bodies = [7, 8, 9] := by
  decide!

/-- C26 (code does not do this): for `q = [10, 20, 30]` and the two sample bodies with
one and two coordinates, `update_body_configurations` hands the second body the
coordinates `[20]`, while its slice of `q` is `[20, 30]`: the segment is
`q.segment(last, ngc)` and `last` is set to `ngc`.  And `get_body_configurations`
followed by `update_body_configurations` changes the configurations `[7]` and `[8, 9]`
into `[8]` and `[9]`. -/
theorem update_body_configurations_takes_wrong_slice :
    (update_body_configurations Sample.stabilizer_collaborators [10, 20, 30]
        Sample.two_bodies).map (fun sim => sim.bodies.map (fun body => body.gc)) =
        Outcome.done [[10], [20]] ∧
      segment [10, 20, 30] (body_offset Sample.two_bodies.bodies 1)
        (body_offset Sample.two_bodies.bodies 1 + 2) = some [20, 30] ∧
      Sample.two_bodies.bodies.map (fun body => body.gc) = [[7], [8, 9]] ∧
      (update_body_configurations Sample.stabilizer_collaborators
        (get_body_configurations Sample.stabilizer_collaborators Sample.two_bodies)
        Sample.two_bodies).map (fun sim => sim.bodies.map (fun body => body.gc)) =
        Outcome.done [[8], [9]] := by
  decide!

/-- C27 (code does not do this): for the two sample rigid bodies the constraint list
holds two contact constraints of the one unordered pair of bodies, and for a rigid
body and an arm it holds the limit constraint of the arm twice: the loops visit every
ordered pair of bodies, and the limit constraints of an articulated body are added
when it is the first body and again whenever it is the second. -/
theorem collect_constraints_repeats_constraints :
    collect_constraints Sample.stabilizer_collaborators Sample.penetrating =
        [Sample.contact 4 (Sample.free_body 1) (Sample.free_body 2),
          Sample.contact 4 (Sample.free_body 2) (Sample.free_body 1)] ∧
      Sample.limit_collaborators.find_limit_constraints
        ⟨false, 0, 0, 0, 0, [⟨[1 / 2], [0], [1]⟩], [⟨Sample.link 10 9, []⟩]⟩ =
        [Sample.limit (Sample.link 10 9)] ∧
      collect_constraints Sample.limit_collaborators Sample.body_and_arm =
        [Sample.limit (Sample.link 10 9), Sample.limit (Sample.link 10 9)] := by
  decide!

/-- C28 (code does not do this): for two geometries separated by the signed distance
`1`, which is at least `NEAR_ZERO`, `add_contact_constraints` adds one contact
constraint, created with the depth `-1`: the `else` branch of the test
`fabs(dist) < NEAR_ZERO` is taken by separated pairs too. -/
theorem add_contact_constraints_adds_for_separated_pair :
    Sample.separated_collaborators.NEAR_ZERO ≤
        (Sample.separated_collaborators.calc_signed_dist Sample.penetrating.bodies
          ⟨1, Sample.free_body 1⟩ ⟨2, Sample.free_body 2⟩).1 ∧
      add_contact_constraints Sample.separated_collaborators Sample.penetrating []
        ⟨Sample.free_body 1, [⟨1, Sample.free_body 1⟩]⟩
        ⟨Sample.free_body 2, [⟨2, Sample.free_body 2⟩]⟩ =
        [{ Sample.contact 4 (Sample.free_body 1) (Sample.free_body 2) with
            contact_point := ⟨-1, 0, 0⟩ }] := by
  decide!

theorem map_find_insert_ne {V : Type} (k b : DynamicBodyPtr) (v : V)
    (m : List (DynamicBodyPtr × V)) (hne : b ≠ k) :
    map_find b (map_insert k v m) = map_find b m := by
  unfold map_insert
  split
  · rfl
  · rw [ImpactEventHandler.map_find_assign, if_neg hne]

theorem map_find_insert_absent {V : Type} (k : DynamicBodyPtr) (v : V)
    (m : List (DynamicBodyPtr × V)) (habsent : map_find k m = none) :
    map_find k (map_insert k v m) = some v := by
  unfold map_insert
  rw [habsent]
  simp only
  rw [ImpactEventHandler.map_find_assign, if_pos rfl]

theorem body_offset_zero (bodies : List DynamicBody) : body_offset bodies 0 = 0 := by
  simp [body_offset]

theorem body_offset_cons_succ (body : DynamicBody) (rest : List DynamicBody) (k : Nat) :
    body_offset (body :: rest) (k + 1) = body.gc.length + body_offset rest k := by
  simp [body_offset]

theorem body_offset_succ (bodies : List DynamicBody) :
    ∀ (k : Nat) (body : DynamicBody), bodies[k]? = some body →
      body_offset bodies (k + 1) = body_offset bodies k + body.gc.length := by
  induction bodies with
  | nil => intro k body h; simp at h
  | cons b rest ih =>
    intro k body h
    cases k with
    | zero =>
      rw [List.getElem?_cons_zero] at h
      injection h with h
      subst h
      rw [body_offset_cons_succ, body_offset_zero, body_offset_zero]
      omega
    | succ n =>
      rw [List.getElem?_cons_succ] at h
      rw [body_offset_cons_succ, body_offset_cons_succ, ih n body h]
      omega

theorem body_offset_le_succ (bodies : List DynamicBody) (k : Nat) :
    body_offset bodies k ≤ body_offset bodies (k + 1) := by
  cases h : bodies[k]? with
  | some body => rw [body_offset_succ bodies k body h]; omega
  | none =>
    have hlen : bodies.length ≤ k := List.getElem?_eq_none_iff.mp h
    unfold body_offset
    rw [List.take_of_length_le hlen, List.take_of_length_le (Nat.le_succ_of_le hlen)]

theorem body_offset_mono (bodies : List DynamicBody) (k l : Nat) (hkl : k ≤ l) :
    body_offset bodies k ≤ body_offset bodies l := by
  induction l, hkl using Nat.le_induction with
  | base => exact le_refl _
  | succ n _ ih => exact le_trans ih (body_offset_le_succ bodies n)

theorem body_offset_cover (bodies : List DynamicBody) (n : Nat) :
    ∀ i, i < body_offset bodies n →
      ∃ k body, bodies[k]? = some body ∧ body_offset bodies k ≤ i ∧
        i < body_offset bodies k + body.gc.length := by
  induction n with
  | zero => intro i hi; rw [body_offset_zero] at hi; omega
  | succ m ih =>
    intro i hi
    by_cases hlt : i < body_offset bodies m
    · exact ih i hlt
    · cases h : bodies[m]? with
      | some body =>
        rw [body_offset_succ bodies m body h] at hi
        exact ⟨m, body, h, not_lt.mp hlt, hi⟩
      | none =>
        have hlen : bodies.length ≤ m := List.getElem?_eq_none_iff.mp h
        unfold body_offset at hi hlt
        rw [List.take_of_length_le (Nat.le_succ_of_le hlen)] at hi
        rw [List.take_of_length_le hlen] at hlt
        exact absurd hi hlt

theorem generate_body_index_map_fold (bodies : List DynamicBody) :
    ∀ (m : List (DynamicBodyPtr × Nat)) (cur : Nat),
      (bodies.map (fun body => body.addr)).Nodup →
      (∀ body ∈ bodies, map_find body.addr m = none) →
      cur + body_offset bodies bodies.length < UWORD →
      (∀ k body, bodies[k]? = some body →
        map_find body.addr
          (bodies.foldl
            (fun (st : List (DynamicBodyPtr × Nat) × Nat) body =>
              (map_insert body.addr st.2 st.1, uadd st.2 body.gc.length))
            (m, cur)).1 = some (cur + body_offset bodies k)) ∧
      (∀ b, (∀ body ∈ bodies, body.addr ≠ b) →
        map_find b
          (bodies.foldl
            (fun (st : List (DynamicBodyPtr × Nat) × Nat) body =>
              (map_insert body.addr st.2 st.1, uadd st.2 body.gc.length))
            (m, cur)).1 = map_find b m) := by
  induction bodies with
  | nil =>
    intro m cur _ _ _
    refine ⟨fun k body h => by simp at h, fun b _ => rfl⟩
  | cons body rest ih =>
    intro m cur hnodup habsent hsize
    rw [List.map_cons, List.nodup_cons] at hnodup
    rw [List.length_cons, body_offset_cons_succ] at hsize
    have hu : uadd cur body.gc.length = cur + body.gc.length :=
      Nat.mod_eq_of_lt (by omega)
    have hne : ∀ b1 ∈ rest, b1.addr ≠ body.addr := by
      intro b1 hb1 heq
      exact hnodup.1 (List.mem_map.mpr ⟨b1, hb1, heq⟩)
    have habsent1 : ∀ b1 ∈ rest,
        map_find b1.addr (map_insert body.addr cur m) = none := by
      intro b1 hb1
      rw [map_find_insert_ne _ _ _ _ (hne b1 hb1)]
      exact habsent b1 (List.mem_cons_of_mem _ hb1)
    obtain ⟨ih1, ih2⟩ := ih (map_insert body.addr cur m) (cur + body.gc.length) hnodup.2
      habsent1 (by omega)
    rw [List.foldl_cons]
    simp only [hu]
    refine ⟨?_, ?_⟩
    · intro k b1 hk
      cases k with
      | zero =>
        rw [List.getElem?_cons_zero] at hk
        injection hk with hk
        subst hk
        rw [ih2 body.addr (fun b1 hb1 => hne b1 hb1), body_offset_zero,
          map_find_insert_absent _ _ _ (habsent body (List.mem_cons_self _ _))]
        rfl
      | succ n =>
        rw [List.getElem?_cons_succ] at hk
        rw [ih1 n b1 hk, body_offset_cons_succ]
        congr 1
        omega
    · intro b hb
      rw [ih2 b (fun b1 hb1 => hb b1 (List.mem_cons_of_mem _ hb1)),
        map_find_insert_ne _ _ _ _ (Ne.symm (hb body (List.mem_cons_self _ _)))]

/-- C24: for a simulator whose bodies are pairwise distinct and have fewer than `2 ^ 32`
coordinates in total, `generate_body_index_map`, called with an empty map, maps the
`k`-th body to the sum of the coordinate counts of the bodies before it; so the first
body is mapped to `0`, the range of a body ends where the range of every later body
begins at the earliest, and every index below the total number of coordinates lies in
the range of some body. -/
theorem generate_body_index_map_offsets (sim : ConstraintSimulator)
    (hdistinct : (sim.bodies.map (fun body => body.addr)).Nodup)
    (hsize : body_offset sim.bodies sim.bodies.length < UWORD) :
    (∀ k body, sim.bodies[k]? = some body →
      map_find body.addr (generate_body_index_map [] sim) = some (body_offset sim.bodies k)) ∧
      (∀ body, sim.bodies[0]? = some body →
        map_find body.addr (generate_body_index_map [] sim) = some 0) ∧
      (∀ k l body, k < l → sim.bodies[k]? = some body →
        body_offset sim.bodies k + body.gc.length ≤ body_offset sim.bodies l) ∧
      (∀ i, i < body_offset sim.bodies sim.bodies.length →
        ∃ k body, sim.bodies[k]? = some body ∧ body_offset sim.bodies k ≤ i ∧
          i < body_offset sim.bodies k + body.gc.length) := by
  obtain ⟨h1, _⟩ := generate_body_index_map_fold sim.bodies [] 0 hdistinct
    (fun _ _ => rfl) (by rw [Nat.zero_add]; exact hsize)
  have hmain : ∀ k body, sim.bodies[k]? = some body →
      map_find body.addr (generate_body_index_map [] sim) =
        some (body_offset sim.bodies k) := by
    intro k body hk
    have := h1 k body hk
    rw [Nat.zero_add] at this
    exact this
  refine ⟨hmain, ?_, ?_, body_offset_cover sim.bodies sim.bodies.length⟩
  · intro body h0
    rw [hmain 0 body h0, body_offset_zero]
  · intro k l body hkl hk
    rw [← body_offset_succ sim.bodies k body hk]
    exact body_offset_mono sim.bodies (k + 1) l hkl

/-- Witness of C24: the three sample bodies with one, one and two coordinates are
mapped to `0`, `1` and `2`. -/
theorem generate_body_index_map_offsets_witness :
    (Sample.three_bodies.bodies.map (fun body => body.addr)).Nodup ∧
      body_offset Sample.three_bodies.bodies Sample.three_bodies.bodies.length < UWORD ∧
      Sample.three_bodies_index_map = [(1, 0), (2, 2), (3, 1)] ∧
      ((∀ k body, Sample.three_bodies.bodies[k]? = some body →
        map_find body.addr (generate_body_index_map [] Sample.three_bodies) =
          some (body_offset Sample.three_bodies.bodies k)) ∧
      (∀ body, Sample.three_bodies.bodies[0]? = some body →
        map_find body.addr (generate_body_index_map [] Sample.three_bodies) = some 0) ∧
      (∀ k l body, k < l → Sample.three_bodies.bodies[k]? = some body →
        body_offset Sample.three_bodies.bodies k + body.gc.length ≤
          body_offset Sample.three_bodies.bodies l) ∧
      (∀ i, i < body_offset Sample.three_bodies.bodies Sample.three_bodies.bodies.length →
        ∃ k body, Sample.three_bodies.bodies[k]? = some body ∧
          body_offset Sample.three_bodies.bodies k ≤ i ∧
          i < body_offset Sample.three_bodies.bodies k + body.gc.length)) :=
  ⟨by decide!, by decide!, by decide!,
    generate_body_index_map_offsets Sample.three_bodies (by decide!) (by decide!)⟩

end ConstraintStabilization

namespace ThickTriangle

theorem dot_seg_point (n : Vector3d) (seg : LineSeg3) (t : ℚ) :
    n.dot (seg_point seg t) = n.dot seg.first + t * n.dot (seg.second.sub seg.first) := by
  simp only [seg_point, Vector3d.dot, Vector3d.add, Vector3d.scale, Vector3d.sub]
  ring

theorem intersect_seg_loop_spec (p0 : Point3d) (dir : Vector3d) (planes : List Plane) :
    ∀ tn tf : ℚ, tn ≤ tf →
      ((intersect_seg_loop p0 dir planes (tn, tf)).1 = true →
        (intersect_seg_loop p0 dir planes (tn, tf)).2.1 ≤
          (intersect_seg_loop p0 dir planes (tn, tf)).2.2 ∧
        ∀ t, ((intersect_seg_loop p0 dir planes (tn, tf)).2.1 ≤ t ∧
            t ≤ (intersect_seg_loop p0 dir planes (tn, tf)).2.2) ↔
          (tn ≤ t ∧ t ≤ tf ∧
            ∀ pl ∈ planes, t * pl.normal.dot dir ≤ -pl.normal.dot p0 + pl.offset)) ∧
      ((intersect_seg_loop p0 dir planes (tn, tf)).1 = false →
        ∀ t, tn ≤ t → t ≤ tf →
          ¬ ∀ pl ∈ planes, t * pl.normal.dot dir ≤ -pl.normal.dot p0 + pl.offset) := by
  induction planes with
  | nil =>
    intro tn tf hle
    refine ⟨fun _ => ⟨hle, fun t => ?_⟩, fun h => ?_⟩
    · simp [intersect_seg_loop]
    · simp [intersect_seg_loop] at h
  | cons plane rest ih =>
    intro tn tf hle
    rw [intersect_seg_loop]
    simp only [List.forall_mem_cons]
    by_cases hz : plane.normal.dot dir = 0
    · simp only [if_pos hz]
      by_cases hd : -plane.normal.dot p0 + plane.offset < 0
      · simp only [if_pos hd]
        refine ⟨fun h => by simp at h, fun _ t _ _ hsat => ?_⟩
        have := hsat.1
        rw [hz, mul_zero] at this
        exact absurd hd (not_lt.mpr this)
      · simp only [if_neg hd]
        obtain ⟨ih1, ih2⟩ := ih tn tf hle
        have hplane : ∀ t : ℚ, t * plane.normal.dot dir ≤ -plane.normal.dot p0 + plane.offset := by
          intro t
          rw [hz, mul_zero]
          exact not_lt.mp hd
        refine ⟨fun h => ⟨(ih1 h).1, fun t => ?_⟩, fun h t h1 h2 hsat => ih2 h t h1 h2 hsat.2⟩
        rw [(ih1 h).2 t]
        simp only [hplane t, true_and]
    · simp only [if_neg hz]
      by_cases hneg : plane.normal.dot dir < 0
      · simp only [if_pos hneg]
        have hplane : ∀ t : ℚ,
            t * plane.normal.dot dir ≤ -plane.normal.dot p0 + plane.offset ↔
              (-plane.normal.dot p0 + plane.offset) / plane.normal.dot dir ≤ t :=
          fun t => (div_le_iff_of_neg hneg).symm
        by_cases hgt : (-plane.normal.dot p0 + plane.offset) / plane.normal.dot dir > tn
        · simp only [if_pos hgt]
          by_cases hfar : tf < (-plane.normal.dot p0 + plane.offset) / plane.normal.dot dir
          · simp only [if_pos hfar]
            refine ⟨fun h => by simp at h, fun _ t _ h2 hsat => ?_⟩
            have := (hplane t).mp hsat.1
            linarith
          · simp only [if_neg hfar]
            obtain ⟨ih1, ih2⟩ := ih _ tf (not_lt.mp hfar)
            refine ⟨fun h => ⟨(ih1 h).1, fun t => ?_⟩, fun h t h1 h2 hsat => ?_⟩
            · rw [(ih1 h).2 t, hplane t]
              constructor
              · rintro ⟨h1, h2, h3⟩
                exact ⟨le_trans (le_of_lt hgt) h1, h2, h1, h3⟩
              · rintro ⟨_, h2, h3, h4⟩
                exact ⟨h3, h2, h4⟩
            · exact ih2 h t ((hplane t).mp hsat.1) h2 hsat.2
        · simp only [if_neg hgt]
          obtain ⟨ih1, ih2⟩ := ih tn tf hle
          refine ⟨fun h => ⟨(ih1 h).1, fun t => ?_⟩, fun h t h1 h2 hsat => ih2 h t h1 h2 hsat.2⟩
          rw [(ih1 h).2 t, hplane t]
          constructor
          · rintro ⟨h1, h2, h3⟩
            exact ⟨h1, h2, le_trans (not_lt.mp hgt) h1, h3⟩
          · rintro ⟨h1, h2, _, h4⟩
            exact ⟨h1, h2, h4⟩
      · simp only [if_neg hneg]
        have hpos : 0 < plane.normal.dot dir :=
          lt_of_le_of_ne (not_lt.mp hneg) (Ne.symm hz)
        have hplane : ∀ t : ℚ,
            t * plane.normal.dot dir ≤ -plane.normal.dot p0 + plane.offset ↔
              t ≤ (-plane.normal.dot p0 + plane.offset) / plane.normal.dot dir :=
          fun t => (le_div_iff₀ hpos).symm
        by_cases hlt : (-plane.normal.dot p0 + plane.offset) / plane.normal.dot dir < tf
        · simp only [if_pos hlt]
          by_cases hnear : (-plane.normal.dot p0 + plane.offset) / plane.normal.dot dir < tn
          · simp only [if_pos hnear]
            refine ⟨fun h => by simp at h, fun _ t h1 _ hsat => ?_⟩
            have := (hplane t).mp hsat.1
            linarith
          · simp only [if_neg hnear]
            obtain ⟨ih1, ih2⟩ := ih tn _ (not_lt.mp hnear)
            refine ⟨fun h => ⟨(ih1 h).1, fun t => ?_⟩, fun h t h1 h2 hsat => ?_⟩
            · rw [(ih1 h).2 t, hplane t]
              constructor
              · rintro ⟨h1, h2, h3⟩
                exact ⟨h1, le_trans h2 (le_of_lt hlt), h2, h3⟩
              · rintro ⟨h1, _, h3, h4⟩
                exact ⟨h1, h3, h4⟩
            · exact ih2 h t h1 ((hplane t).mp hsat.1) hsat.2
        · simp only [if_neg hlt]
          obtain ⟨ih1, ih2⟩ := ih tn tf hle
          refine ⟨fun h => ⟨(ih1 h).1, fun t => ?_⟩, fun h t h1 h2 hsat => ih2 h t h1 h2 hsat.2⟩
          rw [(ih1 h).2 t, hplane t]
          constructor
          · rintro ⟨h1, h2, h3⟩
            exact ⟨h1, h2, le_trans h2 (not_lt.mp hlt), h3⟩
          · rintro ⟨h1, h2, _, h4⟩
            exact ⟨h1, h2, h4⟩

theorem in_thick_triangle_seg_point (planes : List Plane) (seg : LineSeg3) (t : ℚ) :
    in_thick_triangle planes (seg_point seg t) ↔
      ∀ pl ∈ planes, t * pl.normal.dot (seg.second.sub seg.first) ≤
        -pl.normal.dot seg.first + pl.offset := by
  unfold in_thick_triangle
  constructor
  · intro h pl hpl
    have := h pl hpl
    rw [dot_seg_point] at this
    linarith
  · intro h pl hpl
    have := h pl hpl
    rw [dot_seg_point]
    linarith

theorem intersect_seg_fst (planes : List Plane) (seg : LineSeg3) (isect : Point3d) :
    (intersect_seg planes seg isect).1 =
      (intersect_seg_loop seg.first (seg.second.sub seg.first) planes (0, 1)).1 := by
  unfold intersect_seg
  simp only
  split
  · rename_i h; rw [h]
  · rename_i h; rw [Bool.not_eq_true] at h; rw [h]

theorem intersect_seg_tnear (planes : List Plane) (seg : LineSeg3) (isect : Point3d) :
    (intersect_seg planes seg isect).2.1 =
      (intersect_seg_loop seg.first (seg.second.sub seg.first) planes (0, 1)).2.1 := by
  unfold intersect_seg
  simp only
  split <;> rfl

/-- C19: over exact arithmetic, `intersect_seg` returns `true` if and only if some
point `first + t * (second - first)` with `0 ≤ t ≤ 1` of the segment lies in the
closed half-space `normal . x ≤ offset` of every stored plane. -/
theorem intersect_seg_true_iff (planes : List Plane) (seg : LineSeg3) (isect : Point3d) :
    (intersect_seg planes seg isect).1 = true ↔
      ∃ t : ℚ, 0 ≤ t ∧ t ≤ 1 ∧ in_thick_triangle planes (seg_point seg t) := by
  obtain ⟨h1, h2⟩ := intersect_seg_loop_spec seg.first (seg.second.sub seg.first) planes 0 1
    zero_le_one
  rw [intersect_seg_fst]
  constructor
  · intro h
    obtain ⟨hle, hiff⟩ := h1 h
    obtain ⟨ha, hb, hc⟩ := (hiff _).mp ⟨le_refl _, hle⟩
    exact ⟨_, ha, hb, (in_thick_triangle_seg_point planes seg _).mpr hc⟩
  · rintro ⟨t, ha, hb, hc⟩
    by_contra hne
    rw [Bool.not_eq_true] at hne
    exact h2 hne t ha hb ((in_thick_triangle_seg_point planes seg t).mp hc)

/-- C20: whenever `intersect_seg` returns `true`, the output `tnear` satisfies
`0 ≤ tnear ≤ 1`, the output `isect` is `first + (second - first) * tnear`, that point
lies in the thick triangle, and `tnear ≤ t` for every `t` in `[0, 1]` whose segment
point lies in the thick triangle. -/
theorem intersect_seg_first_point (planes : List Plane) (seg : LineSeg3) (isect : Point3d)
    (h : (intersect_seg planes seg isect).1 = true) :
    0 ≤ (intersect_seg planes seg isect).2.1 ∧ (intersect_seg planes seg isect).2.1 ≤ 1 ∧
      (intersect_seg planes seg isect).2.2 =
        seg.first.add ((seg.second.sub seg.first).scale (intersect_seg planes seg isect).2.1) ∧
      in_thick_triangle planes (seg_point seg (intersect_seg planes seg isect).2.1) ∧
      ∀ t : ℚ, 0 ≤ t → t ≤ 1 → in_thick_triangle planes (seg_point seg t) →
        (intersect_seg planes seg isect).2.1 ≤ t := by
  obtain ⟨h1, _⟩ := intersect_seg_loop_spec seg.first (seg.second.sub seg.first) planes 0 1
    zero_le_one
  have hisect : (intersect_seg planes seg isect).2.2 =
      seg.first.add ((seg.second.sub seg.first).scale (intersect_seg planes seg isect).2.1) := by
    rw [intersect_seg_fst] at h
    unfold intersect_seg
    simp only [h, if_true]
  rw [intersect_seg_fst] at h
  obtain ⟨hle, hiff⟩ := h1 h
  obtain ⟨ha, hb, hc⟩ := (hiff _).mp ⟨le_refl _, hle⟩
  rw [intersect_seg_tnear] at hisect ⊢
  refine ⟨ha, hb, hisect, (in_thick_triangle_seg_point planes seg _).mpr hc, ?_⟩
  intro t h0 h1t hin
  exact ((hiff t).mpr ⟨h0, h1t, (in_thick_triangle_seg_point planes seg t).mp hin⟩).1

/-- Witness of C20: the sample segment enters the sample slab at `tnear = 2/3`. -/
theorem intersect_seg_first_point_witness :
    (intersect_seg Sample.slab_planes Sample.entering_seg ⟨0, 0, 0⟩).1 = true ∧
      (intersect_seg Sample.slab_planes Sample.entering_seg ⟨0, 0, 0⟩).2 =
        (2 / 3, ⟨1, 0, 0⟩) ∧
      (0 ≤ (intersect_seg Sample.slab_planes Sample.entering_seg ⟨0, 0, 0⟩).2.1 ∧
        (intersect_seg Sample.slab_planes Sample.entering_seg ⟨0, 0, 0⟩).2.1 ≤ 1 ∧
        (intersect_seg Sample.slab_planes Sample.entering_seg ⟨0, 0, 0⟩).2.2 =
          Sample.entering_seg.first.add
            ((Sample.entering_seg.second.sub Sample.entering_seg.first).scale
              (intersect_seg Sample.slab_planes Sample.entering_seg ⟨0, 0, 0⟩).2.1) ∧
        in_thick_triangle Sample.slab_planes (seg_point Sample.entering_seg
          (intersect_seg Sample.slab_planes Sample.entering_seg ⟨0, 0, 0⟩).2.1) ∧
        ∀ t : ℚ, 0 ≤ t → t ≤ 1 →
          in_thick_triangle Sample.slab_planes (seg_point Sample.entering_seg t) →
          (intersect_seg Sample.slab_planes Sample.entering_seg ⟨0, 0, 0⟩).2.1 ≤ t) :=
  ⟨by decide!, by decide!,
    intersect_seg_first_point Sample.slab_planes Sample.entering_seg ⟨0, 0, 0⟩ (by decide!)⟩

/-- C21 (code does not do this): the point `(1, 0, 0)` on the boundary of the sample
slab `-1 ≤ x ≤ 1` has signed distance `0` to the first plane and `-2` to the second,
so it is on the thick triangle, and `point_inside` returns `false`: the test is
`calc_signed_distance(point) >= 0.0`. -/
theorem point_inside_rejects_boundary_point :
    on_or_inside Sample.geometry_collaborators Sample.slab_planes ⟨1, 0, 0⟩ = true ∧
      point_inside Sample.geometry_collaborators Sample.slab_planes ⟨1, 0, 0⟩ = false := by
  decide!

theorem point_inside_iff (c : GeometryCollaborators) (planes : List Plane) (point : Point3d) :
    point_inside c planes point = true ↔
      ∀ plane ∈ planes, c.calc_signed_distance plane point < 0 := by
  induction planes with
  | nil => simp [point_inside]
  | cons plane rest ih =>
    unfold point_inside
    rw [List.forall_mem_cons]
    by_cases h : c.calc_signed_distance plane point ≥ 0
    · simp only [if_pos h]
      constructor
      · intro hf; exact absurd hf (by decide)
      · rintro ⟨h1, _⟩; exact absurd h (not_le.mpr h1)
    · simp only [if_neg h]
      rw [ih]
      exact ⟨fun h2 => ⟨not_le.mp h, h2⟩, fun h2 => h2.2⟩

theorem cross_cyclic (a b c : Point3d) :
    (c.sub b).cross (a.sub b) = (b.sub a).cross (c.sub a) ∧
      (a.sub c).cross (b.sub c) = (b.sub a).cross (c.sub a) := by
  simp only [Vector3d.cross, Vector3d.sub, Vector3d.mk.injEq]
  refine ⟨⟨?_, ?_, ?_⟩, ⟨?_, ?_, ?_⟩⟩ <;> ring

theorem edge_normal_outward (c : GeometryCollaborators)
    (hnormalize : ∀ v, ∃ s : ℚ, 0 < s ∧ c.normalize v = v.scale s)
    (vi vj vk : Point3d) (n : Vector3d) (s : ℚ) (hs : 0 < s)
    (hn : n = ((vj.sub vi).cross (vk.sub vi)).scale s) :
    (c.normalize (Vector3d.cross (c.normalize (vj.sub vi)) n)).dot vi =
        (c.normalize (Vector3d.cross (c.normalize (vj.sub vi)) n)).dot vj ∧
      (c.normalize (Vector3d.cross (c.normalize (vj.sub vi)) n)).dot vk ≤
        (c.normalize (Vector3d.cross (c.normalize (vj.sub vi)) n)).dot vj := by
  obtain ⟨s1, hs1, he⟩ := hnormalize (vj.sub vi)
  rw [he]
  obtain ⟨s2, hs2, hpn⟩ := hnormalize (Vector3d.cross ((vj.sub vi).scale s1) n)
  rw [hpn, hn]
  simp only [Vector3d.cross, Vector3d.sub, Vector3d.scale, Vector3d.dot]
  constructor
  · ring
  · have hprod : 0 < s1 * s * s2 := mul_pos (mul_pos hs1 hs) hs2
    have hsq : 0 ≤ ((vj.y - vi.y) * (vk.z - vi.z) - (vj.z - vi.z) * (vk.y - vi.y)) ^ 2 +
        ((vj.z - vi.z) * (vk.x - vi.x) - (vj.x - vi.x) * (vk.z - vi.z)) ^ 2 +
        ((vj.x - vi.x) * (vk.y - vi.y) - (vj.y - vi.y) * (vk.x - vi.x)) ^ 2 := by positivity
    have hmul := mul_nonneg (le_of_lt hprod) hsq
    rw [← sub_nonneg]
    convert hmul using 1
    ring

theorem edge_plane_zero (c : GeometryCollaborators) (tri : Triangle) (n : Vector3d)
    (epsilon : ℚ) :
    edge_plane c tri n epsilon 0 =
      ⟨c.normalize (Vector3d.cross (c.normalize (tri.b.sub tri.a)) n),
        (c.normalize (Vector3d.cross (c.normalize (tri.b.sub tri.a)) n)).dot tri.b +
          epsilon⟩ := rfl

theorem edge_plane_one (c : GeometryCollaborators) (tri : Triangle) (n : Vector3d)
    (epsilon : ℚ) :
    edge_plane c tri n epsilon 1 =
      ⟨c.normalize (Vector3d.cross (c.normalize (tri.c.sub tri.b)) n),
        (c.normalize (Vector3d.cross (c.normalize (tri.c.sub tri.b)) n)).dot tri.c +
          epsilon⟩ := rfl

theorem edge_plane_two (c : GeometryCollaborators) (tri : Triangle) (n : Vector3d)
    (epsilon : ℚ) :
    edge_plane c tri n epsilon 2 =
      ⟨c.normalize (Vector3d.cross (c.normalize (tri.a.sub tri.c)) n),
        (c.normalize (Vector3d.cross (c.normalize (tri.a.sub tri.c)) n)).dot tri.a +
          epsilon⟩ := rfl

theorem construct_from_triangle_error (c : GeometryCollaborators) (self : ThickTriangle)
    (tri : Triangle) (epsilon : ℚ) (h : c.norm (c.calc_normal tri) < c.NEAR_ZERO) :
    construct_from_triangle c self tri epsilon =
      Except.error ⟨tri, c.calc_normal tri, self.planes⟩ := by
  unfold construct_from_triangle
  simp only [if_pos h]

theorem construct_from_triangle_ok (c : GeometryCollaborators) (self : ThickTriangle)
    (tri : Triangle) (epsilon : ℚ) (h : ¬ c.norm (c.calc_normal tri) < c.NEAR_ZERO) :
    construct_from_triangle c self tri epsilon =
      Except.ok ⟨tri, c.calc_normal tri,
        self.planes ++
          [edge_plane c tri (c.calc_normal tri) epsilon 0,
            edge_plane c tri (c.calc_normal tri) epsilon 1,
            edge_plane c tri (c.calc_normal tri) epsilon 2,
            ⟨c.calc_normal tri, c.calc_offset tri (c.calc_normal tri) + epsilon⟩,
            ⟨(c.calc_normal tri).neg, -c.calc_offset tri (c.calc_normal tri) + epsilon⟩]⟩ := by
  have hrange : List.range 3 = [0, 1, 2] := rfl
  unfold construct_from_triangle
  simp only [if_neg h, hrange, List.foldl_cons, List.foldl_nil, List.append_assoc,
    List.singleton_append, List.cons_append, List.nil_append]

theorem unit_factor_pos (v : Vector3d) : 0 < Sample.unit_factor v := by
  unfold Sample.unit_factor
  split
  · exact one_pos
  · rename_i hne
    have hnonneg : 0 ≤ Sample.euclidean_norm v := by
      unfold Sample.euclidean_norm
      exact div_nonneg (Nat.cast_nonneg _) (Nat.cast_nonneg _)
    exact one_div_pos.mpr (lt_of_le_of_ne hnonneg (Ne.symm hne))

/-- C22: `construct_from_triangle` raises the `NumericalException` if and only if the
norm of the normal of the triangle is below `NEAR_ZERO`, and the thick triangle then
has the planes it had before; otherwise the planes are the ones it had before
followed by exactly five planes: the planes of the three edges, then the plane with
the normal and `offset + epsilon` and the plane with the negated normal and
`-offset + epsilon`.  When `normalize` scales its argument by a positive factor and
the normal of the triangle is a positive multiple of `(b - a) x (c - a)`, every edge
plane is offset outward by `epsilon`: moved back by `epsilon` it passes through the
two vertices of its edge and has the third vertex on its inner side. -/
theorem construct_from_triangle_planes (c : GeometryCollaborators) (self : ThickTriangle)
    (tri : Triangle) (epsilon : ℚ)
    (hnormalize : ∀ v, ∃ s : ℚ, 0 < s ∧ c.normalize v = v.scale s)
    (hnormal : ∃ s : ℚ, 0 < s ∧
      c.calc_normal tri = ((tri.b.sub tri.a).cross (tri.c.sub tri.a)).scale s) :
    ((∃ s, construct_from_triangle c self tri epsilon = Except.error s) ↔
        c.norm (c.calc_normal tri) < c.NEAR_ZERO) ∧
      (∀ s, construct_from_triangle c self tri epsilon = Except.error s →
        s.planes = self.planes) ∧
      (∀ s, construct_from_triangle c self tri epsilon = Except.ok s →
        s.planes = self.planes ++
          [edge_plane c tri (c.calc_normal tri) epsilon 0,
            edge_plane c tri (c.calc_normal tri) epsilon 1,
            edge_plane c tri (c.calc_normal tri) epsilon 2,
            ⟨c.calc_normal tri, c.calc_offset tri (c.calc_normal tri) + epsilon⟩,
            ⟨(c.calc_normal tri).neg, -c.calc_offset tri (c.calc_normal tri) + epsilon⟩]) ∧
      (∀ i, i < 3 → ∀ m, m < 3 →
        (edge_plane c tri (c.calc_normal tri) epsilon i).normal.dot (tri.get_vertex m) +
            epsilon ≤ (edge_plane c tri (c.calc_normal tri) epsilon i).offset) ∧
      (∀ i, i < 3 →
        (edge_plane c tri (c.calc_normal tri) epsilon i).normal.dot (tri.get_vertex i) +
            epsilon = (edge_plane c tri (c.calc_normal tri) epsilon i).offset ∧
        (edge_plane c tri (c.calc_normal tri) epsilon i).normal.dot
            (tri.get_vertex (if i < 2 then i + 1 else 0)) + epsilon =
          (edge_plane c tri (c.calc_normal tri) epsilon i).offset) := by
  obtain ⟨s, hs, hn⟩ := hnormal
  have h0 := edge_normal_outward c hnormalize tri.a tri.b tri.c (c.calc_normal tri) s hs hn
  have h1 := edge_normal_outward c hnormalize tri.b tri.c tri.a (c.calc_normal tri) s hs
    (by rw [(cross_cyclic tri.a tri.b tri.c).1]; exact hn)
  have h2 := edge_normal_outward c hnormalize tri.c tri.a tri.b (c.calc_normal tri) s hs
    (by rw [(cross_cyclic tri.a tri.b tri.c).2]; exact hn)
  have hva : tri.get_vertex 0 = tri.a := rfl
  have hvb : tri.get_vertex 1 = tri.b := rfl
  have hvc : tri.get_vertex 2 = tri.c := rfl
  refine ⟨?_, ?_, ?_, ?_, ?_⟩
  · constructor
    · rintro ⟨st, hst⟩
      by_contra hge
      rw [construct_from_triangle_ok c self tri epsilon hge] at hst
      exact Except.noConfusion hst
    · intro hlt
      exact ⟨_, construct_from_triangle_error c self tri epsilon hlt⟩
  · intro st hst
    by_cases hlt : c.norm (c.calc_normal tri) < c.NEAR_ZERO
    · rw [construct_from_triangle_error c self tri epsilon hlt] at hst
      injection hst with hst
      rw [← hst]
    · rw [construct_from_triangle_ok c self tri epsilon hlt] at hst
      exact Except.noConfusion hst
  · intro st hst
    by_cases hlt : c.norm (c.calc_normal tri) < c.NEAR_ZERO
    · rw [construct_from_triangle_error c self tri epsilon hlt] at hst
      exact Except.noConfusion hst
    · rw [construct_from_triangle_ok c self tri epsilon hlt] at hst
      injection hst with hst
      rw [← hst]
  · intro i hi m hm
    interval_cases i
    · rw [edge_plane_zero]
      interval_cases m
      · rw [hva]; exact le_of_eq (by rw [h0.1])
      · rw [hvb]
      · rw [hvc]; exact add_le_add_right h0.2 _
    · rw [edge_plane_one]
      interval_cases m
      · rw [hva]; exact add_le_add_right h1.2 _
      · rw [hvb]; exact le_of_eq (by rw [h1.1])
      · rw [hvc]
    · rw [edge_plane_two]
      interval_cases m
      · rw [hva]
      · rw [hvb]; exact add_le_add_right h2.2 _
      · rw [hvc]; exact le_of_eq (by rw [h2.1])
  · intro i hi
    interval_cases i
    · rw [edge_plane_zero]
      exact ⟨by rw [hva, h0.1], by rw [if_pos (by decide), hvb]⟩
    · rw [edge_plane_one]
      exact ⟨by rw [hvb, h1.1], by rw [if_pos (by decide), hvc]⟩
    · rw [edge_plane_two]
      exact ⟨by rw [hvc, h2.1], by rw [if_neg (by decide), hva]⟩

/-- Witness of C22: the thick triangle of the sample right triangle with
`epsilon = 1/10`. -/
theorem construct_from_triangle_planes_witness :
    (∀ v, ∃ s : ℚ, 0 < s ∧ Sample.geometry_collaborators.normalize v = v.scale s) ∧
      (∃ s : ℚ, 0 < s ∧ Sample.geometry_collaborators.calc_normal Sample.right_triangle =
        ((Sample.right_triangle.b.sub Sample.right_triangle.a).cross
          (Sample.right_triangle.c.sub Sample.right_triangle.a)).scale s) ∧
      (construct_from_triangle Sample.geometry_collaborators Sample.no_planes
        Sample.right_triangle (1 / 10)).toOption =
        some ⟨Sample.right_triangle, ⟨0, 0, 1⟩,
          [⟨⟨0, -1, 0⟩, 1 / 10⟩, ⟨⟨4 / 5, 3 / 5, 0⟩, 5 / 2⟩, ⟨⟨-1, 0, 0⟩, 1 / 10⟩,
            ⟨⟨0, 0, 1⟩, 1 / 10⟩, ⟨⟨0, 0, -1⟩, 1 / 10⟩]⟩ ∧
      (((∃ s, construct_from_triangle Sample.geometry_collaborators Sample.no_planes
            Sample.right_triangle (1 / 10) = Except.error s) ↔
          Sample.geometry_collaborators.norm
            (Sample.geometry_collaborators.calc_normal Sample.right_triangle) <
            Sample.geometry_collaborators.NEAR_ZERO) ∧
        (∀ s, construct_from_triangle Sample.geometry_collaborators Sample.no_planes
            Sample.right_triangle (1 / 10) = Except.error s →
          s.planes = Sample.no_planes.planes) ∧
        (∀ s, construct_from_triangle Sample.geometry_collaborators Sample.no_planes
            Sample.right_triangle (1 / 10) = Except.ok s →
          s.planes = Sample.no_planes.planes ++
            [edge_plane Sample.geometry_collaborators Sample.right_triangle
                (Sample.geometry_collaborators.calc_normal Sample.right_triangle) (1 / 10) 0,
              edge_plane Sample.geometry_collaborators Sample.right_triangle
                (Sample.geometry_collaborators.calc_normal Sample.right_triangle) (1 / 10) 1,
              edge_plane Sample.geometry_collaborators Sample.right_triangle
                (Sample.geometry_collaborators.calc_normal Sample.right_triangle) (1 / 10) 2,
              ⟨Sample.geometry_collaborators.calc_normal Sample.right_triangle,
                Sample.geometry_collaborators.calc_offset Sample.right_triangle
                  (Sample.geometry_collaborators.calc_normal Sample.right_triangle) + 1 / 10⟩,
              ⟨(Sample.geometry_collaborators.calc_normal Sample.right_triangle).neg,
                -Sample.geometry_collaborators.calc_offset Sample.right_triangle
                  (Sample.geometry_collaborators.calc_normal Sample.right_triangle) +
                  1 / 10⟩]) ∧
        (∀ i, i < 3 → ∀ m, m < 3 →
          (edge_plane Sample.geometry_collaborators Sample.right_triangle
              (Sample.geometry_collaborators.calc_normal Sample.right_triangle) (1 / 10)
              i).normal.dot (Sample.right_triangle.get_vertex m) + 1 / 10 ≤
            (edge_plane Sample.geometry_collaborators Sample.right_triangle
              (Sample.geometry_collaborators.calc_normal Sample.right_triangle) (1 / 10)
              i).offset) ∧
        (∀ i, i < 3 →
          (edge_plane Sample.geometry_collaborators Sample.right_triangle
              (Sample.geometry_collaborators.calc_normal Sample.right_triangle) (1 / 10)
              i).normal.dot (Sample.right_triangle.get_vertex i) + 1 / 10 =
            (edge_plane Sample.geometry_collaborators Sample.right_triangle
              (Sample.geometry_collaborators.calc_normal Sample.right_triangle) (1 / 10)
              i).offset ∧
          (edge_plane Sample.geometry_collaborators Sample.right_triangle
              (Sample.geometry_collaborators.calc_normal Sample.right_triangle) (1 / 10)
              i).normal.dot
              (Sample.right_triangle.get_vertex (if i < 2 then i + 1 else 0)) + 1 / 10 =
            (edge_plane Sample.geometry_collaborators Sample.right_triangle
              (Sample.geometry_collaborators.calc_normal Sample.right_triangle) (1 / 10)
              i).offset)) :=
  ⟨fun v => ⟨Sample.unit_factor v, unit_factor_pos v, rfl⟩,
    ⟨Sample.unit_factor _, unit_factor_pos _, rfl⟩,
    by decide!,
    construct_from_triangle_planes Sample.geometry_collaborators Sample.no_planes
      Sample.right_triangle (1 / 10)
      (fun v => ⟨Sample.unit_factor v, unit_factor_pos v, rfl⟩)
      ⟨Sample.unit_factor _, unit_factor_pos _, rfl⟩⟩

end ThickTriangle

theorem shares_body_iff (a b : UnilateralConstraint) :
    shares_body a b = true ↔ ∃ x, x ∈ referenced_bodies a ∧ x ∈ referenced_bodies b := by
  simp [shares_body]

theorem shares_body_comm (a b : UnilateralConstraint) : shares_body a b = shares_body b a := by
  rw [Bool.eq_iff_iff, shares_body_iff, shares_body_iff]
  constructor <;> rintro ⟨x, h1, h2⟩ <;> exact ⟨x, h2, h1⟩

theorem separated_symmetric : Symmetric separated := by
  intro i1 i2 h a ha b hb
  rw [shares_body_comm]
  exact h b hb a ha

theorem linked_in_symm (isl : List UnilateralConstraint) (a b : UnilateralConstraint)
    (h : linked_in isl a b) : linked_in isl b a := by
  refine Relation.ReflTransGen.symmetric ?_ h
  rintro x y ⟨hx, hy, hxy⟩
  exact ⟨hy, hx, by rw [shares_body_comm]; exact hxy⟩

theorem linked_in_mono (i1 i2 : List UnilateralConstraint) (hsub : ∀ x ∈ i1, x ∈ i2)
    (a b : UnilateralConstraint) (h : linked_in i1 a b) : linked_in i2 a b := by
  refine Relation.ReflTransGen.mono ?_ h
  rintro x y ⟨hx, hy, hxy⟩
  exact ⟨hsub x hx, hsub y hy, hxy⟩

theorem insert_constraint_spec (e : UnilateralConstraint)
    (islands : List (List UnilateralConstraint)) (hP : islands.Pairwise separated)
    (hC : ∀ isl ∈ islands, ∀ a ∈ isl, ∀ b ∈ isl, linked_in isl a b) :
    ((insert_constraint e islands).flatten.Perm (islands.flatten ++ [e])) ∧
      (insert_constraint e islands).Pairwise separated ∧
      ∀ isl ∈ insert_constraint e islands, ∀ a ∈ isl, ∀ b ∈ isl, linked_in isl a b := by
  unfold insert_constraint
  simp only
  refine ⟨?_, ?_, ?_⟩
  · rw [List.flatten_cons]
    have h1 := (List.filter_append_perm (fun isl => isl.any (shares_body e)) islands).flatten
    rw [List.flatten_append] at h1
    have h2 : ((List.filter (fun isl => isl.any (shares_body e)) islands).flatten ++ [e] ++
        (List.filter (fun isl => !isl.any (shares_body e)) islands).flatten).Perm
        ((List.filter (fun isl => isl.any (shares_body e)) islands).flatten ++
          (List.filter (fun isl => !isl.any (shares_body e)) islands).flatten ++ [e]) := by
      rw [List.append_assoc, List.append_assoc]
      exact List.Perm.append_left _ List.perm_append_comm
    exact h2.trans (List.Perm.append_right _ h1)
  · rw [List.pairwise_cons]
    refine ⟨?_, List.Pairwise.sublist (List.filter_sublist _) hP⟩
    intro o ho a ha b hb
    rw [List.mem_filter] at ho
    obtain ⟨ho1, ho2⟩ := ho
    rw [List.mem_append, List.mem_flatten, List.mem_singleton] at ha
    rcases ha with ⟨T, hT, haT⟩ | rfl
    · rw [List.mem_filter] at hT
      have hne : T ≠ o := by
        rintro rfl
        rw [hT.2] at ho2
        exact absurd ho2 (by decide)
      exact List.Pairwise.forall separated_symmetric hP hT.1 ho1 hne a haT b hb
    · simp only [Bool.not_eq_true', List.any_eq_false] at ho2
      have := ho2 b hb
      simpa using this
  · intro isl hisl
    rw [List.mem_cons] at hisl
    rcases hisl with rfl | hisl
    · have hhub : ∀ a ∈ (List.filter (fun isl => isl.any (shares_body e)) islands).flatten ++ [e],
          linked_in ((List.filter (fun isl => isl.any (shares_body e)) islands).flatten ++ [e])
            a e := by
        intro a ha
        have ha1 := ha
        rw [List.mem_append, List.mem_flatten, List.mem_singleton] at ha1
        rcases ha1 with ⟨T, hT, haT⟩ | rfl
        · have hTsub : ∀ x ∈ T,
              x ∈ (List.filter (fun isl => isl.any (shares_body e)) islands).flatten ++ [e] := by
            intro x hx
            rw [List.mem_append, List.mem_flatten]
            exact Or.inl ⟨T, hT, hx⟩
          rw [List.mem_filter] at hT
          obtain ⟨c, hc, hec⟩ := List.any_eq_true.mp hT.2
          have h1 := linked_in_mono T _ hTsub a c (hC T hT.1 a haT c hc)
          refine Relation.ReflTransGen.tail h1 ⟨hTsub c hc, ?_, ?_⟩
          · rw [List.mem_append, List.mem_singleton]; exact Or.inr rfl
          · rw [shares_body_comm]; exact hec
        · exact Relation.ReflTransGen.refl
      intro a ha b hb
      exact Relation.ReflTransGen.trans (hhub a ha) (linked_in_symm _ _ _ (hhub b hb))
    · exact hC isl (List.mem_filter.mp hisl).1

theorem determine_connected_constraints_spec (constraints : List UnilateralConstraint) :
    ∀ islands : List (List UnilateralConstraint), islands.Pairwise separated →
      (∀ isl ∈ islands, ∀ a ∈ isl, ∀ b ∈ isl, linked_in isl a b) →
      ((constraints.foldl (fun islands e => insert_constraint e islands) islands).flatten.Perm
          (islands.flatten ++ constraints)) ∧
        (constraints.foldl (fun islands e => insert_constraint e islands) islands).Pairwise
          separated ∧
        ∀ isl ∈ constraints.foldl (fun islands e => insert_constraint e islands) islands,
          ∀ a ∈ isl, ∀ b ∈ isl, linked_in isl a b := by
  induction constraints with
  | nil =>
    intro islands hP hC
    exact ⟨by rw [List.append_nil]; exact List.Perm.refl _, hP, hC⟩
  | cons e rest ih =>
    intro islands hP hC
    obtain ⟨h1, h2, h3⟩ := insert_constraint_spec e islands hP hC
    obtain ⟨g1, g2, g3⟩ := ih (insert_constraint e islands) h2 h3
    rw [List.foldl_cons]
    refine ⟨?_, g2, g3⟩
    refine g1.trans ?_
    rw [show islands.flatten ++ e :: rest = islands.flatten ++ [e] ++ rest by simp]
    exact List.Perm.append_right _ h1

/-- C18 (counterexample): the partition puts the three contacts of the sample chain
`1`-`2`, `2`-`3`, `3`-`4` into one island, although the first and the last contact
touch the disjoint body sets `1, 2` and `3, 4`. -/
theorem chain_ends_share_an_island :
    determine_connected_constraints Sample.chain = [Sample.chain] ∧
      Sample.contact 4 (Sample.free_body 1) (Sample.free_body 2) ∈ Sample.chain ∧
      Sample.contact 4 (Sample.free_body 3) (Sample.free_body 4) ∈ Sample.chain ∧
      ∀ x ∈ referenced_bodies (Sample.contact 4 (Sample.free_body 1) (Sample.free_body 2)),
        x ∉ referenced_bodies (Sample.contact 4 (Sample.free_body 3) (Sample.free_body 4)) := by
  decide!

/-- C18 (amended): the islands are the connected components of the constraints under
"shares a body": their concatenation is a permutation of the input, so every
constraint appears exactly once; two constraints of the input that share a body are in
the same island; constraints of different islands share no body; and any two
constraints of one island are linked by a chain of constraints of that island in which
each shares a body with the next. -/
theorem islands_are_connected_components (constraints : List UnilateralConstraint) :
    (determine_connected_constraints constraints).flatten.Perm constraints ∧
      (∀ a ∈ constraints, ∀ b ∈ constraints, shares_body a b = true →
        ∃ isl ∈ determine_connected_constraints constraints, a ∈ isl ∧ b ∈ isl) ∧
      (determine_connected_constraints constraints).Pairwise separated ∧
      ∀ isl ∈ determine_connected_constraints constraints, ∀ a ∈ isl, ∀ b ∈ isl,
        linked_in isl a b := by
  obtain ⟨h1, h2, h3⟩ := determine_connected_constraints_spec constraints []
    List.Pairwise.nil (fun isl hisl => absurd hisl (List.not_mem_nil _))
  rw [List.flatten_nil, List.nil_append] at h1
  refine ⟨h1, ?_, h2, h3⟩
  intro a ha b hb hab
  obtain ⟨i1, hi1, ha1⟩ := List.mem_flatten.mp (h1.mem_iff.mpr ha)
  obtain ⟨i2, hi2, hb2⟩ := List.mem_flatten.mp (h1.mem_iff.mpr hb)
  by_cases heq : i1 = i2
  · subst heq
    exact ⟨i1, hi1, ha1, hb2⟩
  · have hsep := List.Pairwise.forall separated_symmetric h2 hi1 hi2 heq a ha1 b hb2
    rw [hab] at hsep
    exact absurd hsep (by decide)

/-- C23 (code does not do this): for the sphere of radius `1`, `calc_volume` returns
`M_PI`, which is less than the volume `(4/3) * π * 1 ^ 3`: the factor `4/3` is
missing. -/
theorem calc_volume_lacks_factor :
    BoundingSphere.calc_volume ⟨⟨0, 0, 0⟩, 1⟩ = M_PI ∧
      ((BoundingSphere.calc_volume ⟨⟨0, 0, 0⟩, 1⟩ : ℚ) : ℝ) < 4 / 3 * Real.pi * (1 : ℝ) ^ 3 := by
  have h1 : BoundingSphere.calc_volume ⟨⟨0, 0, 0⟩, 1⟩ = M_PI := by
    simp [BoundingSphere.calc_volume]
  refine ⟨h1, ?_⟩
  rw [h1]
  have h2 : ((M_PI : ℚ) : ℝ) < 4 := by
    have : (M_PI : ℚ) < 4 := by unfold M_PI; norm_num
    exact_mod_cast this
  have h3 := Real.pi_gt_three
  linarith

end Moby
